import Mathlib

/-!
# Session and token protocol of the auth plugin

A shallow embedding of `plugins/auth/services/service.go`, `internal/auth/claims_tokens.go`,
`internal/auth/jwt.go`, `internal/uuid/uuidv7.go`, the session models of
`plugins/auth/models`, the login, refresh and logout handlers of `plugins/auth/handlers`,
the claims middlewares of `plugins/auth/middleware.go` and `internal/server/middleware.go`,
`AttachMiddleware` of `internal/plugins/registry.go`, the event bus of `internal/events`,
`GetGormDB` of `internal/db` and `packageNameFromID` of `internal/console`.

* The database handle `s.db` is an explicit `DB` value holding the four tables the
  service touches; every service method returns its Go result together with the
  database it leaves behind.
* Readings of the clock and of `crypto/rand` are explicit inputs, collected in `Env`,
  one field per call site. A clock reading is an exact count of nanoseconds;
  `UnixNano` cuts it to an `int64` as the Go method does.
* The primitives of external libraries (SHA-256, bcrypt comparison, HMAC) are
  uninterpreted functions collected in `Lib` and `LibHMAC`; every theorem holds for
  all of them.
* A signed token is kept in decoded form (`TokenString`): header algorithm, claim
  payload and signature, or text that is not a compact JWS.
* Concurrent calls are runs of `RefreshCall.step`, one database statement per
  step, under a schedule (`runInterleaved`); four steps in a row are one
  `RefreshTokens` call.
* Router groups are named by numbers and a heap maps each to its handler slice, so
  that two targets of the router map may name the same group.
* The database is reachable: an ORM call fails only by finding no row
  (`gorm.ErrRecordNotFound`) or by an insert that repeats a primary key. The
  uniqueness of the primary key is the only table constraint modelled; the struct
  tags of the session models declare no other.
* Package variables (`accessSecret`, the handlers of the event bus, `gormDB` and its
  `sync.Once`) are explicit values passed to and returned by the functions that use
  them; the process environment is a function from variable names to strings.
* Handlers of the event bus are named by numbers; a request context is its map of
  keys, for string values.
-/

namespace AppNode

/-! ## Basic types -/

/-- A Go `time.Time`, as nanoseconds since the Unix epoch. -/
abbrev Time := Int

/-- A Go `time.Duration`, in nanoseconds. -/
abbrev Duration := Int

/-- One byte. -/
abbrev Byte := Fin 256

/-- Go conversion `byte(x)` of an unsigned integer. -/
def byte (x : Nat) : Byte := ⟨x % 256, Nat.mod_lt x (by decide)⟩

/-- The value `time.Time{}` (January 1, year 1, 00:00 UTC). -/
def zeroTime : Time := -62135596800 * 1000000000

/-- Go error values that the modelled code produces or forwards. -/
inductive Err where
  /-- The value `errors.New(msg)`. -/
  | New (msg : String)
  /-- The value `gorm.ErrRecordNotFound`. -/
  | ErrRecordNotFound
  /-- A primary-key violation reported by the database on insert. -/
  | UniqueViolation
  /-- An error returned by `crypto/rand.Read`. -/
  | RandRead
  /-- The value `jwt.ErrTokenMalformed`. -/
  | ErrTokenMalformed
  /-- The value `jwt.ErrTokenUnverifiable`. -/
  | ErrTokenUnverifiable
  /-- The value `jwt.ErrTokenSignatureInvalid`. -/
  | ErrTokenSignatureInvalid
  /-- The value `jwt.ErrTokenExpired`. -/
  | ErrTokenExpired
  deriving DecidableEq, Repr

/-- The method `Error()` of an error value. The token parser returns each of its
four errors joined with its cause: the text given is the one for a token that
does not split into three segments, for a method that the key function refuses,
for a signature that does not match, and for an `exp` claim that has passed. -/
def Err.Error : Err → String
  | .New msg => msg
  | .ErrRecordNotFound => "record not found"
  | .UniqueViolation => "duplicate key value violates unique constraint"
  | .RandRead => "crypto/rand: read failed"
  | .ErrTokenMalformed => "token is malformed: token contains an invalid number of segments"
  | .ErrTokenUnverifiable =>
    "token is unverifiable: error while executing keyfunc: unexpected signing method"
  | .ErrTokenSignatureInvalid => "token signature is invalid: signature is invalid"
  | .ErrTokenExpired => "token has invalid claims: token is expired"

/-! ## Token payloads -/

/-- The JSON object carried by a token: the claims that the two codecs of
`internal/auth` write or read; `none` is an absent key. -/
structure Payload where
  admin_id : Option String
  level : Option String
  sub : Option String
  typ : Option String
  exp : Option Int
  iat : Option Int
  deriving DecidableEq, Repr

/-- A token string up to its compact serialisation: either the three decoded
segments (header algorithm, claims, signature) or text that does not split and
decode into three segments. The empty string is `malformed ""`. -/
inductive TokenString where
  | malformed (raw : String)
  | compact (alg : String) (payload : Payload) (sig : List Byte)
  deriving DecidableEq, Repr

/-- Primitives of external libraries, left uninterpreted. -/
structure Lib where
  /-- The digest `sha256.Sum256([]byte(s))`, a `[32]byte`. -/
  Sum256 : String → Fin 32 → Byte
  /-- Whether `bcrypt.CompareHashAndPassword(hash, pw)` returns a nil error. -/
  CompareHashAndPassword : String → String → Bool
  /-- HMAC-SHA256 of the signing string (header and claims segments) under a key. -/
  HMACSHA256 : String → String → Payload → List Byte

/-! ## `encoding/hex` -/

/-- The table `hextable` of `encoding/hex`. -/
def hextable : List Char := "0123456789abcdef".toList

/-- The function `hex.EncodeToString`. -/
def EncodeToString (src : List Byte) : String :=
  String.mk (src.flatMap fun v => [hextable.getD (v.val >>> 4) '0', hextable.getD (v.val &&& 0x0f) '0'])

/-! ## `internal/uuid` -/

/-- The method `Time.UnixNano`: the nanoseconds since the epoch as an `int64`. It
is computed in 64-bit arithmetic, so a count outside the range of `int64` wraps
modulo 2^64. -/
def UnixNano (t : Time) : Int :=
  (t + 9223372036854775808) % 18446744073709551616 - 9223372036854775808

/-- The function `uuid.New`: `now` is the reading of `time.Now()`, `rnd` the ten
bytes delivered by `rand.Read` (`none` when it fails). -/
def uuid.New (now : Time) (rnd : Option (Fin 10 → Byte)) : Except Err String :=
  let ts : Nat :=
    (Int.tdiv (UnixNano now) 1000000 % 18446744073709551616).toNat &&& 0xFFFFFFFFFFFF
  match rnd with
  | none => .error .RandRead
  | some r =>
    let b : List Byte :=
      [ byte (ts >>> 40), byte (ts >>> 32), byte (ts >>> 24), byte (ts >>> 16),
        byte (ts >>> 8), byte ts,
        byte (((r 0).val &&& 0x0F) ||| 0x70), r 1,
        byte (((r 2).val &&& 0x3F) ||| 0x80),
        r 3, r 4, r 5, r 6, r 7, r 8, r 9 ]
    let hexs : List Char := (EncodeToString b).toList
    .ok (String.mk ((hexs.take 8) ++ ['-'] ++ ((hexs.drop 8).take 4) ++ ['-']
      ++ ((hexs.drop 12).take 4) ++ ['-'] ++ ((hexs.drop 16).take 4) ++ ['-']
      ++ ((hexs.drop 20).take 12)))

/-- The variable `ts` of `uuid.New`: the `int64` clock reading divided down to
milliseconds, converted to `uint64` and cut to its low 48 bits. -/
def uuid.ts (now : Time) : Nat :=
  (Int.tdiv (UnixNano now) 1000000 % 18446744073709551616).toNat &&& 0xFFFFFFFFFFFF

/-- The number written by a string of lowercase hexadecimal digits, most
significant digit first. -/
def hexValue (cs : List Char) : Nat :=
  cs.foldl (fun acc c => acc * 16 + hextable.indexOf c) 0

/-! ## `internal/auth`: configuration and the claims codec -/

/-- Package variables of `internal/auth` after initialisation. -/
structure Config where
  accessSecret : String
  refreshSecret : String
  accessExp : Int
  refreshExp : Int
  deriving DecidableEq, Repr

/-- The struct `AccessClaims` with the two registered claims the code sets; the
dates are `jwt.NumericDate` values in whole seconds. -/
structure AccessClaims where
  AdminID : String
  Level : String
  ExpiresAt : Option Int
  IssuedAt : Option Int
  deriving DecidableEq, Repr

/-- The function `jwt.NewNumericDate`: truncation to the second. -/
def NewNumericDate (t : Time) : Int := t / 1000000000

/-- JSON encoding of `AccessClaims`: `admin_id` and `level` are always written,
the registered claims carry `omitempty`. -/
def AccessClaims.marshal (c : AccessClaims) : Payload :=
  { admin_id := some c.AdminID, level := some c.Level, sub := none, typ := none,
    exp := c.ExpiresAt, iat := c.IssuedAt }

/-- JSON decoding into `AccessClaims`: absent keys leave the zero value. -/
def AccessClaims.unmarshal (p : Payload) : AccessClaims :=
  { AdminID := p.admin_id.getD "", Level := p.level.getD "",
    ExpiresAt := p.exp, IssuedAt := p.iat }

/-- The call `jwt.NewWithClaims(jwt.SigningMethodHS256, claims).SignedString(key)`. -/
def SignedStringHS256 (L : Lib) (claims : Payload) (key : String) : Except Err TokenString :=
  .ok (.compact "HS256" claims (L.HMACSHA256 key "HS256" claims))

/-- The function `GenerateAccessTokenWithLevel`; `now` and `nowIat` are its two
readings of `time.Now()`. -/
def GenerateAccessTokenWithLevel (L : Lib) (cfg : Config) (now nowIat : Time)
    (adminID level : String) (ttl : Duration) : Except Err (TokenString × Time) :=
  let secret := cfg.accessSecret
  if secret = "" then .error (.New "jwt secret is empty")
  else
    let exp := now + ttl
    let claims : AccessClaims :=
      { AdminID := adminID, Level := level,
        ExpiresAt := some (NewNumericDate exp), IssuedAt := some (NewNumericDate nowIat) }
    match SignedStringHS256 L claims.marshal secret with
    | .error err => .error err
    | .ok signed => .ok (signed, exp)

/-- The call `jwt.ParseWithClaims(tokenStr, &AccessClaims{}, keyFunc)` with the key
function of `ParseAccessTokenClaims`, which accepts `jwt.SigningMethodHS256` only and
returns the secret: segment decoding, key function, signature check, then the
default claim validation (`exp`, when present, must lie after `now`). -/
def ParseWithClaimsHS256 (L : Lib) (secret : String) (now : Time) (tokenStr : TokenString) :
    Except Err AccessClaims :=
  match tokenStr with
  | .malformed _ => .error .ErrTokenMalformed
  | .compact alg payload sig =>
    if alg ≠ "HS256" then .error .ErrTokenUnverifiable
    else if sig ≠ L.HMACSHA256 secret alg payload then .error .ErrTokenSignatureInvalid
    else
      match payload.exp with
      | some e => if now < e * 1000000000 then .ok (AccessClaims.unmarshal payload)
                  else .error .ErrTokenExpired
      | none => .ok (AccessClaims.unmarshal payload)

/-- The function `ParseAccessTokenClaims`; `now` is the clock read by the validator. -/
def ParseAccessTokenClaims (L : Lib) (cfg : Config) (now : Time) (tokenStr : TokenString) :
    Except Err AccessClaims :=
  if tokenStr = .malformed "" then .error (.New "empty token")
  else
    let secret := cfg.accessSecret
    if secret = "" then .error (.New "jwt secret is empty")
    else
      match ParseWithClaimsHS256 L secret now tokenStr with
      | .error err => .error err
      | .ok claims => .ok claims

/-- The function `HashOpaqueToken`. -/
def HashOpaqueToken (L : Lib) (tok : String) : String :=
  EncodeToString (List.ofFn (L.Sum256 tok))

/-- The function `GenerateOpaqueRefreshToken`; `rnd` is the result of `rand.Read`
on the 48-byte buffer (`none` when it fails). -/
def GenerateOpaqueRefreshToken (L : Lib) (rnd : Option (Fin 48 → Byte)) :
    Except Err (String × String) :=
  match rnd with
  | none => .error .RandRead
  | some b =>
    let plain := EncodeToString (List.ofFn b)
    let hash := EncodeToString (List.ofFn (L.Sum256 plain))
    .ok (plain, hash)

/-! ## `plugins/auth/models` -/

/-- The struct `models.Admin`. -/
structure Admin where
  ID : String
  Username : String
  Email : String
  PasswordHash : String
  Level : String
  IsActive : Bool
  LastLoginAt : Option Time
  CreatedAt : Time
  UpdatedAt : Time
  deriving DecidableEq, Repr

/-- The struct `models.AdminSession`. -/
structure AdminSession where
  ID : String
  AdminID : String
  RefreshTokenHash : String
  UserAgent : Option String
  IPAddress : Option String
  CreatedAt : Time
  ExpiresAt : Option Time
  Revoked : Bool
  deriving DecidableEq, Repr

/-- The struct `models.Customer`. -/
structure Customer where
  ID : String
  Email : String
  PasswordHash : String
  FullName : String
  IsActive : Bool
  EmailVerifiedAt : Option Time
  Status : String
  CreatedAt : Time
  UpdatedAt : Time
  deriving DecidableEq, Repr

/-- The struct `models.CustomerSession`. -/
structure CustomerSession where
  ID : String
  CustomerID : String
  RefreshTokenHash : String
  UserAgent : String
  IPAddress : String
  CreatedAt : Time
  ExpiresAt : Option Time
  Revoked : Bool
  deriving DecidableEq, Repr

/-- The tables reached through `s.db`. -/
structure DB where
  admins : List Admin
  admin_sessions : List AdminSession
  customers : List Customer
  customer_sessions : List CustomerSession
  deriving DecidableEq, Repr

/-! ## The ORM calls used by the service -/

/-- The row with the least primary key among `rows` (the `ORDER BY id LIMIT 1` of
gorm's `First`); keys compare as character sequences. -/
def leastByKey {α : Type} (key : α → String) : List α → Option α
  | [] => none
  | r :: rs =>
    match leastByKey key rs with
    | none => some r
    | some b => if (key b).toList < (key r).toList then some b else some r

/-- The call `db.Where(cond).First(&dest)`: the matching row with the least primary key,
or `gorm.ErrRecordNotFound`. -/
def dbFirst {α : Type} (key : α → String) (cond : α → Bool) (rows : List α) : Except Err α :=
  match leastByKey key (rows.filter cond) with
  | none => .error .ErrRecordNotFound
  | some r => .ok r

/-- The call `db.Model(&models.AdminSession{}).Where(cond).Update("revoked", true)`:
every matching row gets `revoked = true`; no error when nothing matches. -/
def updateRevokedAdmin (cond : AdminSession → Bool) (rows : List AdminSession) :
    List AdminSession :=
  rows.map fun s => if cond s then { s with Revoked := true } else s

/-- The call `db.Model(&models.CustomerSession{}).Where(cond).Update("revoked", true)`. -/
def updateRevokedCustomer (cond : CustomerSession → Bool) (rows : List CustomerSession) :
    List CustomerSession :=
  rows.map fun s => if cond s then { s with Revoked := true } else s

/-- Readings of the clock and of the random source made during one service call,
one field per call site. -/
structure Env where
  /-- The call `time.Now()` in the expiry check of a refresh. -/
  nowExpiryCheck : Time
  /-- The call `time.Now()` that fixes `exp` in `GenerateAccessTokenWithLevel`. -/
  nowAccessExp : Time
  /-- The call `time.Now()` that fixes `iat` in `GenerateAccessTokenWithLevel`. -/
  nowAccessIat : Time
  /-- The call `rand.Read` in `GenerateOpaqueRefreshToken`. -/
  randRefresh : Option (Fin 48 → Byte)
  /-- The call `time.Now()` that fixes the refresh expiry. -/
  nowRefreshExp : Time
  /-- The call `time.Now()` in `uuid.New`. -/
  nowUUID : Time
  /-- The call `rand.Read` in `uuid.New`. -/
  randUUID : Option (Fin 10 → Byte)
  /-- The clock read by the ORM for `autoCreateTime`. -/
  nowCreatedAt : Time

/-- The hook `AdminSession.BeforeCreate`. -/
def AdminSession.BeforeCreate (e : Env) (a : AdminSession) : Except Err AdminSession :=
  if a.ID = "" then
    match uuid.New e.nowUUID e.randUUID with
    | .error err => .error err
    | .ok id => .ok { a with ID := id }
  else .ok a

/-- The hook `CustomerSession.BeforeCreate`. -/
def CustomerSession.BeforeCreate (e : Env) (c : CustomerSession) : Except Err CustomerSession :=
  if c.ID = "" then
    match uuid.New e.nowUUID e.randUUID with
    | .error err => .error err
    | .ok id => .ok { c with ID := id }
  else .ok c

/-! ## `plugins/auth/services` -/

/-- The method `AuthService.GetAdminByEmail`. -/
def GetAdminByEmail (db : DB) (email : String) : Except Err Admin :=
  match dbFirst Admin.ID (fun a => a.Email == email) db.admins with
  | .error err => .error err
  | .ok a => .ok a

/-- The method `AuthService.GetAdminByID`. -/
def GetAdminByID (db : DB) (id : String) : Except Err Admin :=
  match dbFirst Admin.ID (fun a => a.ID == id) db.admins with
  | .error err => .error err
  | .ok a => .ok a

/-- The method `AuthService.CreateSession`: the `BeforeCreate` hook, the
`autoCreateTime` stamp, then the insert, which the primary key may reject. Returns
the error (if any), the struct as the ORM leaves it, and the database. -/
def CreateSession (e : Env) (db : DB) (sess : AdminSession) :
    Except Err AdminSession × DB :=
  match AdminSession.BeforeCreate e sess with
  | .error err => (.error err, db)
  | .ok s1 =>
    let row : AdminSession :=
      { s1 with CreatedAt := if s1.CreatedAt = zeroTime then e.nowCreatedAt else s1.CreatedAt }
    if db.admin_sessions.any (fun s => s.ID == row.ID) then (.error .UniqueViolation, db)
    else (.ok row, { db with admin_sessions := db.admin_sessions ++ [row] })

/-- The method `AuthService.RevokeSession`. -/
def RevokeSession (db : DB) (id : String) : Option Err × DB :=
  (none, { db with admin_sessions := updateRevokedAdmin (fun s => s.ID == id) db.admin_sessions })

/-- The method `AuthService.CheckPassword`. -/
def CheckPassword (L : Lib) (hash pw : String) : Bool :=
  if L.CompareHashAndPassword hash pw then true else false

/-- The package variable `defaultAccessTTL`, `15 * time.Minute`. -/
def defaultAccessTTL : Duration := 15 * (60 * 1000000000)

/-- The package variable `defaultRefreshTTL`, `7 * 24 * time.Hour`. -/
def defaultRefreshTTL : Duration := 7 * 24 * (3600 * 1000000000)

/-- The five non-error results of a login or refresh. -/
structure Tokens where
  accessToken : TokenString
  accessExp : Time
  refreshPlain : String
  refreshExp : Time
  sessionID : String
  deriving DecidableEq, Repr

/-- The method `AuthService.AuthenticateAndCreateSession`. -/
def AuthenticateAndCreateSession (L : Lib) (cfg : Config) (e : Env) (db : DB)
    (email password : String) : Except Err Tokens × DB :=
  match GetAdminByEmail db email with
  | .error err => (.error err, db)
  | .ok admin =>
    if !CheckPassword L admin.PasswordHash password then
      (.error (.New "invalid credentials"), db)
    else if !admin.IsActive then
      (.error (.New "account inactive"), db)
    else
      match GenerateAccessTokenWithLevel L cfg e.nowAccessExp e.nowAccessIat
          admin.ID admin.Level defaultAccessTTL with
      | .error err => (.error err, db)
      | .ok (at_, aexp) =>
        match GenerateOpaqueRefreshToken L e.randRefresh with
        | .error err => (.error err, db)
        | .ok (plain, hash) =>
          let rexpires := e.nowRefreshExp + defaultRefreshTTL
          let sess : AdminSession :=
            { ID := "", AdminID := admin.ID, RefreshTokenHash := hash,
              UserAgent := none, IPAddress := none, CreatedAt := zeroTime,
              ExpiresAt := some rexpires, Revoked := false }
          match CreateSession e db sess with
          | (.error err, db1) => (.error err, db1)
          | (.ok created, db1) => (.ok ⟨at_, aexp, plain, rexpires, created.ID⟩, db1)

/-- The method `AuthService.RefreshTokens`. -/
def RefreshTokens (L : Lib) (cfg : Config) (e : Env) (db : DB) (refreshToken : String) :
    Except Err Tokens × DB :=
  let hash := HashOpaqueToken L refreshToken
  match dbFirst AdminSession.ID (fun s => s.RefreshTokenHash == hash) db.admin_sessions with
  | .error _ => (.error (.New "invalid refresh token"), db)
  | .ok sess =>
    if sess.Revoked then (.error (.New "refresh token revoked"), db)
    else if (match sess.ExpiresAt with
             | some t => decide (t < e.nowExpiryCheck)
             | none => false) then
      (.error (.New "refresh token expired"), db)
    else
      match GetAdminByID db sess.AdminID with
      | .error err => (.error err, db)
      | .ok admin =>
        match RevokeSession db sess.ID with
        | (some err, db1) => (.error err, db1)
        | (none, db1) =>
          match GenerateAccessTokenWithLevel L cfg e.nowAccessExp e.nowAccessIat
              admin.ID admin.Level defaultAccessTTL with
          | .error err => (.error err, db1)
          | .ok (at_, aexp) =>
            match GenerateOpaqueRefreshToken L e.randRefresh with
            | .error err => (.error err, db1)
            | .ok (plain, newHash) =>
              let rexpires := e.nowRefreshExp + defaultRefreshTTL
              let newSess : AdminSession :=
                { ID := "", AdminID := admin.ID, RefreshTokenHash := newHash,
                  UserAgent := none, IPAddress := none, CreatedAt := zeroTime,
                  ExpiresAt := some rexpires, Revoked := false }
              match CreateSession e db1 newSess with
              | (.error err, db2) => (.error err, db2)
              | (.ok created, db2) => (.ok ⟨at_, aexp, plain, rexpires, created.ID⟩, db2)

/-- The method `AuthService.RevokeByRefreshHash`. -/
def RevokeByRefreshHash (db : DB) (hash : String) : Option Err × DB :=
  (none, { db with
    admin_sessions := updateRevokedAdmin (fun s => s.RefreshTokenHash == hash) db.admin_sessions })

/-- The method `AuthService.GetCustomerByEmail`. -/
def GetCustomerByEmail (db : DB) (email : String) : Except Err Customer :=
  match dbFirst Customer.ID (fun c => c.Email == email) db.customers with
  | .error err => .error err
  | .ok c => .ok c

/-- The method `AuthService.GetCustomerByID`. -/
def GetCustomerByID (db : DB) (id : String) : Except Err Customer :=
  match dbFirst Customer.ID (fun c => c.ID == id) db.customers with
  | .error err => .error err
  | .ok c => .ok c

/-- The method `AuthService.CreateCustomerSession`. -/
def CreateCustomerSession (e : Env) (db : DB) (sess : CustomerSession) :
    Except Err CustomerSession × DB :=
  match CustomerSession.BeforeCreate e sess with
  | .error err => (.error err, db)
  | .ok s1 =>
    let row : CustomerSession :=
      { s1 with CreatedAt := if s1.CreatedAt = zeroTime then e.nowCreatedAt else s1.CreatedAt }
    if db.customer_sessions.any (fun s => s.ID == row.ID) then (.error .UniqueViolation, db)
    else (.ok row, { db with customer_sessions := db.customer_sessions ++ [row] })

/-- The method `AuthService.RevokeCustomerByRefreshHash`. -/
def RevokeCustomerByRefreshHash (db : DB) (hash : String) : Option Err × DB :=
  (none, { db with
    customer_sessions :=
      updateRevokedCustomer (fun s => s.RefreshTokenHash == hash) db.customer_sessions })

/-- The method `AuthService.CustomerAuthenticateAndCreateSession`. -/
def CustomerAuthenticateAndCreateSession (L : Lib) (cfg : Config) (e : Env) (db : DB)
    (email password : String) : Except Err Tokens × DB :=
  match GetCustomerByEmail db email with
  | .error err => (.error err, db)
  | .ok cust =>
    if !CheckPassword L cust.PasswordHash password then
      (.error (.New "invalid credentials"), db)
    else if !cust.IsActive then
      (.error (.New "account inactive"), db)
    else
      match GenerateAccessTokenWithLevel L cfg e.nowAccessExp e.nowAccessIat
          cust.ID "customer" defaultAccessTTL with
      | .error err => (.error err, db)
      | .ok (at_, aexp) =>
        match GenerateOpaqueRefreshToken L e.randRefresh with
        | .error err => (.error err, db)
        | .ok (plain, hash) =>
          let rexpires := e.nowRefreshExp + defaultRefreshTTL
          let sess : CustomerSession :=
            { ID := "", CustomerID := cust.ID, RefreshTokenHash := hash,
              UserAgent := "", IPAddress := "", CreatedAt := zeroTime,
              ExpiresAt := some rexpires, Revoked := false }
          match CreateCustomerSession e db sess with
          | (.error err, db1) => (.error err, db1)
          | (.ok created, db1) => (.ok ⟨at_, aexp, plain, rexpires, created.ID⟩, db1)

/-- The method `AuthService.CustomerRefreshTokens`. -/
def CustomerRefreshTokens (L : Lib) (cfg : Config) (e : Env) (db : DB)
    (refreshToken : String) : Except Err Tokens × DB :=
  let hash := HashOpaqueToken L refreshToken
  match dbFirst CustomerSession.ID (fun s => s.RefreshTokenHash == hash)
      db.customer_sessions with
  | .error _ => (.error (.New "invalid refresh token"), db)
  | .ok sess =>
    if sess.Revoked then (.error (.New "refresh token revoked"), db)
    else if (match sess.ExpiresAt with
             | some t => decide (t < e.nowExpiryCheck)
             | none => false) then
      (.error (.New "refresh token expired"), db)
    else
      match GetCustomerByID db sess.CustomerID with
      | .error err => (.error err, db)
      | .ok cust =>
        let db1 : DB := { db with
          customer_sessions :=
            updateRevokedCustomer (fun s => s.ID == sess.ID) db.customer_sessions }
        match GenerateAccessTokenWithLevel L cfg e.nowAccessExp e.nowAccessIat
            cust.ID "customer" defaultAccessTTL with
        | .error err => (.error err, db1)
        | .ok (at_, aexp) =>
          match GenerateOpaqueRefreshToken L e.randRefresh with
          | .error err => (.error err, db1)
          | .ok (plain, newHash) =>
            let rexpires := e.nowRefreshExp + defaultRefreshTTL
            let newSess : CustomerSession :=
              { ID := "", CustomerID := cust.ID, RefreshTokenHash := newHash,
                UserAgent := "", IPAddress := "", CreatedAt := zeroTime,
                ExpiresAt := some rexpires, Revoked := false }
            match CreateCustomerSession e db1 newSess with
            | (.error err, db2) => (.error err, db2)
            | (.ok created, db2) => (.ok ⟨at_, aexp, plain, rexpires, created.ID⟩, db2)

/-! ## `plugins/auth/handlers` -/

/-- The struct `loginReq`, after `ShouldBindJSON` accepted the body. -/
structure loginReq where
  Email : String
  Password : String
  deriving DecidableEq, Repr

/-- The struct `refreshReq`, after `ShouldBindJSON` accepted the body. -/
structure refreshReq where
  RefreshToken : String
  deriving DecidableEq, Repr

/-- The JSON object a handler writes: an `error` message, the five token fields,
or `ok: true`. -/
inductive Body where
  | error (msg : String)
  | tokens (t : Tokens)
  | ok
  deriving DecidableEq, Repr

/-- The call `c.JSON(status, body)`. -/
structure Response where
  status : Nat
  body : Body
  deriving DecidableEq, Repr

/-- The handler `LoginHandler`. `req` is the outcome of `ShouldBindJSON` (the bound
request or the binding error text), `gdb` the handle from `db.GetGormDB()` (`none`
when it returns an error or a nil handle). Returns the response and the database. -/
def LoginHandler (L : Lib) (cfg : Config) (e : Env) (req : Except String loginReq)
    (gdb : Option DB) : Response × Option DB :=
  match req with
  | .error msg => (⟨400, .error msg⟩, gdb)
  | .ok req =>
    match gdb with
    | none => (⟨503, .error "db unavailable"⟩, none)
    | some db =>
      match AuthenticateAndCreateSession L cfg e db req.Email req.Password with
      | (.error err, db1) => (⟨401, .error err.Error⟩, some db1)
      | (.ok t, db1) => (⟨200, .tokens t⟩, some db1)

/-- The handler `RefreshHandler`; inputs as for `LoginHandler`. -/
def RefreshHandler (L : Lib) (cfg : Config) (e : Env) (req : Except String refreshReq)
    (gdb : Option DB) : Response × Option DB :=
  match req with
  | .error msg => (⟨400, .error msg⟩, gdb)
  | .ok req =>
    match gdb with
    | none => (⟨503, .error "db unavailable"⟩, none)
    | some db =>
      match RefreshTokens L cfg e db req.RefreshToken with
      | (.error err, db1) => (⟨401, .error err.Error⟩, some db1)
      | (.ok t, db1) => (⟨200, .tokens t⟩, some db1)

/-- The handler `LogoutHandler`; inputs as for `LoginHandler`. -/
def LogoutHandler (L : Lib) (req : Except String refreshReq) (gdb : Option DB) :
    Response × Option DB :=
  match req with
  | .error msg => (⟨400, .error msg⟩, gdb)
  | .ok req =>
    match gdb with
    | none => (⟨503, .error "db unavailable"⟩, none)
    | some db =>
      let hash := HashOpaqueToken L req.RefreshToken
      match RevokeByRefreshHash db hash with
      | (some err, db1) => (⟨500, .error err.Error⟩, some db1)
      | (none, db1) => (⟨200, .ok⟩, some db1)

/-! ## The session manager as a transition system -/

/-- The operations of the session manager, for administrators and customers. A
logout is the call the logout handlers make: hash the presented secret, then revoke
by hash. -/
inductive Op where
  | login (email password : String)
  | refresh (refreshToken : String)
  | logout (refreshToken : String)
  | revokeSession (id : String)
  | revokeByRefreshHash (hash : String)
  | createSession (sess : AdminSession)
  | customerLogin (email password : String)
  | customerRefresh (refreshToken : String)
  | customerLogout (refreshToken : String)
  | revokeCustomerByRefreshHash (hash : String)
  | createCustomerSession (sess : CustomerSession)

/-- The database left behind by one operation. -/
def Op.run (L : Lib) (cfg : Config) (e : Env) (db : DB) : Op → DB
  | .login email password => (AuthenticateAndCreateSession L cfg e db email password).2
  | .refresh r => (RefreshTokens L cfg e db r).2
  | .logout r => (RevokeByRefreshHash db (HashOpaqueToken L r)).2
  | .revokeSession id => (RevokeSession db id).2
  | .revokeByRefreshHash hash => (RevokeByRefreshHash db hash).2
  | .createSession sess => (CreateSession e db sess).2
  | .customerLogin email password =>
      (CustomerAuthenticateAndCreateSession L cfg e db email password).2
  | .customerRefresh r => (CustomerRefreshTokens L cfg e db r).2
  | .customerLogout r => (RevokeCustomerByRefreshHash db (HashOpaqueToken L r)).2
  | .revokeCustomerByRefreshHash hash => (RevokeCustomerByRefreshHash db hash).2
  | .createCustomerSession sess => (CreateCustomerSession e db sess).2

/-- Row `n` agrees with row `o` on every field other than `revoked`, and is revoked
if `o` is. -/
def AdminSession.KeptAs (o n : AdminSession) : Prop :=
  n.ID = o.ID ∧ n.AdminID = o.AdminID ∧ n.RefreshTokenHash = o.RefreshTokenHash
  ∧ n.UserAgent = o.UserAgent ∧ n.IPAddress = o.IPAddress ∧ n.CreatedAt = o.CreatedAt
  ∧ n.ExpiresAt = o.ExpiresAt ∧ (o.Revoked = true → n.Revoked = true)

/-- Row `n` agrees with row `o` on every field other than `revoked`, and is revoked
if `o` is. -/
def CustomerSession.KeptAs (o n : CustomerSession) : Prop :=
  n.ID = o.ID ∧ n.CustomerID = o.CustomerID ∧ n.RefreshTokenHash = o.RefreshTokenHash
  ∧ n.UserAgent = o.UserAgent ∧ n.IPAddress = o.IPAddress ∧ n.CreatedAt = o.CreatedAt
  ∧ n.ExpiresAt = o.ExpiresAt ∧ (o.Revoked = true → n.Revoked = true)

/-- Table `new` keeps every row of `old`, in place and changed at most by setting
`revoked`, and may hold further rows after them. -/
def AppendOnlyAdmin (old new : List AdminSession) : Prop :=
  ∃ kept extra, new = kept ++ extra ∧ List.Forall₂ AdminSession.KeptAs old kept

/-- Table `new` keeps every row of `old`, in place and changed at most by setting
`revoked`, and may hold further rows after them. -/
def AppendOnlyCustomer (old new : List CustomerSession) : Prop :=
  ∃ kept extra, new = kept ++ extra ∧ List.Forall₂ CustomerSession.KeptAs old kept

/-! ## Sample data for the concrete instances -/

/-- A sample choice of the library primitives. -/
def sampleLib : Lib where
  Sum256 := fun s i => byte (s.toList.getD i.val 'x').toNat
  CompareHashAndPassword := fun hash pw => hash == "bcrypt:" ++ pw
  HMACSHA256 := fun key alg _ => (key ++ alg).toList.map fun c => byte c.toNat

/-- A sample configuration: the built-in defaults of `internal/auth`. -/
def sampleCfg : Config :=
  { accessSecret := "change-me-access-secret", refreshSecret := "change-me-refresh-secret",
    accessExp := 600, refreshExp := 1209600 }

/-- A sample environment: the clock stands at 1 700 000 000 s. -/
def sampleEnv : Env :=
  { nowExpiryCheck := 1700000000000000000, nowAccessExp := 1700000000000000001,
    nowAccessIat := 1700000000000000002, randRefresh := some fun i => byte (i.val + 1),
    nowRefreshExp := 1700000000000000003, nowUUID := 1700000000000000004,
    randUUID := some fun i => byte (17 * i.val), nowCreatedAt := 1700000000000000005 }

/-- A later environment with different random draws. -/
def sampleEnv2 : Env :=
  { sampleEnv with
    nowExpiryCheck := 1700000100000000000, nowUUID := 1700000100000000004,
    randRefresh := some fun i => byte (3 * i.val + 5),
    randUUID := some fun i => byte (29 * i.val + 1) }

/-- An active administrator. -/
def sampleAdmin : Admin :=
  { ID := "018bcfe5-0000-7000-8000-0000000000a1", Username := "root", Email := "a@example.com",
    PasswordHash := "bcrypt:correct", Level := "SUPERADMIN", IsActive := true,
    LastLoginAt := none, CreatedAt := 1600000000000000000, UpdatedAt := 1600000000000000000 }

/-- A deactivated administrator. -/
def sampleInactiveAdmin : Admin :=
  { sampleAdmin with
    ID := "018bcfe5-0000-7000-8000-0000000000a2", Username := "old", Email := "b@example.com",
    IsActive := false }

/-- An active customer. -/
def sampleCustomer : Customer :=
  { ID := "018bcfe5-0000-7000-8000-0000000000c1", Email := "c@example.com",
    PasswordHash := "bcrypt:correct", FullName := "C", IsActive := true,
    EmailVerifiedAt := none, Status := "ACTIVE", CreatedAt := 1600000000000000000,
    UpdatedAt := 1600000000000000000 }

/-- A deactivated customer. -/
def sampleInactiveCustomer : Customer :=
  { sampleCustomer with
    ID := "018bcfe5-0000-7000-8000-0000000000c2", Email := "d@example.com", IsActive := false }

/-- A live administrator session for the refresh secret `"secret-1"`. -/
def sampleSession : AdminSession :=
  { ID := "018bcfe5-0000-7000-8000-0000000000b1", AdminID := sampleAdmin.ID,
    RefreshTokenHash := HashOpaqueToken sampleLib "secret-1", UserAgent := none,
    IPAddress := none, CreatedAt := 1699999000000000000,
    ExpiresAt := some 1700600000000000000, Revoked := false }

/-- An administrator session for the refresh secret `"secret-2"` whose expiry has
passed at the time of `sampleEnv`. -/
def sampleExpiredSession : AdminSession :=
  { sampleSession with
    ID := "018bcfe5-0000-7000-8000-0000000000b2",
    RefreshTokenHash := HashOpaqueToken sampleLib "secret-2",
    ExpiresAt := some 1699999999000000000 }

/-- An administrator session for the refresh secret `"secret-3"` that is both
revoked and past its expiry. -/
def sampleRevokedExpiredSession : AdminSession :=
  { sampleExpiredSession with
    ID := "018bcfe5-0000-7000-8000-0000000000b3",
    RefreshTokenHash := HashOpaqueToken sampleLib "secret-3", Revoked := true }

/-- A live customer session for the refresh secret `"secret-1"`. -/
def sampleCustomerSession : CustomerSession :=
  { ID := "018bcfe5-0000-7000-8000-0000000000d1", CustomerID := sampleCustomer.ID,
    RefreshTokenHash := HashOpaqueToken sampleLib "secret-1", UserAgent := "",
    IPAddress := "", CreatedAt := 1699999000000000000,
    ExpiresAt := some 1700600000000000000, Revoked := false }

/-- A sample database. -/
def sampleDB : DB :=
  { admins := [sampleAdmin, sampleInactiveAdmin],
    admin_sessions := [sampleSession, sampleExpiredSession, sampleRevokedExpiredSession],
    customers := [sampleCustomer, sampleInactiveCustomer],
    customer_sessions := [sampleCustomerSession] }

/-- The result value of a call, or a fixed placeholder when the call failed. -/
def Tokens.ofResult (x : Except Err Tokens × DB) : Tokens :=
  match x.1 with
  | .ok t => t
  | .error _ => ⟨.malformed "", 0, "", 0, ""⟩

/-! ## `internal/auth`: configured lifetimes -/

/-- The function `AccessExpirySeconds`: the configured access token lifetime in
seconds. -/
def AccessExpirySeconds (cfg : Config) : Int := cfg.accessExp

/-- The function `RefreshExpirySeconds`: the configured refresh token lifetime in
seconds. -/
def RefreshExpirySeconds (cfg : Config) : Int := cfg.refreshExp

/-! ## `plugins/auth/handlers`: the member handlers -/

/-- The struct `memberLoginReq`, after `ShouldBindJSON` accepted the body. -/
structure memberLoginReq where
  Email : String
  Password : String
  deriving DecidableEq, Repr

/-- The handler `MemberLoginHandler`; inputs as for `LoginHandler`. -/
def MemberLoginHandler (L : Lib) (cfg : Config) (e : Env) (req : Except String memberLoginReq)
    (gdb : Option DB) : Response × Option DB :=
  match req with
  | .error msg => (⟨400, .error msg⟩, gdb)
  | .ok req =>
    match gdb with
    | none => (⟨503, .error "db unavailable"⟩, none)
    | some db =>
      match CustomerAuthenticateAndCreateSession L cfg e db req.Email req.Password with
      | (.error err, db1) => (⟨401, .error err.Error⟩, some db1)
      | (.ok t, db1) => (⟨200, .tokens t⟩, some db1)

/-- The handler `MemberRefreshHandler`; inputs as for `LoginHandler`. -/
def MemberRefreshHandler (L : Lib) (cfg : Config) (e : Env) (req : Except String refreshReq)
    (gdb : Option DB) : Response × Option DB :=
  match req with
  | .error msg => (⟨400, .error msg⟩, gdb)
  | .ok req =>
    match gdb with
    | none => (⟨503, .error "db unavailable"⟩, none)
    | some db =>
      match CustomerRefreshTokens L cfg e db req.RefreshToken with
      | (.error err, db1) => (⟨401, .error err.Error⟩, some db1)
      | (.ok t, db1) => (⟨200, .tokens t⟩, some db1)

/-! ## Customers read as administrators -/

/-- The administrator row that stands for a customer: same id, email, password
hash and active flag, with the level fixed to `"customer"`. -/
def Customer.asAdmin (c : Customer) : Admin :=
  { ID := c.ID, Username := c.FullName, Email := c.Email, PasswordHash := c.PasswordHash,
    Level := "customer", IsActive := c.IsActive, LastLoginAt := none,
    CreatedAt := c.CreatedAt, UpdatedAt := c.UpdatedAt }

/-- The administrator session row that stands for a customer session; the empty
string of the two text columns stands for the absent pointer. -/
def CustomerSession.asAdminSession (s : CustomerSession) : AdminSession :=
  { ID := s.ID, AdminID := s.CustomerID, RefreshTokenHash := s.RefreshTokenHash,
    UserAgent := if s.UserAgent = "" then none else some s.UserAgent,
    IPAddress := if s.IPAddress = "" then none else some s.IPAddress,
    CreatedAt := s.CreatedAt, ExpiresAt := s.ExpiresAt, Revoked := s.Revoked }

/-- The administrator store that corresponds to the customer tables of `db`. -/
def DB.customersAsAdmins (db : DB) : DB :=
  { admins := db.customers.map Customer.asAdmin,
    admin_sessions := db.customer_sessions.map CustomerSession.asAdminSession,
    customers := [], customer_sessions := [] }

/-- The database after an update of the `is_active` column: every administrator
gets the flag `fa` gives and every customer the flag `fc` gives; the session
tables are as they were. -/
def DB.setActive (fa : Admin → Bool) (fc : Customer → Bool) (db : DB) : DB :=
  { db with
    admins := db.admins.map fun a => { a with IsActive := fa a },
    customers := db.customers.map fun c => { c with IsActive := fc c } }

/-! ## `RefreshTokens` statement by statement -/

/-- Where one `RefreshTokens` call stands between its database statements. -/
inductive RefreshCall where
  /-- Nothing done yet. -/
  | start (refreshToken : String)
  /-- The session was selected by hash and passed the revoked and expiry checks. -/
  | checked (sess : AdminSession)
  /-- The owning administrator was selected. -/
  | loaded (sess : AdminSession) (admin : Admin)
  /-- The old session was updated to revoked. -/
  | rotating (admin : Admin)
  /-- The call returned. -/
  | done (res : Except Err Tokens)

/-- One database statement of a `RefreshTokens` call, with the local code that
follows it up to the next statement. -/
def RefreshCall.step (L : Lib) (cfg : Config) (e : Env) (db : DB) :
    RefreshCall → RefreshCall × DB
  | .start refreshToken =>
    let hash := HashOpaqueToken L refreshToken
    match dbFirst AdminSession.ID (fun s => s.RefreshTokenHash == hash) db.admin_sessions with
    | .error _ => (.done (.error (.New "invalid refresh token")), db)
    | .ok sess =>
      if sess.Revoked then (.done (.error (.New "refresh token revoked")), db)
      else if (match sess.ExpiresAt with
               | some t => decide (t < e.nowExpiryCheck)
               | none => false) then
        (.done (.error (.New "refresh token expired")), db)
      else (.checked sess, db)
  | .checked sess =>
    match GetAdminByID db sess.AdminID with
    | .error err => (.done (.error err), db)
    | .ok admin => (.loaded sess admin, db)
  | .loaded sess admin =>
    match RevokeSession db sess.ID with
    | (some err, db1) => (.done (.error err), db1)
    | (none, db1) => (.rotating admin, db1)
  | .rotating admin =>
    match GenerateAccessTokenWithLevel L cfg e.nowAccessExp e.nowAccessIat
        admin.ID admin.Level defaultAccessTTL with
    | .error err => (.done (.error err), db)
    | .ok (at_, aexp) =>
      match GenerateOpaqueRefreshToken L e.randRefresh with
      | .error err => (.done (.error err), db)
      | .ok (plain, newHash) =>
        let rexpires := e.nowRefreshExp + defaultRefreshTTL
        let newSess : AdminSession :=
          { ID := "", AdminID := admin.ID, RefreshTokenHash := newHash,
            UserAgent := none, IPAddress := none, CreatedAt := zeroTime,
            ExpiresAt := some rexpires, Revoked := false }
        match CreateSession e db newSess with
        | (.error err, db2) => (.done (.error err), db2)
        | (.ok created, db2) => (.done (.ok ⟨at_, aexp, plain, rexpires, created.ID⟩), db2)
  | .done res => (.done res, db)

/-- Two `RefreshTokens` calls sharing one database, run under a schedule: at each
entry the first call (`true`) or the second (`false`) executes its next statement. -/
def runInterleaved (L : Lib) (cfg : Config) (eA eB : Env) :
    List Bool → RefreshCall × RefreshCall × DB → RefreshCall × RefreshCall × DB
  | [], st => st
  | true :: rest, (a, b, db) =>
    runInterleaved L cfg eA eB rest ((a.step L cfg eA db).1, b, (a.step L cfg eA db).2)
  | false :: rest, (a, b, db) =>
    runInterleaved L cfg eA eB rest (a, (b.step L cfg eB db).1, (b.step L cfg eB db).2)

/-- Whether a call has returned without error. -/
def RefreshCall.succeeded : RefreshCall → Bool
  | .done (.ok _) => true
  | _ => false

/-! ## `internal/plugins`: middleware registration -/

/-- A `gin.HandlerFunc` value, named by a number; a nil function is `none` where
the type is optional. -/
abbrev HandlerFunc := Nat

/-- The struct `MiddlewareDescriptor`. -/
structure MiddlewareDescriptor where
  Name : String
  Target : String
  Priority : Int
  Handler : Option HandlerFunc
  deriving DecidableEq, Repr

/-- A registered plugin, as far as `AttachMiddleware` uses it: its id and the
slice its `RegisterMiddleware` method returns. -/
structure Plugin where
  ID : String
  RegisterMiddleware : List MiddlewareDescriptor
  deriving DecidableEq, Repr

/-- A `*gin.RouterGroup`, named by a number; the heap maps it to the `Handlers`
slice of the group. -/
abbrev GroupRef := Nat

/-- The function `sort.SliceStable`: sorts by `less` and keeps elements that
compare equal in their original order (insertion before the first element that is
not less). -/
def SliceStable {α : Type} (less : α → α → Bool) (x : List α) : List α :=
  x.insertionSort fun a b => less b a = false

/-- The method `RouterGroup.Use` with one handler: appends to the group's
`Handlers`. -/
def Use (heap : GroupRef → List HandlerFunc) (grp : GroupRef) (h : HandlerFunc) :
    GroupRef → List HandlerFunc :=
  fun g => if g = grp then heap g ++ [h] else heap g

/-- The slice `all` of `AttachMiddleware` before sorting: the descriptors of all
plugins in registration order. -/
def collectMiddleware (registered : List Plugin) : List MiddlewareDescriptor :=
  registered.foldl (fun all p => all ++ p.RegisterMiddleware) []

/-- The function `AttachMiddleware`: `registered` is the package variable,
`routers` the map from target names to groups, `heap` the handlers of each group
before the call; returns the handlers of each group after it. -/
def AttachMiddleware (registered : List Plugin) (routers : String → Option GroupRef)
    (heap : GroupRef → List HandlerFunc) : GroupRef → List HandlerFunc :=
  let all := collectMiddleware registered
  let all := SliceStable (fun a b => decide (a.Priority < b.Priority)) all
  all.foldl (fun heap md =>
    match routers md.Target, md.Handler with
    | some grp, some h => Use heap grp h
    | _, _ => heap) heap

/-! ## `internal/events` -/

/-- A `handlerFunc` value, named by a number. -/
abbrev handlerFunc := Nat

/-- The field `handlers` of the bus, a `map[string][]handlerFunc`; an absent key
reads as the empty slice. -/
abbrev Bus := String → List handlerFunc

/-- The locked part of `Subscribe`: appends the handler under the event and
returns the bus together with the index `idx` captured by the closure. -/
def Subscribe (bus : Bus) (event : String) (h : handlerFunc) : Bus × Int :=
  let handlers : Bus := fun ev => if ev = event then bus event ++ [h] else bus ev
  let idx : Int := (handlers event).length - 1
  (handlers, idx)

/-- The closure returned by `Subscribe`, for the event and index it captured. -/
def unsubscribe (event : String) (idx : Int) (bus : Bus) : Bus :=
  let hs := bus event
  if idx < 0 ∨ idx ≥ hs.length then bus
  else fun ev => if ev = event then hs.take idx.toNat ++ hs.drop (idx.toNat + 1) else bus ev

/-! ## `internal/auth`: package initialisation -/

/-- The process environment as read by `os.Getenv`: an unset variable reads as the
empty string. -/
abbrev Environ := String → String

/-- The function `getEnv`. -/
def getEnv (environ : Environ) (key default : String) : String :=
  if environ key ≠ "" then environ key else default

/-- The function `strconv.Atoi`: an optional sign followed by decimal digits, in
the range of a 64-bit `int`. -/
def Atoi (s : String) : Option Int :=
  let cs := s.toList
  let neg := cs.head? = some '-'
  let ds := if cs.head? = some '-' ∨ cs.head? = some '+' then cs.tail else cs
  if ds = [] ∨ ¬ ds.all Char.isDigit then none
  else
    let n : Int := ds.foldl (fun acc c => acc * 10 + ((c.toNat : Int) - 48)) 0
    let v : Int := if neg then -n else n
    if v < -9223372036854775808 ∨ 9223372036854775807 < v then none else some v

/-- The function `getEnvInt`. -/
def getEnvInt (environ : Environ) (key : String) (default : Int) : Int :=
  if environ key ≠ "" then
    match Atoi (environ key) with
    | some i => i
    | none => default
  else default

/-- The package variables of `internal/auth` after their initialisers and `init()`
have run in the given environment. -/
def auth.init (environ : Environ) : Config :=
  let accessExp := getEnvInt environ "JWT_ACCESS_EXP_SECONDS" 600
  let refreshExp := getEnvInt environ "JWT_REFRESH_EXP_SECONDS" 1209600
  if environ "AUTH_JWT_SECRET" ≠ "" then
    { accessSecret := environ "AUTH_JWT_SECRET", refreshSecret := environ "AUTH_JWT_SECRET",
      accessExp := accessExp, refreshExp := refreshExp }
  else
    { accessSecret := getEnv environ "JWT_ACCESS_SECRET" "change-me-access-secret",
      refreshSecret := getEnv environ "JWT_REFRESH_SECRET" "change-me-refresh-secret",
      accessExp := accessExp, refreshExp := refreshExp }

/-! ## `internal/db`: the shared handle -/

/-- The package variables `gormDB` and `gormOnce`. -/
structure GormState where
  gormDB : Option DB
  onceDone : Bool

/-- The state at process start: nil handle, `Once` not yet used. -/
def GormState.initial : GormState := { gormDB := none, onceDone := false }

/-- The function `GetGormDB`. `opened` is what `openGormDB()` returns if it is
called now. Returns the pair of results (handle, error) and the package state. -/
def GetGormDB (st : GormState) (opened : Except Err DB) :
    (Option DB × Option Err) × GormState :=
  if st.onceDone then ((st.gormDB, none), st)
  else
    match opened with
    | .ok gdb => ((some gdb, none), { gormDB := some gdb, onceDone := true })
    | .error err => ((none, some err), { gormDB := none, onceDone := true })

/-- The results of a series of `GetGormDB` calls, given what `openGormDB()` would
return at each of them. -/
def GetGormDB.series : GormState → List (Except Err DB) → List (Option DB × Option Err)
  | _, [] => []
  | st, opened :: rest =>
    (GetGormDB st opened).1 :: GetGormDB.series (GetGormDB st opened).2 rest

/-! ## `internal/console`: plugin scaffolding -/

/-- The function `packageNameFromID`. -/
def packageNameFromID (id : String) : String :=
  let base : List Char := id.toList.foldl (fun base r =>
    if ('a' ≤ r ∧ r ≤ 'z') ∨ ('0' ≤ r ∧ r ≤ '9') ∨ r = '_' then base ++ [r]
    else if 'A' ≤ r ∧ r ≤ 'Z' then base ++ [Char.ofNat (r.toNat + ('a'.toNat - 'A'.toNat))]
    else base) []
  let res := String.mk base
  if res = "" ∨ ('0' ≤ res.get 0 ∧ res.get 0 ≤ '9') then "plugin" ++ res else res

/-- The keywords of Go. -/
def goKeywords : List String :=
  [ "break", "default", "func", "interface", "select", "case", "defer", "go", "map",
    "struct", "chan", "else", "goto", "package", "switch", "const", "fallthrough", "if",
    "range", "type", "continue", "for", "import", "return", "var" ]

/-- Whether a string is a valid Go package name: a non-empty identifier made of
lowercase letters, digits and underscores that does not start with a digit and is
neither the blank identifier nor a keyword. -/
def validPackageName (s : String) : Bool :=
  s ≠ "" && s.toList.all (fun c => ('a' ≤ c && c ≤ 'z') || ('0' ≤ c && c ≤ '9') || c == '_')
    && !(s.toList.head?.any fun c => '0' ≤ c && c ≤ '9')
    && s ≠ "_" && !goKeywords.contains s

/-! ## Request context and the claims middlewares of `plugins/auth` -/

/-- The `Authorization` header of a request as the middlewares read it: empty or
absent; non-empty text from which `fmt.Sscanf(auth, "Bearer %s", &token)` scans
nothing; or text from which it scans one token. -/
inductive Authorization where
  | empty
  | unscanned (raw : String)
  | bearer (token : TokenString)
  deriving DecidableEq, Repr

/-- The field `Keys` of a `gin.Context`, for string values; `none` is an absent
key. -/
abbrev Context := String → Option String

/-- The method `Context.Set`. -/
def Context.Set (c : Context) (key value : String) : Context :=
  fun k => if k = key then some value else c k

/-- The handler returned by `AdminClaimsMiddleware`, up to the call of `c.Next()`;
`now` is the clock read by the token validator. -/
def AdminClaimsMiddleware (L : Lib) (cfg : Config) (now : Time) (auth : Authorization)
    (c : Context) : Context :=
  match auth with
  | .empty => c
  | .unscanned _ => c
  | .bearer token =>
    match ParseAccessTokenClaims L cfg now token with
    | .ok claims =>
      Context.Set (Context.Set (Context.Set c "admin_id" claims.AdminID)
        "admin_level" claims.Level) "user_id" claims.AdminID
    | .error _ => c

/-- The handler returned by `MemberClaimsMiddleware`, up to the call of `c.Next()`. -/
def MemberClaimsMiddleware (L : Lib) (cfg : Config) (now : Time) (auth : Authorization)
    (c : Context) : Context :=
  match auth with
  | .empty => c
  | .unscanned _ => c
  | .bearer token =>
    match ParseAccessTokenClaims L cfg now token with
    | .ok claims =>
      Context.Set (Context.Set (Context.Set c "customer_id" claims.AdminID)
        "user_id" claims.AdminID) "user_role" claims.Level
    | .error _ => c

/-! ## `internal/auth/jwt.go`: the subject codec -/

/-- The HMAC primitives behind the signing methods `HS384` and `HS512`, left
uninterpreted. -/
structure LibHMAC where
  /-- HMAC-SHA384 of the signing string under a key. -/
  HMACSHA384 : String → String → Payload → List Byte
  /-- HMAC-SHA512 of the signing string under a key. -/
  HMACSHA512 : String → String → Payload → List Byte

/-- The registered signing methods of type `*jwt.SigningMethodHMAC`, by the `alg`
header: the signature each computes under a key; `none` for every other `alg`. -/
def SigningMethodHMAC (L : Lib) (H : LibHMAC) (alg : String) :
    Option (String → Payload → List Byte) :=
  if alg = "HS256" then some (fun key p => L.HMACSHA256 key alg p)
  else if alg = "HS384" then some (fun key p => H.HMACSHA384 key alg p)
  else if alg = "HS512" then some (fun key p => H.HMACSHA512 key alg p)
  else none

/-- The function `parseTokenWithSecret`: `jwt.NewParser().Parse` with a key
function that accepts the HMAC family and returns the secret (segment decoding,
key function, signature check, default claim validation), then the checks of the
`typ` and `sub` claims. The claims are a `jwt.MapClaims`, which reads a numeric
`exp` of 0 as an absent claim, so that such a token passes the expiry test. -/
def parseTokenWithSecret (L : Lib) (H : LibHMAC) (now : Time) (tokenStr : TokenString)
    (secret expectType : String) : Except Err String :=
  if tokenStr = .malformed "" then .error (.New "empty token")
  else
    match tokenStr with
    | .malformed _ => .error .ErrTokenMalformed
    | .compact alg payload sig =>
      match SigningMethodHMAC L H alg with
      | none => .error .ErrTokenUnverifiable
      | some sign =>
        if sig ≠ sign secret payload then .error .ErrTokenSignatureInvalid
        else if (match payload.exp with
                 | some e => if e = 0 then false else decide (¬ now < e * 1000000000)
                 | none => false) then .error .ErrTokenExpired
        else if payload.typ ≠ some expectType then .error (.New "invalid token type")
        else
          match payload.sub with
          | none => .error (.New "missing subject")
          | some sub => if sub = "" then .error (.New "missing subject") else .ok sub

/-- The function `ParseAccessToken`. -/
def ParseAccessToken (L : Lib) (H : LibHMAC) (cfg : Config) (now : Time)
    (tokenStr : TokenString) : Except Err String :=
  parseTokenWithSecret L H now tokenStr cfg.accessSecret "access"

/-- The function `ParseRefreshToken`. -/
def ParseRefreshToken (L : Lib) (H : LibHMAC) (cfg : Config) (now : Time)
    (tokenStr : TokenString) : Except Err String :=
  parseTokenWithSecret L H now tokenStr cfg.refreshSecret "refresh"

/-- The method `AuthService.Me` of `internal/admin/services`. The row type
`models.Admin` and the query `g.db.First(&u, "id = ?", sub)` are the parameters
`α` and `first`. -/
def AuthService.Me {α : Type} (L : Lib) (H : LibHMAC) (cfg : Config) (now : Time)
    (first : String → Except Err α) (accessToken : TokenString) : Except Err α :=
  match ParseAccessToken L H cfg now accessToken with
  | .error err => .error err
  | .ok sub =>
    match first sub with
    | .error err => .error err
    | .ok u => .ok u

/-- The handler returned by `AuthMiddleware` of `internal/server`, up to the call
of `c.Next()`. -/
def AuthMiddleware (L : Lib) (H : LibHMAC) (cfg : Config) (now : Time) (auth : Authorization)
    (c : Context) : Context :=
  match auth with
  | .empty => c
  | .unscanned _ => c
  | .bearer token =>
    match ParseAccessToken L H cfg now token with
    | .ok sub => Context.Set c "user_id" sub
    | .error _ => c

/-! ## Further sample data -/

/-- A live administrator session for the refresh secret `"secret-4"` that has no
expiry. -/
def sampleNoExpirySession : AdminSession :=
  { sampleSession with
    ID := "018bcfe5-0000-7000-8000-0000000000b4",
    RefreshTokenHash := HashOpaqueToken sampleLib "secret-4", ExpiresAt := none }

/-- The sample database with the session without expiry as its only session. -/
def sampleNoExpiryDB : DB :=
  { sampleDB with admin_sessions := [sampleNoExpirySession] }

/-- An environment whose clock stands three centuries after `sampleEnv`. -/
def sampleLateEnv : Env :=
  { sampleEnv with nowExpiryCheck := 9999999999000000000 }

/-- A configuration without signing secret. -/
def sampleEmptyCfg : Config :=
  { sampleCfg with accessSecret := "" }

/-- The sample database after the sample administrator has logged in once under
`sampleEnv`. -/
def sampleDBAfterLogin : DB :=
  (AuthenticateAndCreateSession sampleLib sampleCfg sampleEnv sampleDB
    "a@example.com" "correct").2

/-- The sample database after the sample customer has logged in once under
`sampleEnv`. -/
def sampleDBAfterMemberLogin : DB :=
  (CustomerAuthenticateAndCreateSession sampleLib sampleCfg sampleEnv sampleDB
    "c@example.com" "correct").2

/-- Sample plugins: two plugins with two descriptors each. -/
def samplePlugins : List Plugin :=
  [ { ID := "auth",
      RegisterMiddleware :=
        [ { Name := "auth.claims", Target := "admin", Priority := 50, Handler := some 1 },
          { Name := "auth.log", Target := "admin", Priority := 10, Handler := some 2 } ] },
    { ID := "shop",
      RegisterMiddleware :=
        [ { Name := "shop.guard", Target := "admin", Priority := 50, Handler := some 3 },
          { Name := "shop.cart", Target := "store", Priority := 0, Handler := some 4 } ] } ]

/-- The map built by the bootstrap: three targets, three groups. -/
def sampleRouters (target : String) : Option GroupRef :=
  if target = "global" then some 0
  else if target = "admin" then some 1
  else if target = "store" then some 2
  else none

/-- A live session of the deactivated sample administrator, for the refresh
secret `"secret-5"`. -/
def sampleInactiveSession : AdminSession :=
  { sampleSession with
    ID := "018bcfe5-0000-7000-8000-0000000000b5", AdminID := sampleInactiveAdmin.ID,
    RefreshTokenHash := HashOpaqueToken sampleLib "secret-5" }

/-- A live session whose owner is not in the administrator table, for the
refresh secret `"secret-6"`. -/
def sampleOrphanSession : AdminSession :=
  { sampleSession with
    ID := "018bcfe5-0000-7000-8000-0000000000b6",
    AdminID := "018bcfe5-0000-7000-8000-0000000000ff",
    RefreshTokenHash := HashOpaqueToken sampleLib "secret-6" }

/-- A live session of the deactivated sample customer, for the refresh secret
`"secret-5"`. -/
def sampleInactiveCustomerSession : CustomerSession :=
  { sampleCustomerSession with
    ID := "018bcfe5-0000-7000-8000-0000000000d5", CustomerID := sampleInactiveCustomer.ID,
    RefreshTokenHash := HashOpaqueToken sampleLib "secret-5" }

/-- The sample database with the sessions of the deactivated principals and the
session without owner added. -/
def sampleDB3 : DB :=
  { sampleDB with
    admin_sessions := sampleDB.admin_sessions ++ [sampleInactiveSession, sampleOrphanSession],
    customer_sessions := sampleDB.customer_sessions ++ [sampleInactiveCustomerSession] }

/-- The refresh secret that `GenerateOpaqueRefreshToken` returns under the random
draw of `sampleEnv`. -/
def sampleDrawnSecret : String :=
  EncodeToString (List.ofFn fun i : Fin 48 => byte (i.val + 1))

/-- A live session of the sample administrator for the secret `sampleDrawnSecret`,
created in the millisecond in which `sampleEnv` draws its session id, with a
greater random part. -/
def sampleSameDrawSession : AdminSession :=
  { sampleSession with
    ID := "018bcfe5-6800-7fff-bfff-ffffffffffff",
    RefreshTokenHash := HashOpaqueToken sampleLib sampleDrawnSecret }

/-- The sample database with that session added. -/
def sampleSameDrawDB : DB :=
  { sampleDB with admin_sessions := sampleDB.admin_sessions ++ [sampleSameDrawSession] }

/-- A live session of the sample administrator for the secret `sampleDrawnSecret`
with an id that sorts before the id `sampleEnv` draws. -/
def sampleEarlierSameDrawSession : AdminSession :=
  { sampleSession with
    ID := "018bcfe5-0000-7000-8000-0000000000b7",
    RefreshTokenHash := HashOpaqueToken sampleLib sampleDrawnSecret }

/-- The sample database with that session added. -/
def sampleEarlierSameDrawDB : DB :=
  { sampleDB with
    admin_sessions := sampleDB.admin_sessions ++ [sampleEarlierSameDrawSession] }

/-- An event bus on which the handlers 1, 2 and 3 have subscribed, in this order,
to the event `"user.created"`. -/
def sampleBus : Bus :=
  (Subscribe (Subscribe (Subscribe (fun _ => []) "user.created" 1).1 "user.created" 2).1
    "user.created" 3).1

/-- An environment in which only `JWT_ACCESS_SECRET` is set. -/
def sampleEnviron : Environ :=
  fun key => if key = "JWT_ACCESS_SECRET" then "s3cret" else ""

/-- An environment in which `AUTH_JWT_SECRET` and `JWT_ACCESS_SECRET` are set. -/
def sampleCanonicalEnviron : Environ :=
  fun key => if key = "AUTH_JWT_SECRET" then "one-secret"
    else if key = "JWT_ACCESS_SECRET" then "s3cret" else ""

/-- Sample HMAC primitives for `HS384` and `HS512`. -/
def sampleLibHMAC : LibHMAC where
  HMACSHA384 := fun key alg _ => (alg ++ key).toList.map fun c => byte c.toNat
  HMACSHA512 := fun key alg _ => (alg ++ key ++ alg).toList.map fun c => byte c.toNat

/-- The result of the sample customer login. -/
def sampleCustomerLogin : Except Err Tokens × DB :=
  CustomerAuthenticateAndCreateSession sampleLib sampleCfg sampleEnv sampleDB
    "c@example.com" "correct"

/-- The result of the sample administrator login. -/
def sampleAdminLogin : Except Err Tokens × DB :=
  AuthenticateAndCreateSession sampleLib sampleCfg sampleEnv sampleDB "a@example.com" "correct"

/-- The access token that `GenerateAccessTokenWithLevel` issues for the sample
administrator half a second after the epoch with no lifetime left: its `exp`
claim is 0. -/
def sampleEpochToken : TokenString :=
  .compact "HS256"
    { admin_id := some sampleAdmin.ID, level := some "SUPERADMIN", sub := none, typ := none,
      exp := some 0, iat := some 0 }
    (sampleLib.HMACSHA256 sampleCfg.accessSecret "HS256"
      { admin_id := some sampleAdmin.ID, level := some "SUPERADMIN", sub := none, typ := none,
        exp := some 0, iat := some 0 })

/-- A token of the subject codec: `typ` "access", subject "42", signed with the
sample access secret, expiring at 1 700 000 600 s. -/
def sampleSubjectToken : TokenString :=
  .compact "HS256"
    { admin_id := none, level := none, sub := some "42", typ := some "access",
      exp := some 1700000600, iat := some 1700000000 }
    (sampleLib.HMACSHA256 sampleCfg.accessSecret "HS256"
      { admin_id := none, level := none, sub := some "42", typ := some "access",
        exp := some 1700000600, iat := some 1700000000 })

/-! ## Lemmas on the ORM calls -/

theorem leastByKey_map {α : Type} (key : α → String) (f : α → α)
    (hkey : ∀ x, key (f x) = key x) (l : List α) :
    leastByKey key (l.map f) = (leastByKey key l).map f := by
  induction l with
  | nil => rfl
  | cons r rs ih =>
    simp only [List.map_cons, leastByKey, ih]
    cases hrs : leastByKey key rs with
    | none => simp
    | some b =>
      simp only [Option.map_some', hkey]
      split <;> simp

theorem leastByKey_mem {α : Type} (key : α → String) (l : List α) (m : α)
    (h : leastByKey key l = some m) : m ∈ l := by
  induction l generalizing m with
  | nil => simp [leastByKey] at h
  | cons r rs ih =>
    simp only [leastByKey] at h
    cases hrs : leastByKey key rs with
    | none => simp [hrs] at h; simp [h]
    | some b =>
      simp only [hrs] at h
      split at h
      · simp only [Option.some.injEq] at h
        subst h
        exact List.mem_cons_of_mem _ (ih b hrs)
      · simp only [Option.some.injEq] at h
        simp [h]

theorem leastByKey_eq_none {α : Type} (key : α → String) (l : List α) :
    leastByKey key l = none ↔ l = [] := by
  cases l with
  | nil => simp [leastByKey]
  | cons r rs =>
    simp only [leastByKey]
    cases leastByKey key rs with
    | none => simp
    | some b => simp only [reduceCtorEq, iff_false]; split <;> simp

theorem dbFirst_ok_mem {α : Type} (key : α → String) (cond : α → Bool) (rows : List α)
    (r : α) (h : dbFirst key cond rows = .ok r) : r ∈ rows ∧ cond r = true := by
  unfold dbFirst at h
  cases hl : leastByKey key (rows.filter cond) with
  | none => simp [hl] at h
  | some m =>
    simp only [hl, Except.ok.injEq] at h
    subst h
    simpa using leastByKey_mem key _ m hl

theorem dbFirst_none {α : Type} (key : α → String) (cond : α → Bool) (rows : List α)
    (h : ∀ r ∈ rows, cond r = false) : dbFirst key cond rows = .error .ErrRecordNotFound := by
  have : rows.filter cond = [] := by
    simp only [List.filter_eq_nil_iff]
    intro a ha
    simp [h a ha]
  simp [dbFirst, this, leastByKey]

theorem dbFirst_exists {α : Type} (key : α → String) (cond : α → Bool) (rows : List α)
    (r : α) (hr : r ∈ rows) (hc : cond r = true) : ∃ m, dbFirst key cond rows = .ok m := by
  unfold dbFirst
  cases hl : leastByKey key (rows.filter cond) with
  | none =>
    rw [leastByKey_eq_none, List.filter_eq_nil_iff] at hl
    exact absurd hc (hl r hr)
  | some m => exact ⟨m, rfl⟩

theorem dbFirst_map {α : Type} (key : α → String) (cond : α → Bool) (f : α → α)
    (hkey : ∀ x, key (f x) = key x) (hcond : ∀ x, cond (f x) = cond x) (rows : List α) :
    dbFirst key cond (rows.map f) = (dbFirst key cond rows).map f := by
  have hf : (rows.map f).filter cond = (rows.filter cond).map f := by
    rw [List.filter_map]
    congr 1
    apply List.filter_congr
    intro x _
    simp [hcond]
  unfold dbFirst
  rw [hf, leastByKey_map key f hkey]
  cases leastByKey key (rows.filter cond) <;> rfl

theorem dbFirst_append_singleton {α : Type} (key : α → String) (cond : α → Bool)
    (rows : List α) (n : α) (hn : cond n = false) :
    dbFirst key cond (rows ++ [n]) = dbFirst key cond rows := by
  unfold dbFirst
  simp [List.filter_append, hn]

theorem leastByKey_append_singleton {α : Type} (key : α → String) (l : List α) (n : α) :
    leastByKey key (l ++ [n])
      = match leastByKey key l with
        | none => some n
        | some m => if (key n).toList < (key m).toList then some n else some m := by
  induction l with
  | nil => rfl
  | cons r rs ih =>
    have hstep : leastByKey key (r :: (rs ++ [n]))
        = match leastByKey key (rs ++ [n]) with
          | none => some r
          | some b => if (key b).toList < (key r).toList then some b else some r := rfl
    have hstep2 : leastByKey key (r :: rs)
        = match leastByKey key rs with
          | none => some r
          | some b => if (key b).toList < (key r).toList then some b else some r := rfl
    rw [List.cons_append, hstep, hstep2, ih]
    cases hrs : leastByKey key rs with
    | none => rfl
    | some m =>
      by_cases hnm : (key n).toList < (key m).toList
      · by_cases hmr : (key m).toList < (key r).toList
        · have hnr : (key n).toList < (key r).toList := lt_trans hnm hmr
          simp only [hmr, hnr, hnm, if_true]
        · simp only [hmr, hnm, if_true, if_false]
      · by_cases hmr : (key m).toList < (key r).toList
        · simp only [hmr, hnm, if_true, if_false]
        · have hnr : ¬ (key n).toList < (key r).toList := by
            intro hnr
            exact hnm (lt_of_lt_of_le hnr (not_lt.mp hmr))
          simp only [hmr, hnm, hnr, if_false]

theorem dbFirst_append_later {α : Type} (key : α → String) (cond : α → Bool)
    (rows : List α) (n m : α) (hm : dbFirst key cond rows = .ok m)
    (hlt : (key m).toList < (key n).toList) :
    dbFirst key cond (rows ++ [n]) = .ok m := by
  cases hc : cond n with
  | false => rw [dbFirst_append_singleton key cond rows n hc, hm]
  | true =>
    have hl : leastByKey key (rows.filter cond) = some m := by
      unfold dbFirst at hm
      cases hl : leastByKey key (rows.filter cond) with
      | none => simp [hl] at hm
      | some m0 =>
        simp only [hl, Except.ok.injEq] at hm
        rw [hm]
    have hf : (rows ++ [n]).filter cond = rows.filter cond ++ [n] := by
      simp [List.filter_append, hc]
    unfold dbFirst
    rw [hf, leastByKey_append_singleton, hl]
    simp only [lt_asymm hlt, if_false]

/-! ## Refresh: lookup failures -/

/-- C10: when no administrator session carries the hash of the presented secret,
`RefreshTokens` fails with the error "invalid refresh token" and leaves the
database as it was. -/
theorem refresh_unknown_hash_invalid (L : Lib) (cfg : Config) (e : Env) (db : DB) (r : String)
    (h : ∀ s ∈ db.admin_sessions, s.RefreshTokenHash ≠ HashOpaqueToken L r) :
    RefreshTokens L cfg e db r = (.error (.New "invalid refresh token"), db) := by
  have hnone := dbFirst_none AdminSession.ID
    (fun s => s.RefreshTokenHash == HashOpaqueToken L r) db.admin_sessions
    (by intro s hs; simpa using h s hs)
  simp [RefreshTokens, hnone]

/-- C10, a concrete instance: the sample database has no session for `"unknown"`. -/
theorem refresh_unknown_hash_invalid_witness :
    RefreshTokens sampleLib sampleCfg sampleEnv sampleDB "unknown"
      = (.error (.New "invalid refresh token"), sampleDB) :=
  refresh_unknown_hash_invalid sampleLib sampleCfg sampleEnv sampleDB "unknown" (by decide)

/-! ## Logout -/

theorem updateRevokedAdmin_idem (cond : AdminSession → Bool)
    (hcond : ∀ s, cond { s with Revoked := true } = cond s) (rows : List AdminSession) :
    updateRevokedAdmin cond (updateRevokedAdmin cond rows) = updateRevokedAdmin cond rows := by
  simp only [updateRevokedAdmin, List.map_map]
  apply List.map_congr_left
  intro s _
  by_cases hc : cond s = true
  · simp [hc, hcond]
  · simp [hc]

theorem updateRevokedCustomer_idem (cond : CustomerSession → Bool)
    (hcond : ∀ s, cond { s with Revoked := true } = cond s) (rows : List CustomerSession) :
    updateRevokedCustomer cond (updateRevokedCustomer cond rows)
      = updateRevokedCustomer cond rows := by
  simp only [updateRevokedCustomer, List.map_map]
  apply List.map_congr_left
  intro s _
  by_cases hc : cond s = true
  · simp [hc, hcond]
  · simp [hc]

/-- C7: revoking by the hash of any presented secret returns no error, whatever
the table holds, and doing it twice leaves the same database as doing it once; the
same holds for customer sessions; and `LogoutHandler`, once the request is bound
and the database handle obtained, answers 200 after that one revocation. -/
theorem logout_total_idempotent (L : Lib) (db : DB) (r : String) :
    (RevokeByRefreshHash db (HashOpaqueToken L r)).1 = none
    ∧ RevokeByRefreshHash (RevokeByRefreshHash db (HashOpaqueToken L r)).2 (HashOpaqueToken L r)
        = RevokeByRefreshHash db (HashOpaqueToken L r)
    ∧ (RevokeCustomerByRefreshHash db (HashOpaqueToken L r)).1 = none
    ∧ RevokeCustomerByRefreshHash (RevokeCustomerByRefreshHash db (HashOpaqueToken L r)).2
          (HashOpaqueToken L r)
        = RevokeCustomerByRefreshHash db (HashOpaqueToken L r)
    ∧ LogoutHandler L (.ok ⟨r⟩) (some db)
        = (⟨200, .ok⟩, some (RevokeByRefreshHash db (HashOpaqueToken L r)).2) := by
  refine ⟨rfl, ?_, rfl, ?_, rfl⟩
  · simp only [RevokeByRefreshHash]
    rw [updateRevokedAdmin_idem (fun s => s.RefreshTokenHash == HashOpaqueToken L r)
      (fun _ => rfl)]
  · simp only [RevokeCustomerByRefreshHash]
    rw [updateRevokedCustomer_idem (fun s => s.RefreshTokenHash == HashOpaqueToken L r)
      (fun _ => rfl)]

/-- C8: when some administrator session carries the hash of the secret `r`, then
after `RevokeByRefreshHash` on that hash every `RefreshTokens` call with `r` fails
with "refresh token revoked" and leaves the database as it was, so the same holds
for every later call. -/
theorem logout_then_refresh_revoked (L : Lib) (cfg : Config) (e : Env) (db : DB) (r : String)
    (h : ∃ s ∈ db.admin_sessions, s.RefreshTokenHash = HashOpaqueToken L r) :
    RefreshTokens L cfg e (RevokeByRefreshHash db (HashOpaqueToken L r)).2 r
      = (.error (.New "refresh token revoked"),
          (RevokeByRefreshHash db (HashOpaqueToken L r)).2) := by
  obtain ⟨s, hs, hh⟩ := h
  obtain ⟨m, hm⟩ := dbFirst_exists AdminSession.ID
    (fun s => s.RefreshTokenHash == HashOpaqueToken L r) db.admin_sessions s hs (by simp [hh])
  have hcond := (dbFirst_ok_mem _ _ _ _ hm).2
  have hmap := dbFirst_map AdminSession.ID (fun s => s.RefreshTokenHash == HashOpaqueToken L r)
    (fun s => if (fun s : AdminSession => s.RefreshTokenHash == HashOpaqueToken L r) s
      then { s with Revoked := true } else s)
    (by intro x; dsimp only; split <;> rfl) (by intro x; dsimp only; split <;> rfl)
    db.admin_sessions
  rw [hm] at hmap
  simp only [RefreshTokens, RevokeByRefreshHash, updateRevokedAdmin]
  rw [hmap]
  simp only [Except.map]
  simp only [beq_iff_eq] at hcond
  simp [hcond]

/-- C8, a concrete instance: after logging out `"secret-1"` on the sample
database, a refresh with `"secret-1"` is refused as revoked. -/
theorem logout_then_refresh_revoked_witness :
    RefreshTokens sampleLib sampleCfg sampleEnv
        (RevokeByRefreshHash sampleDB (HashOpaqueToken sampleLib "secret-1")).2 "secret-1"
      = (.error (.New "refresh token revoked"),
          (RevokeByRefreshHash sampleDB (HashOpaqueToken sampleLib "secret-1")).2) :=
  logout_then_refresh_revoked sampleLib sampleCfg sampleEnv sampleDB "secret-1"
    ⟨sampleSession, by simp [sampleDB], rfl⟩

/-! ## Login: refusals -/

/-- C9: when the principal found for the email is inactive and the password is the
right one, login fails with "account inactive", returns no tokens and leaves the
database as it was; for administrators and for customers. -/
theorem inactive_login_rejected (L : Lib) (cfg : Config) (e : Env) (db : DB)
    (email password : String) :
    (∀ a : Admin, GetAdminByEmail db email = .ok a → a.IsActive = false →
        CheckPassword L a.PasswordHash password = true →
        AuthenticateAndCreateSession L cfg e db email password
          = (.error (.New "account inactive"), db))
    ∧ (∀ c : Customer, GetCustomerByEmail db email = .ok c → c.IsActive = false →
        CheckPassword L c.PasswordHash password = true →
        CustomerAuthenticateAndCreateSession L cfg e db email password
          = (.error (.New "account inactive"), db)) := by
  constructor
  · intro a ha hin hpw
    simp [AuthenticateAndCreateSession, ha, hin, hpw]
  · intro c hc hin hpw
    simp [CustomerAuthenticateAndCreateSession, hc, hin, hpw]

/-- C9, concrete instances: the deactivated sample administrator and the
deactivated sample customer, each with the right password. -/
theorem inactive_login_rejected_witness :
    (GetAdminByEmail sampleDB "b@example.com" = .ok sampleInactiveAdmin
      ∧ sampleInactiveAdmin.IsActive = false
      ∧ CheckPassword sampleLib sampleInactiveAdmin.PasswordHash "correct" = true
      ∧ AuthenticateAndCreateSession sampleLib sampleCfg sampleEnv sampleDB
          "b@example.com" "correct" = (.error (.New "account inactive"), sampleDB))
    ∧ (GetCustomerByEmail sampleDB "d@example.com" = .ok sampleInactiveCustomer
      ∧ sampleInactiveCustomer.IsActive = false
      ∧ CheckPassword sampleLib sampleInactiveCustomer.PasswordHash "correct" = true
      ∧ CustomerAuthenticateAndCreateSession sampleLib sampleCfg sampleEnv sampleDB
          "d@example.com" "correct" = (.error (.New "account inactive"), sampleDB)) :=
  ⟨⟨by rfl, by rfl, by rfl,
      (inactive_login_rejected sampleLib sampleCfg sampleEnv sampleDB "b@example.com"
        "correct").1 sampleInactiveAdmin (by rfl) (by rfl) (by rfl)⟩,
    ⟨by rfl, by rfl, by rfl,
      (inactive_login_rejected sampleLib sampleCfg sampleEnv sampleDB "d@example.com"
        "correct").2 sampleInactiveCustomer (by rfl) (by rfl) (by rfl)⟩⟩

/-! ## Refresh: expiry -/

/-- C5, as amended: when the session found for the presented secret is not revoked
and its expiry is set and lies before the clock reading, `RefreshTokens` fails with
"refresh token expired" and leaves the database as it was. -/
theorem refresh_expired_rejected (L : Lib) (cfg : Config) (e : Env) (db : DB) (r : String)
    (sess : AdminSession) (t : Time)
    (hs : dbFirst AdminSession.ID (fun s => s.RefreshTokenHash == HashOpaqueToken L r)
        db.admin_sessions = .ok sess)
    (hrev : sess.Revoked = false) (hexp : sess.ExpiresAt = some t)
    (hpast : t < e.nowExpiryCheck) :
    RefreshTokens L cfg e db r = (.error (.New "refresh token expired"), db) := by
  simp [RefreshTokens, hs, hrev, hexp, hpast]

/-- C5, a concrete instance of the amended claim: the sample session for
`"secret-2"` expired one second before the clock reading. -/
theorem refresh_expired_rejected_witness :
    RefreshTokens sampleLib sampleCfg sampleEnv sampleDB "secret-2"
      = (.error (.New "refresh token expired"), sampleDB) :=
  refresh_expired_rejected sampleLib sampleCfg sampleEnv sampleDB "secret-2"
    sampleExpiredSession 1699999999000000000 (by rfl) (by rfl) (by rfl) (by decide)

/-- C5, counterexample to the claim as stated: the sample session for `"secret-3"`
has its expiry set in the past, yet `RefreshTokens` fails with "refresh token
revoked", not with "refresh token expired", because the revocation check comes
first. -/
theorem refresh_expired_counterexample :
    dbFirst AdminSession.ID
        (fun s => s.RefreshTokenHash == HashOpaqueToken sampleLib "secret-3")
        sampleDB.admin_sessions = .ok sampleRevokedExpiredSession
    ∧ sampleRevokedExpiredSession.ExpiresAt = some 1699999999000000000
    ∧ (1699999999000000000 : Time) < sampleEnv.nowExpiryCheck
    ∧ RefreshTokens sampleLib sampleCfg sampleEnv sampleDB "secret-3"
        = (.error (.New "refresh token revoked"), sampleDB)
    ∧ (RefreshTokens sampleLib sampleCfg sampleEnv sampleDB "secret-3").1
        ≠ .error (.New "refresh token expired") := by
  refine ⟨by rfl, by rfl, by decide, by rfl, ?_⟩
  have h : RefreshTokens sampleLib sampleCfg sampleEnv sampleDB "secret-3"
      = (.error (.New "refresh token revoked"), sampleDB) := by rfl
  rw [h]
  simp

/-! ## What a successful call has done -/

theorem CreateSession_ok (e : Env) (db db1 : DB) (sess row : AdminSession)
    (hid : sess.ID = "") (hct : sess.CreatedAt = zeroTime)
    (h : CreateSession e db sess = (.ok row, db1)) :
    db1 = { db with admin_sessions := db.admin_sessions ++ [row] }
    ∧ uuid.New e.nowUUID e.randUUID = .ok row.ID
    ∧ row = { sess with ID := row.ID, CreatedAt := e.nowCreatedAt }
    ∧ (∀ s ∈ db.admin_sessions, s.ID ≠ row.ID) := by
  unfold CreateSession AdminSession.BeforeCreate at h
  simp only [hid, if_true] at h
  cases hu : uuid.New e.nowUUID e.randUUID with
  | error err => simp [hu] at h
  | ok id =>
    simp only [hu, hct, if_true] at h
    split at h
    · simp at h
    · rename_i hany
      simp only [Prod.mk.injEq, Except.ok.injEq] at h
      obtain ⟨h1, h2⟩ := h
      subst h1
      refine ⟨h2.symm, rfl, ?_, ?_⟩
      · simp [hid, hct]
      · intro s hs hne
        apply hany
        simp only [List.any_eq_true, beq_iff_eq]
        exact ⟨s, hs, hne⟩

theorem GenerateOpaqueRefreshToken_ok (L : Lib) (rnd : Option (Fin 48 → Byte))
    (plain hash : String) (h : GenerateOpaqueRefreshToken L rnd = .ok (plain, hash)) :
    hash = HashOpaqueToken L plain
    ∧ ∃ b, rnd = some b ∧ plain = EncodeToString (List.ofFn b) := by
  unfold GenerateOpaqueRefreshToken at h
  cases rnd with
  | none => simp at h
  | some b =>
    simp only [Except.ok.injEq, Prod.mk.injEq] at h
    obtain ⟨h1, h2⟩ := h
    subst h1
    exact ⟨h2.symm, b, rfl, rfl⟩

theorem RefreshTokens_ok (L : Lib) (cfg : Config) (e : Env) (db db1 : DB) (r : String)
    (out : Tokens) (h : RefreshTokens L cfg e db r = (.ok out, db1)) :
    ∃ sess admin newSess,
      dbFirst AdminSession.ID (fun s => s.RefreshTokenHash == HashOpaqueToken L r)
        db.admin_sessions = .ok sess
      ∧ sess.Revoked = false
      ∧ (∀ t, sess.ExpiresAt = some t → ¬ t < e.nowExpiryCheck)
      ∧ GetAdminByID db sess.AdminID = .ok admin
      ∧ GenerateAccessTokenWithLevel L cfg e.nowAccessExp e.nowAccessIat admin.ID admin.Level
          defaultAccessTTL = .ok (out.accessToken, out.accessExp)
      ∧ GenerateOpaqueRefreshToken L e.randRefresh
          = .ok (out.refreshPlain, newSess.RefreshTokenHash)
      ∧ out.refreshExp = e.nowRefreshExp + defaultRefreshTTL
      ∧ newSess = { ID := out.sessionID, AdminID := admin.ID,
                    RefreshTokenHash := HashOpaqueToken L out.refreshPlain,
                    UserAgent := none, IPAddress := none, CreatedAt := e.nowCreatedAt,
                    ExpiresAt := some out.refreshExp, Revoked := false }
      ∧ uuid.New e.nowUUID e.randUUID = .ok out.sessionID
      ∧ (∀ s ∈ db.admin_sessions, s.ID ≠ out.sessionID)
      ∧ db1 = { db with
          admin_sessions :=
            updateRevokedAdmin (fun s => s.ID == sess.ID) db.admin_sessions ++ [newSess] } := by
  unfold RefreshTokens at h
  simp only at h
  split at h
  · simp at h
  · rename_i sess hs
    split at h
    · simp at h
    · rename_i hrev
      split at h
      · simp at h
      · rename_i hexp
        split at h
        · simp at h
        · rename_i admin hadmin
          simp only [RevokeSession] at h
          split at h
          · simp at h
          · rename_i at_ aexp hgen
            split at h
            · simp at h
            · rename_i plain newHash hopq
              split at h
              · simp at h
              · rename_i created db2 hcreate
                simp only [Prod.mk.injEq, Except.ok.injEq] at h
                obtain ⟨hout, hdb⟩ := h
                subst hout hdb
                obtain ⟨hc1, hc2, hc3, hc4⟩ := CreateSession_ok _ _ _ _ _ rfl rfl hcreate
                obtain ⟨hh, _⟩ := GenerateOpaqueRefreshToken_ok L _ _ _ hopq
                refine ⟨sess, admin, created, hs, by simpa using hrev, ?_, hadmin, hgen, ?_,
                  rfl, ?_, hc2, ?_, ?_⟩
                · intro t ht hlt
                  apply hexp
                  simp [ht, hlt]
                · rw [hc3]; exact hopq
                · rw [hc3]; simp [hh]
                · intro s hs0 hne
                  have hm : (fun s : AdminSession =>
                      if (s.ID == sess.ID) = true then { s with Revoked := true } else s) s
                      ∈ updateRevokedAdmin (fun s => s.ID == sess.ID) db.admin_sessions :=
                    List.mem_map_of_mem _ hs0
                  apply hc4 _ hm
                  dsimp only
                  split <;> exact hne
                · rw [hc1]

theorem CreateCustomerSession_ok (e : Env) (db db1 : DB) (sess row : CustomerSession)
    (hid : sess.ID = "") (hct : sess.CreatedAt = zeroTime)
    (h : CreateCustomerSession e db sess = (.ok row, db1)) :
    db1 = { db with customer_sessions := db.customer_sessions ++ [row] }
    ∧ uuid.New e.nowUUID e.randUUID = .ok row.ID
    ∧ row = { sess with ID := row.ID, CreatedAt := e.nowCreatedAt }
    ∧ (∀ s ∈ db.customer_sessions, s.ID ≠ row.ID) := by
  unfold CreateCustomerSession CustomerSession.BeforeCreate at h
  simp only [hid, if_true] at h
  cases hu : uuid.New e.nowUUID e.randUUID with
  | error err => simp [hu] at h
  | ok id =>
    simp only [hu, hct, if_true] at h
    split at h
    · simp at h
    · rename_i hany
      simp only [Prod.mk.injEq, Except.ok.injEq] at h
      obtain ⟨h1, h2⟩ := h
      subst h1
      refine ⟨h2.symm, rfl, ?_, ?_⟩
      · simp [hid, hct]
      · intro s hs hne
        apply hany
        simp only [List.any_eq_true, beq_iff_eq]
        exact ⟨s, hs, hne⟩

theorem CustomerRefreshTokens_ok (L : Lib) (cfg : Config) (e : Env) (db db1 : DB) (r : String)
    (out : Tokens) (h : CustomerRefreshTokens L cfg e db r = (.ok out, db1)) :
    ∃ sess cust newSess,
      dbFirst CustomerSession.ID (fun s => s.RefreshTokenHash == HashOpaqueToken L r)
        db.customer_sessions = .ok sess
      ∧ sess.Revoked = false
      ∧ (∀ t, sess.ExpiresAt = some t → ¬ t < e.nowExpiryCheck)
      ∧ GetCustomerByID db sess.CustomerID = .ok cust
      ∧ GenerateAccessTokenWithLevel L cfg e.nowAccessExp e.nowAccessIat cust.ID "customer"
          defaultAccessTTL = .ok (out.accessToken, out.accessExp)
      ∧ GenerateOpaqueRefreshToken L e.randRefresh
          = .ok (out.refreshPlain, newSess.RefreshTokenHash)
      ∧ out.refreshExp = e.nowRefreshExp + defaultRefreshTTL
      ∧ newSess = { ID := out.sessionID, CustomerID := cust.ID,
                    RefreshTokenHash := HashOpaqueToken L out.refreshPlain,
                    UserAgent := "", IPAddress := "", CreatedAt := e.nowCreatedAt,
                    ExpiresAt := some out.refreshExp, Revoked := false }
      ∧ uuid.New e.nowUUID e.randUUID = .ok out.sessionID
      ∧ (∀ s ∈ db.customer_sessions, s.ID ≠ out.sessionID)
      ∧ db1 = { db with
          customer_sessions :=
            updateRevokedCustomer (fun s => s.ID == sess.ID) db.customer_sessions ++ [newSess] } := by
  unfold CustomerRefreshTokens at h
  simp only at h
  split at h
  · simp at h
  · rename_i sess hs
    split at h
    · simp at h
    · rename_i hrev
      split at h
      · simp at h
      · rename_i hexp
        split at h
        · simp at h
        · rename_i cust hcust
          split at h
          · simp at h
          · rename_i at_ aexp hgen
            split at h
            · simp at h
            · rename_i plain newHash hopq
              split at h
              · simp at h
              · rename_i created db2 hcreate
                simp only [Prod.mk.injEq, Except.ok.injEq] at h
                obtain ⟨hout, hdb⟩ := h
                subst hout hdb
                obtain ⟨hc1, hc2, hc3, hc4⟩ := CreateCustomerSession_ok _ _ _ _ _ rfl rfl hcreate
                obtain ⟨hh, _⟩ := GenerateOpaqueRefreshToken_ok L _ _ _ hopq
                refine ⟨sess, cust, created, hs, by simpa using hrev, ?_, hcust, hgen, ?_,
                  rfl, ?_, hc2, ?_, ?_⟩
                · intro t ht hlt
                  apply hexp
                  simp [ht, hlt]
                · rw [hc3]; exact hopq
                · rw [hc3]; simp [hh]
                · intro s hs0 hne
                  have hm : (fun s : CustomerSession =>
                      if (s.ID == sess.ID) = true then { s with Revoked := true } else s) s
                      ∈ updateRevokedCustomer (fun s => s.ID == sess.ID) db.customer_sessions :=
                    List.mem_map_of_mem _ hs0
                  apply hc4 _ hm
                  dsimp only
                  split <;> exact hne
                · rw [hc1]

/-! ## Rotation: a refresh secret is used once -/

theorem RefreshTokens_of_revoked (L : Lib) (cfg : Config) (e : Env) (db : DB) (r : String)
    (sess : AdminSession)
    (hs : dbFirst AdminSession.ID (fun s => s.RefreshTokenHash == HashOpaqueToken L r)
        db.admin_sessions = .ok sess)
    (hrev : sess.Revoked = true) :
    RefreshTokens L cfg e db r = (.error (.New "refresh token revoked"), db) := by
  simp [RefreshTokens, hs, hrev]

theorem CustomerRefreshTokens_of_revoked (L : Lib) (cfg : Config) (e : Env) (db : DB)
    (r : String) (sess : CustomerSession)
    (hs : dbFirst CustomerSession.ID (fun s => s.RefreshTokenHash == HashOpaqueToken L r)
        db.customer_sessions = .ok sess)
    (hrev : sess.Revoked = true) :
    CustomerRefreshTokens L cfg e db r = (.error (.New "refresh token revoked"), db) := by
  simp [CustomerRefreshTokens, hs, hrev]

theorem dbFirst_after_rotation_admin (h : String) (rows : List AdminSession)
    (sess newSess : AdminSession)
    (hs : dbFirst AdminSession.ID (fun s => s.RefreshTokenHash == h) rows = .ok sess)
    (hnew : newSess.RefreshTokenHash ≠ h) :
    dbFirst AdminSession.ID (fun s => s.RefreshTokenHash == h)
        (updateRevokedAdmin (fun s => s.ID == sess.ID) rows ++ [newSess])
      = .ok { sess with Revoked := true } := by
  rw [dbFirst_append_singleton _ _ _ _ (by simpa using hnew)]
  have hmap := dbFirst_map AdminSession.ID (fun s => s.RefreshTokenHash == h)
    (fun s => if (fun s : AdminSession => s.ID == sess.ID) s
      then { s with Revoked := true } else s)
    (by intro x; dsimp only; split <;> rfl) (by intro x; dsimp only; split <;> rfl) rows
  rw [hs] at hmap
  simp only [updateRevokedAdmin]
  rw [hmap]
  simp [Except.map]

theorem dbFirst_after_rotation_admin_later (h : String) (rows : List AdminSession)
    (sess newSess : AdminSession)
    (hs : dbFirst AdminSession.ID (fun s => s.RefreshTokenHash == h) rows = .ok sess)
    (hlt : sess.ID.toList < newSess.ID.toList) :
    dbFirst AdminSession.ID (fun s => s.RefreshTokenHash == h)
        (updateRevokedAdmin (fun s => s.ID == sess.ID) rows ++ [newSess])
      = .ok { sess with Revoked := true } := by
  have hmap := dbFirst_map AdminSession.ID (fun s => s.RefreshTokenHash == h)
    (fun s => if (fun s : AdminSession => s.ID == sess.ID) s
      then { s with Revoked := true } else s)
    (by intro x; dsimp only; split <;> rfl) (by intro x; dsimp only; split <;> rfl) rows
  rw [hs] at hmap
  have hbase : dbFirst AdminSession.ID (fun s => s.RefreshTokenHash == h)
      (updateRevokedAdmin (fun s => s.ID == sess.ID) rows)
      = .ok { sess with Revoked := true } := by
    simp only [updateRevokedAdmin]
    rw [hmap]
    simp [Except.map]
  exact dbFirst_append_later AdminSession.ID _ _ newSess _ hbase hlt

theorem dbFirst_after_rotation_customer_later (h : String) (rows : List CustomerSession)
    (sess newSess : CustomerSession)
    (hs : dbFirst CustomerSession.ID (fun s => s.RefreshTokenHash == h) rows = .ok sess)
    (hlt : sess.ID.toList < newSess.ID.toList) :
    dbFirst CustomerSession.ID (fun s => s.RefreshTokenHash == h)
        (updateRevokedCustomer (fun s => s.ID == sess.ID) rows ++ [newSess])
      = .ok { sess with Revoked := true } := by
  have hmap := dbFirst_map CustomerSession.ID (fun s => s.RefreshTokenHash == h)
    (fun s => if (fun s : CustomerSession => s.ID == sess.ID) s
      then { s with Revoked := true } else s)
    (by intro x; dsimp only; split <;> rfl) (by intro x; dsimp only; split <;> rfl) rows
  rw [hs] at hmap
  have hbase : dbFirst CustomerSession.ID (fun s => s.RefreshTokenHash == h)
      (updateRevokedCustomer (fun s => s.ID == sess.ID) rows)
      = .ok { sess with Revoked := true } := by
    simp only [updateRevokedCustomer]
    rw [hmap]
    simp [Except.map]
  exact dbFirst_append_later CustomerSession.ID _ _ newSess _ hbase hlt

theorem dbFirst_after_rotation_customer (h : String) (rows : List CustomerSession)
    (sess newSess : CustomerSession)
    (hs : dbFirst CustomerSession.ID (fun s => s.RefreshTokenHash == h) rows = .ok sess)
    (hnew : newSess.RefreshTokenHash ≠ h) :
    dbFirst CustomerSession.ID (fun s => s.RefreshTokenHash == h)
        (updateRevokedCustomer (fun s => s.ID == sess.ID) rows ++ [newSess])
      = .ok { sess with Revoked := true } := by
  rw [dbFirst_append_singleton _ _ _ _ (by simpa using hnew)]
  have hmap := dbFirst_map CustomerSession.ID (fun s => s.RefreshTokenHash == h)
    (fun s => if (fun s : CustomerSession => s.ID == sess.ID) s
      then { s with Revoked := true } else s)
    (by intro x; dsimp only; split <;> rfl) (by intro x; dsimp only; split <;> rfl) rows
  rw [hs] at hmap
  simp only [updateRevokedCustomer]
  rw [hmap]
  simp [Except.map]

/-- C1, as amended: if `RefreshTokens` with secret `r` succeeds and the secret it
hands out hashes differently from `r`, or the session it creates has an id that
sorts after the id of the session that `r` led to, then on the database it leaves
behind every further `RefreshTokens` call with `r`, at any clock reading and with
any random draws, fails with "refresh token revoked" and changes nothing; likewise
for `CustomerRefreshTokens`. -/
theorem refresh_single_use (L : Lib) (cfg : Config) (e e2 : Env) (db : DB) (r : String) :
    (∀ (out : Tokens) (db1 : DB), RefreshTokens L cfg e db r = (.ok out, db1) →
        (HashOpaqueToken L out.refreshPlain ≠ HashOpaqueToken L r
          ∨ ∃ sess, dbFirst AdminSession.ID
                (fun s => s.RefreshTokenHash == HashOpaqueToken L r) db.admin_sessions
              = .ok sess
            ∧ sess.ID.toList < out.sessionID.toList) →
        RefreshTokens L cfg e2 db1 r = (.error (.New "refresh token revoked"), db1))
    ∧ (∀ (out : Tokens) (db1 : DB), CustomerRefreshTokens L cfg e db r = (.ok out, db1) →
        (HashOpaqueToken L out.refreshPlain ≠ HashOpaqueToken L r
          ∨ ∃ sess, dbFirst CustomerSession.ID
                (fun s => s.RefreshTokenHash == HashOpaqueToken L r) db.customer_sessions
              = .ok sess
            ∧ sess.ID.toList < out.sessionID.toList) →
        CustomerRefreshTokens L cfg e2 db1 r
          = (.error (.New "refresh token revoked"), db1)) := by
  constructor
  · intro out db1 h hfresh
    obtain ⟨sess, admin, newSess, hs, -, -, -, -, -, -, hnew, -, -, hdb⟩ :=
      RefreshTokens_ok L cfg e db db1 r out h
    have hf : dbFirst AdminSession.ID (fun s => s.RefreshTokenHash == HashOpaqueToken L r)
        (updateRevokedAdmin (fun s => s.ID == sess.ID) db.admin_sessions ++ [newSess])
        = .ok { sess with Revoked := true } := by
      rcases hfresh with hne | ⟨sess1, hs1, hlt⟩
      · have hn : newSess.RefreshTokenHash ≠ HashOpaqueToken L r := by rw [hnew]; exact hne
        exact dbFirst_after_rotation_admin _ _ _ _ hs hn
      · rw [hs] at hs1
        simp only [Except.ok.injEq] at hs1
        subst hs1
        have hid : newSess.ID = out.sessionID := by rw [hnew]
        exact dbFirst_after_rotation_admin_later _ _ _ _ hs (by rw [hid]; exact hlt)
    apply RefreshTokens_of_revoked L cfg e2 db1 r { sess with Revoked := true }
    · rw [hdb]; exact hf
    · rfl
  · intro out db1 h hfresh
    obtain ⟨sess, cust, newSess, hs, -, -, -, -, -, -, hnew, -, -, hdb⟩ :=
      CustomerRefreshTokens_ok L cfg e db db1 r out h
    have hf : dbFirst CustomerSession.ID
        (fun s => s.RefreshTokenHash == HashOpaqueToken L r)
        (updateRevokedCustomer (fun s => s.ID == sess.ID) db.customer_sessions ++ [newSess])
        = .ok { sess with Revoked := true } := by
      rcases hfresh with hne | ⟨sess1, hs1, hlt⟩
      · have hn : newSess.RefreshTokenHash ≠ HashOpaqueToken L r := by rw [hnew]; exact hne
        exact dbFirst_after_rotation_customer _ _ _ _ hs hn
      · rw [hs] at hs1
        simp only [Except.ok.injEq] at hs1
        subst hs1
        have hid : newSess.ID = out.sessionID := by rw [hnew]
        exact dbFirst_after_rotation_customer_later _ _ _ _ hs (by rw [hid]; exact hlt)
    apply CustomerRefreshTokens_of_revoked L cfg e2 db1 r { sess with Revoked := true }
    · rw [hdb]; exact hf
    · rfl

/-- C1, counterexample to the claim as stated: the random source returns for the
new secret the 48 bytes behind the secret presented, and the new session's id
sorts before the old one's. The first refresh succeeds and hands out the same
secret again; the lookup by its hash then finds the new, live session first, so
a second refresh with the same secret succeeds as well. -/
theorem refresh_single_use_counterexample :
    RefreshTokens sampleLib sampleCfg sampleEnv sampleSameDrawDB sampleDrawnSecret
      = (.ok (Tokens.ofResult
            (RefreshTokens sampleLib sampleCfg sampleEnv sampleSameDrawDB sampleDrawnSecret)),
          (RefreshTokens sampleLib sampleCfg sampleEnv sampleSameDrawDB sampleDrawnSecret).2)
    ∧ (Tokens.ofResult
        (RefreshTokens sampleLib sampleCfg sampleEnv sampleSameDrawDB
          sampleDrawnSecret)).refreshPlain = sampleDrawnSecret
    ∧ RefreshTokens sampleLib sampleCfg sampleEnv2
        (RefreshTokens sampleLib sampleCfg sampleEnv sampleSameDrawDB sampleDrawnSecret).2
        sampleDrawnSecret
      = (.ok (Tokens.ofResult
            (RefreshTokens sampleLib sampleCfg sampleEnv2
              (RefreshTokens sampleLib sampleCfg sampleEnv sampleSameDrawDB
                sampleDrawnSecret).2 sampleDrawnSecret)),
          (RefreshTokens sampleLib sampleCfg sampleEnv2
            (RefreshTokens sampleLib sampleCfg sampleEnv sampleSameDrawDB
              sampleDrawnSecret).2 sampleDrawnSecret).2)
    ∧ (RefreshTokens sampleLib sampleCfg sampleEnv2
        (RefreshTokens sampleLib sampleCfg sampleEnv sampleSameDrawDB sampleDrawnSecret).2
        sampleDrawnSecret).1 ≠ .error (.New "refresh token revoked") := by
  have h2 : RefreshTokens sampleLib sampleCfg sampleEnv2
        (RefreshTokens sampleLib sampleCfg sampleEnv sampleSameDrawDB sampleDrawnSecret).2
        sampleDrawnSecret
      = (.ok (Tokens.ofResult
            (RefreshTokens sampleLib sampleCfg sampleEnv2
              (RefreshTokens sampleLib sampleCfg sampleEnv sampleSameDrawDB
                sampleDrawnSecret).2 sampleDrawnSecret)),
          (RefreshTokens sampleLib sampleCfg sampleEnv2
            (RefreshTokens sampleLib sampleCfg sampleEnv sampleSameDrawDB
              sampleDrawnSecret).2 sampleDrawnSecret).2) := by rfl
  refine ⟨by rfl, by rfl, h2, ?_⟩
  rw [h2]
  simp

/-- C1, concrete instances: on the sample database a refresh with `"secret-1"`
succeeds, for the administrator and for the customer, and a second one is refused
as revoked. When the random source returns the presented secret again but the new
session's id sorts after the old one's, the second refresh is refused as well. -/
theorem refresh_single_use_witness :
    (RefreshTokens sampleLib sampleCfg sampleEnv sampleDB "secret-1"
        = (.ok (Tokens.ofResult (RefreshTokens sampleLib sampleCfg sampleEnv sampleDB "secret-1")),
            (RefreshTokens sampleLib sampleCfg sampleEnv sampleDB "secret-1").2)
      ∧ RefreshTokens sampleLib sampleCfg sampleEnv2
          (RefreshTokens sampleLib sampleCfg sampleEnv sampleDB "secret-1").2 "secret-1"
        = (.error (.New "refresh token revoked"),
            (RefreshTokens sampleLib sampleCfg sampleEnv sampleDB "secret-1").2))
    ∧ (CustomerRefreshTokens sampleLib sampleCfg sampleEnv sampleDB "secret-1"
        = (.ok (Tokens.ofResult
              (CustomerRefreshTokens sampleLib sampleCfg sampleEnv sampleDB "secret-1")),
            (CustomerRefreshTokens sampleLib sampleCfg sampleEnv sampleDB "secret-1").2)
      ∧ CustomerRefreshTokens sampleLib sampleCfg sampleEnv2
          (CustomerRefreshTokens sampleLib sampleCfg sampleEnv sampleDB "secret-1").2 "secret-1"
        = (.error (.New "refresh token revoked"),
            (CustomerRefreshTokens sampleLib sampleCfg sampleEnv sampleDB "secret-1").2))
    ∧ ((Tokens.ofResult (RefreshTokens sampleLib sampleCfg sampleEnv sampleEarlierSameDrawDB
          sampleDrawnSecret)).refreshPlain = sampleDrawnSecret
      ∧ RefreshTokens sampleLib sampleCfg sampleEnv2
          (RefreshTokens sampleLib sampleCfg sampleEnv sampleEarlierSameDrawDB
            sampleDrawnSecret).2 sampleDrawnSecret
        = (.error (.New "refresh token revoked"),
            (RefreshTokens sampleLib sampleCfg sampleEnv sampleEarlierSameDrawDB
              sampleDrawnSecret).2)) :=
  ⟨⟨by rfl, (refresh_single_use sampleLib sampleCfg sampleEnv sampleEnv2 sampleDB "secret-1").1
      _ _ (by rfl) (Or.inl (by decide))⟩,
    ⟨by rfl, (refresh_single_use sampleLib sampleCfg sampleEnv sampleEnv2 sampleDB "secret-1").2
      _ _ (by rfl) (Or.inl (by decide))⟩,
    ⟨by rfl, (refresh_single_use sampleLib sampleCfg sampleEnv sampleEnv2
      sampleEarlierSameDrawDB sampleDrawnSecret).1
      (Tokens.ofResult (RefreshTokens sampleLib sampleCfg sampleEnv sampleEarlierSameDrawDB
        sampleDrawnSecret)) _ (by rfl)
      (Or.inr ⟨sampleEarlierSameDrawSession, by rfl, by decide⟩)⟩⟩

/-! ## Login: the session and the tokens of a successful call -/

theorem GenerateAccessTokenWithLevel_ok (L : Lib) (cfg : Config) (now nowIat : Time)
    (adminID level : String) (ttl : Duration) (tok : TokenString) (exp : Time)
    (h : GenerateAccessTokenWithLevel L cfg now nowIat adminID level ttl = .ok (tok, exp)) :
    cfg.accessSecret ≠ "" ∧ exp = now + ttl
    ∧ tok = .compact "HS256"
        { admin_id := some adminID, level := some level, sub := none, typ := none,
          exp := some (NewNumericDate (now + ttl)), iat := some (NewNumericDate nowIat) }
        (L.HMACSHA256 cfg.accessSecret "HS256"
          { admin_id := some adminID, level := some level, sub := none, typ := none,
            exp := some (NewNumericDate (now + ttl)), iat := some (NewNumericDate nowIat) }) := by
  unfold GenerateAccessTokenWithLevel at h
  simp only at h
  split at h
  · simp at h
  · rename_i hsec
    simp only [SignedStringHS256, AccessClaims.marshal, Except.ok.injEq, Prod.mk.injEq] at h
    exact ⟨hsec, h.2.symm, h.1.symm⟩

theorem ParseAccessTokenClaims_generated (L : Lib) (cfg : Config) (now nowIat : Time)
    (adminID level : String) (ttl : Duration) (tok : TokenString) (exp : Time)
    (h : GenerateAccessTokenWithLevel L cfg now nowIat adminID level ttl = .ok (tok, exp))
    (t : Time) (ht : t < NewNumericDate exp * 1000000000) :
    ParseAccessTokenClaims L cfg t tok
      = .ok { AdminID := adminID, Level := level, ExpiresAt := some (NewNumericDate exp),
              IssuedAt := some (NewNumericDate nowIat) } := by
  obtain ⟨hsec, hexp, htok⟩ := GenerateAccessTokenWithLevel_ok L cfg now nowIat adminID level
    ttl tok exp h
  subst hexp htok
  simp [ParseAccessTokenClaims, ParseWithClaimsHS256, hsec, ht, AccessClaims.unmarshal]

theorem issue_time_before_expiry (now ttl : Int) (httl : 1000000000 ≤ ttl) :
    now < NewNumericDate (now + ttl) * 1000000000 := by
  unfold NewNumericDate
  have h1 := Int.emod_add_ediv (now + ttl) 1000000000
  have h2 := Int.emod_lt_of_pos (now + ttl) (show (0 : Int) < 1000000000 by decide)
  omega

theorem AuthenticateAndCreateSession_ok (L : Lib) (cfg : Config) (e : Env) (db db1 : DB)
    (email password : String) (out : Tokens)
    (h : AuthenticateAndCreateSession L cfg e db email password = (.ok out, db1)) :
    ∃ admin newSess,
      GetAdminByEmail db email = .ok admin
      ∧ CheckPassword L admin.PasswordHash password = true
      ∧ admin.IsActive = true
      ∧ GenerateAccessTokenWithLevel L cfg e.nowAccessExp e.nowAccessIat admin.ID admin.Level
          defaultAccessTTL = .ok (out.accessToken, out.accessExp)
      ∧ GenerateOpaqueRefreshToken L e.randRefresh
          = .ok (out.refreshPlain, newSess.RefreshTokenHash)
      ∧ out.refreshExp = e.nowRefreshExp + defaultRefreshTTL
      ∧ newSess = { ID := out.sessionID, AdminID := admin.ID,
                    RefreshTokenHash := HashOpaqueToken L out.refreshPlain,
                    UserAgent := none, IPAddress := none, CreatedAt := e.nowCreatedAt,
                    ExpiresAt := some out.refreshExp, Revoked := false }
      ∧ uuid.New e.nowUUID e.randUUID = .ok out.sessionID
      ∧ (∀ s ∈ db.admin_sessions, s.ID ≠ out.sessionID)
      ∧ db1 = { db with admin_sessions := db.admin_sessions ++ [newSess] } := by
  unfold AuthenticateAndCreateSession at h
  simp only at h
  split at h
  · simp at h
  · rename_i admin hadmin
    split at h
    · simp at h
    · rename_i hpw
      split at h
      · simp at h
      · rename_i hact
        split at h
        · simp at h
        · rename_i at_ aexp hgen
          split at h
          · simp at h
          · rename_i plain newHash hopq
            split at h
            · simp at h
            · rename_i created db2 hcreate
              simp only [Prod.mk.injEq, Except.ok.injEq] at h
              obtain ⟨hout, hdb⟩ := h
              subst hout hdb
              obtain ⟨hc1, hc2, hc3, hc4⟩ := CreateSession_ok _ _ _ _ _ rfl rfl hcreate
              obtain ⟨hh, _⟩ := GenerateOpaqueRefreshToken_ok L _ _ _ hopq
              refine ⟨admin, created, hadmin, by simpa using hpw, by simpa using hact, hgen, ?_,
                rfl, ?_, hc2, hc4, hc1⟩
              · rw [hc3]; exact hopq
              · rw [hc3]; simp [hh]

theorem CreateSession_succeeds (e : Env) (db : DB) (sess : AdminSession) (id : String)
    (hid : sess.ID = "") (hct : sess.CreatedAt = zeroTime)
    (hu : uuid.New e.nowUUID e.randUUID = .ok id)
    (hfresh : ∀ s ∈ db.admin_sessions, s.ID ≠ id) :
    ∃ row db1, CreateSession e db sess = (.ok row, db1) := by
  have hany : (db.admin_sessions.any fun s => s.ID == id) = false := by
    rw [Bool.eq_false_iff]
    intro hc
    simp only [List.any_eq_true, beq_iff_eq] at hc
    obtain ⟨s, hs, hse⟩ := hc
    exact hfresh s hs hse
  simp [CreateSession, AdminSession.BeforeCreate, hid, hu, hct, hany]

theorem GenerateAccessTokenWithLevel_succeeds (L : Lib) (cfg : Config) (now nowIat : Time)
    (adminID level : String) (ttl : Duration) (hsec : cfg.accessSecret ≠ "") :
    ∃ tok, GenerateAccessTokenWithLevel L cfg now nowIat adminID level ttl
      = .ok (tok, now + ttl) := by
  simp [GenerateAccessTokenWithLevel, hsec, SignedStringHS256]

theorem GenerateOpaqueRefreshToken_succeeds (L : Lib) (b : Fin 48 → Byte) :
    GenerateOpaqueRefreshToken L (some b)
      = .ok (EncodeToString (List.ofFn b), HashOpaqueToken L (EncodeToString (List.ofFn b))) :=
  rfl

theorem AuthenticateAndCreateSession_succeeds (L : Lib) (cfg : Config) (e : Env) (db : DB)
    (email password : String) (a : Admin) (rb : Fin 48 → Byte) (id : String)
    (ha : GetAdminByEmail db email = .ok a) (hactive : a.IsActive = true)
    (hpw : CheckPassword L a.PasswordHash password = true)
    (hsec : cfg.accessSecret ≠ "") (hr : e.randRefresh = some rb)
    (hu : uuid.New e.nowUUID e.randUUID = .ok id)
    (hfresh : ∀ s ∈ db.admin_sessions, s.ID ≠ id) :
    ∃ out db1, AuthenticateAndCreateSession L cfg e db email password = (.ok out, db1) := by
  obtain ⟨tok, hg⟩ := GenerateAccessTokenWithLevel_succeeds L cfg e.nowAccessExp e.nowAccessIat
    a.ID a.Level defaultAccessTTL hsec
  obtain ⟨row, db1, hc⟩ := CreateSession_succeeds e db
    { ID := "", AdminID := a.ID,
      RefreshTokenHash := HashOpaqueToken L (EncodeToString (List.ofFn rb)),
      UserAgent := none, IPAddress := none, CreatedAt := zeroTime,
      ExpiresAt := some (e.nowRefreshExp + defaultRefreshTTL), Revoked := false }
    id rfl rfl hu hfresh
  unfold AuthenticateAndCreateSession
  simp only [ha, hpw, hactive, hg, hr, GenerateOpaqueRefreshToken_succeeds, hc, Bool.not_true,
    Bool.false_eq_true, if_false]
  exact ⟨_, _, rfl⟩

/-- C3: take the principal found for the email, active, and its right password.
Then login succeeds whenever the signing secret is set, the random source delivers
and the drawn session id is not yet a key of the table. Every successful call
leaves the other tables as they were and appends exactly one session row, which is
owned by that principal, is not revoked, expires at the returned refresh expiry,
has the returned session id and carries `HashOpaqueToken` of the returned refresh
token; and the returned access token parses, at the time of issue and at every
time before its expiry second, to claims with that principal's id and level. -/
theorem login_creates_session (L : Lib) (cfg : Config) (e : Env) (db : DB)
    (email password : String) (a : Admin)
    (ha : GetAdminByEmail db email = .ok a) (hactive : a.IsActive = true)
    (hpw : CheckPassword L a.PasswordHash password = true) :
    (cfg.accessSecret ≠ "" → (∃ rb, e.randRefresh = some rb) →
        (∃ id, uuid.New e.nowUUID e.randUUID = .ok id ∧ ∀ s ∈ db.admin_sessions, s.ID ≠ id) →
        ∃ out db1, AuthenticateAndCreateSession L cfg e db email password = (.ok out, db1))
    ∧ ∀ (out : Tokens) (db1 : DB),
        AuthenticateAndCreateSession L cfg e db email password = (.ok out, db1) →
        (∃ sess : AdminSession,
            db1 = { db with admin_sessions := db.admin_sessions ++ [sess] }
            ∧ sess.AdminID = a.ID ∧ sess.Revoked = false
            ∧ sess.ExpiresAt = some out.refreshExp ∧ sess.ID = out.sessionID
            ∧ sess.RefreshTokenHash = HashOpaqueToken L out.refreshPlain)
        ∧ e.nowAccessExp < NewNumericDate out.accessExp * 1000000000
        ∧ ∀ t : Time, t < NewNumericDate out.accessExp * 1000000000 →
            ∃ claims, ParseAccessTokenClaims L cfg t out.accessToken = .ok claims
              ∧ claims.AdminID = a.ID ∧ claims.Level = a.Level := by
  constructor
  · rintro hsec ⟨rb, hr⟩ ⟨id, hu, hfresh⟩
    exact AuthenticateAndCreateSession_succeeds L cfg e db email password a rb id ha hactive
      hpw hsec hr hu hfresh
  · intro out db1 h
    obtain ⟨admin, newSess, hadmin, -, -, hgen, -, -, hnew, -, -, hdb⟩ :=
      AuthenticateAndCreateSession_ok L cfg e db db1 email password out h
    rw [ha] at hadmin
    simp only [Except.ok.injEq] at hadmin
    subst hadmin
    refine ⟨⟨newSess, hdb, ?_, ?_, ?_, ?_, ?_⟩, ?_, ?_⟩
    · rw [hnew]
    · rw [hnew]
    · rw [hnew]
    · rw [hnew]
    · rw [hnew]
    · rw [(GenerateAccessTokenWithLevel_ok L cfg _ _ _ _ _ _ _ hgen).2.1]
      exact issue_time_before_expiry _ _ (by decide)
    · intro t ht
      exact ⟨_, ParseAccessTokenClaims_generated L cfg _ _ _ _ _ _ _ hgen t ht, rfl, rfl⟩

/-- C3, a concrete instance: the sample administrator logs in on the sample
database; the call succeeds, the table grows from three rows to four, and the
access token parses at the time of issue. -/
theorem login_creates_session_witness :
    GetAdminByEmail sampleDB "a@example.com" = .ok sampleAdmin
    ∧ sampleAdmin.IsActive = true
    ∧ CheckPassword sampleLib sampleAdmin.PasswordHash "correct" = true
    ∧ AuthenticateAndCreateSession sampleLib sampleCfg sampleEnv sampleDB
          "a@example.com" "correct"
        = (.ok (Tokens.ofResult (AuthenticateAndCreateSession sampleLib sampleCfg sampleEnv
              sampleDB "a@example.com" "correct")),
            (AuthenticateAndCreateSession sampleLib sampleCfg sampleEnv sampleDB
              "a@example.com" "correct").2)
    ∧ (AuthenticateAndCreateSession sampleLib sampleCfg sampleEnv sampleDB
          "a@example.com" "correct").2.admin_sessions.length = 4
    ∧ ∃ claims, ParseAccessTokenClaims sampleLib sampleCfg sampleEnv.nowAccessExp
          (Tokens.ofResult (AuthenticateAndCreateSession sampleLib sampleCfg sampleEnv
              sampleDB "a@example.com" "correct")).accessToken = .ok claims
        ∧ claims.AdminID = sampleAdmin.ID ∧ claims.Level = sampleAdmin.Level :=
  have hw := (login_creates_session sampleLib sampleCfg sampleEnv sampleDB "a@example.com"
    "correct" sampleAdmin (by rfl) (by rfl) (by rfl)).2 _ _ (by rfl)
  ⟨by rfl, by rfl, by rfl, by rfl, by rfl, hw.2.2 _ hw.2.1⟩

/-! ## Refresh: rotation of the session -/

theorem RefreshTokens_succeeds (L : Lib) (cfg : Config) (e : Env) (db : DB) (r : String)
    (sess : AdminSession) (owner : Admin) (rb : Fin 48 → Byte) (id : String)
    (hs : dbFirst AdminSession.ID (fun s => s.RefreshTokenHash == HashOpaqueToken L r)
        db.admin_sessions = .ok sess)
    (hrev : sess.Revoked = false)
    (hexp : ∀ t, sess.ExpiresAt = some t → ¬ t < e.nowExpiryCheck)
    (ho : GetAdminByID db sess.AdminID = .ok owner)
    (hsec : cfg.accessSecret ≠ "") (hr : e.randRefresh = some rb)
    (hu : uuid.New e.nowUUID e.randUUID = .ok id)
    (hfresh : ∀ s ∈ db.admin_sessions, s.ID ≠ id) :
    ∃ out db1, RefreshTokens L cfg e db r = (.ok out, db1) := by
  obtain ⟨tok, hg⟩ := GenerateAccessTokenWithLevel_succeeds L cfg e.nowAccessExp e.nowAccessIat
    owner.ID owner.Level defaultAccessTTL hsec
  have hfresh1 : ∀ s ∈ (RevokeSession db sess.ID).2.admin_sessions, s.ID ≠ id := by
    intro s hmem
    simp only [RevokeSession, updateRevokedAdmin, List.mem_map] at hmem
    obtain ⟨s0, hs0, rfl⟩ := hmem
    have := hfresh s0 hs0
    split <;> exact this
  obtain ⟨row, db1, hc⟩ := CreateSession_succeeds e (RevokeSession db sess.ID).2
    { ID := "", AdminID := owner.ID,
      RefreshTokenHash := HashOpaqueToken L (EncodeToString (List.ofFn rb)),
      UserAgent := none, IPAddress := none, CreatedAt := zeroTime,
      ExpiresAt := some (e.nowRefreshExp + defaultRefreshTTL), Revoked := false }
    id rfl rfl hu hfresh1
  have hexp1 : (match sess.ExpiresAt with
      | some t => decide (t < e.nowExpiryCheck)
      | none => false) = false := by
    cases ht : sess.ExpiresAt with
    | none => rfl
    | some t => simpa using hexp t ht
  unfold RefreshTokens
  simp only [hs, hrev, hexp1, ho, hg, hr, GenerateOpaqueRefreshToken_succeeds, Bool.false_eq_true,
    if_false]
  simp only [RevokeSession] at hc ⊢
  simp only [hc]
  exact ⟨_, _, rfl⟩

theorem updateRevokedAdmin_by_key (rows : List AdminSession) (sess : AdminSession)
    (hkeys : (rows.map AdminSession.ID).Nodup) (hmem : sess ∈ rows) :
    updateRevokedAdmin (fun s => s.ID == sess.ID) rows
      = rows.map fun s => if s = sess then { s with Revoked := true } else s := by
  unfold updateRevokedAdmin
  apply List.map_congr_left
  intro s hs
  by_cases heq : s = sess
  · simp [heq]
  · have hne : s.ID ≠ sess.ID := fun hid => heq (List.inj_on_of_nodup_map hkeys hs hmem hid)
    simp [heq, hne]

/-- C4: let the primary key of the session table be unique, and let the secret `r`
lead to a session that is not revoked and not expired and whose owner exists. Then
`RefreshTokens` succeeds whenever the signing secret is set, the random source
delivers and the drawn session id is not yet a key of the table. Every successful
call leaves the other tables as they were, sets `revoked` on exactly that session,
keeps every other row as it was, and appends exactly one row, which is not
revoked, belongs to the same principal, has the returned session id and carries
`HashOpaqueToken` of the returned refresh token. -/
theorem refresh_rotates_session (L : Lib) (cfg : Config) (e : Env) (db : DB) (r : String)
    (sess : AdminSession) (owner : Admin)
    (hkeys : (db.admin_sessions.map AdminSession.ID).Nodup)
    (hs : dbFirst AdminSession.ID (fun s => s.RefreshTokenHash == HashOpaqueToken L r)
        db.admin_sessions = .ok sess)
    (hrev : sess.Revoked = false)
    (hexp : ∀ t, sess.ExpiresAt = some t → ¬ t < e.nowExpiryCheck)
    (ho : GetAdminByID db sess.AdminID = .ok owner) :
    (cfg.accessSecret ≠ "" → (∃ rb, e.randRefresh = some rb) →
        (∃ id, uuid.New e.nowUUID e.randUUID = .ok id ∧ ∀ s ∈ db.admin_sessions, s.ID ≠ id) →
        ∃ out db1, RefreshTokens L cfg e db r = (.ok out, db1))
    ∧ ∀ (out : Tokens) (db1 : DB), RefreshTokens L cfg e db r = (.ok out, db1) →
        ∃ newSess : AdminSession,
          db1 = { db with
            admin_sessions :=
              (db.admin_sessions.map fun s => if s = sess then { s with Revoked := true } else s)
                ++ [newSess] }
          ∧ newSess.Revoked = false ∧ newSess.AdminID = sess.AdminID
          ∧ newSess.AdminID = owner.ID ∧ newSess.ID = out.sessionID
          ∧ newSess.RefreshTokenHash = HashOpaqueToken L out.refreshPlain := by
  constructor
  · rintro hsec ⟨rb, hr⟩ ⟨id, hu, hfresh⟩
    exact RefreshTokens_succeeds L cfg e db r sess owner rb id hs hrev hexp ho hsec hr hu hfresh
  · intro out db1 h
    obtain ⟨sess1, admin, newSess, hs1, -, -, hadmin, -, -, -, hnew, -, -, hdb⟩ :=
      RefreshTokens_ok L cfg e db db1 r out h
    rw [hs] at hs1
    simp only [Except.ok.injEq] at hs1
    subst hs1
    rw [ho] at hadmin
    simp only [Except.ok.injEq] at hadmin
    subst hadmin
    have hmem := (dbFirst_ok_mem _ _ _ _ hs).1
    have hown : owner.ID = sess.AdminID := by
      unfold GetAdminByID at ho
      split at ho
      · simp at ho
      · rename_i a hfirst
        simp only [Except.ok.injEq] at ho
        subst ho
        simpa using (dbFirst_ok_mem _ _ _ _ hfirst).2
    refine ⟨newSess, ?_, ?_, ?_, ?_, ?_, ?_⟩
    · rw [hdb, updateRevokedAdmin_by_key _ _ hkeys hmem]
    · rw [hnew]
    · rw [hnew]; exact hown
    · rw [hnew]
    · rw [hnew]
    · rw [hnew]

/-- C4, a concrete instance: a refresh with `"secret-1"` on the sample database
succeeds and rotates the sample session. -/
theorem refresh_rotates_session_witness :
    (sampleDB.admin_sessions.map AdminSession.ID).Nodup
    ∧ dbFirst AdminSession.ID
        (fun s => s.RefreshTokenHash == HashOpaqueToken sampleLib "secret-1")
        sampleDB.admin_sessions = .ok sampleSession
    ∧ sampleSession.Revoked = false
    ∧ GetAdminByID sampleDB sampleSession.AdminID = .ok sampleAdmin
    ∧ RefreshTokens sampleLib sampleCfg sampleEnv sampleDB "secret-1"
        = (.ok (Tokens.ofResult
              (RefreshTokens sampleLib sampleCfg sampleEnv sampleDB "secret-1")),
            (RefreshTokens sampleLib sampleCfg sampleEnv sampleDB "secret-1").2)
    ∧ ∃ newSess : AdminSession,
        (RefreshTokens sampleLib sampleCfg sampleEnv sampleDB "secret-1").2
          = { sampleDB with
              admin_sessions :=
                (sampleDB.admin_sessions.map fun s =>
                    if s = sampleSession then { s with Revoked := true } else s)
                  ++ [newSess] }
        ∧ newSess.Revoked = false ∧ newSess.AdminID = sampleSession.AdminID
        ∧ newSess.AdminID = sampleAdmin.ID
        ∧ newSess.ID = (Tokens.ofResult
            (RefreshTokens sampleLib sampleCfg sampleEnv sampleDB "secret-1")).sessionID
        ∧ newSess.RefreshTokenHash = HashOpaqueToken sampleLib (Tokens.ofResult
            (RefreshTokens sampleLib sampleCfg sampleEnv sampleDB "secret-1")).refreshPlain :=
  ⟨by decide, by rfl, by rfl, by rfl, by rfl,
    (refresh_rotates_session sampleLib sampleCfg sampleEnv sampleDB "secret-1"
      sampleSession sampleAdmin (by decide) (by rfl) (by rfl)
      (by intro t ht; cases ht; decide) (by rfl)).2
      (Tokens.ofResult (RefreshTokens sampleLib sampleCfg sampleEnv sampleDB "secret-1"))
      (RefreshTokens sampleLib sampleCfg sampleEnv sampleDB "secret-1").2 (by rfl)⟩

/-! ## Session rows are append-only -/

theorem appendOnlyAdmin_refl (rows : List AdminSession) : AppendOnlyAdmin rows rows :=
  ⟨rows, [], by simp, List.forall₂_same.2 fun _ _ =>
    ⟨rfl, rfl, rfl, rfl, rfl, rfl, rfl, fun h => h⟩⟩

theorem appendOnlyAdmin_update (cond : AdminSession → Bool) (rows : List AdminSession) :
    AppendOnlyAdmin rows (updateRevokedAdmin cond rows) := by
  refine ⟨updateRevokedAdmin cond rows, [], by simp, ?_⟩
  unfold updateRevokedAdmin
  rw [List.forall₂_map_right_iff, List.forall₂_same]
  intro s _
  by_cases hc : cond s = true
  · simp [hc, AdminSession.KeptAs]
  · simp [hc, AdminSession.KeptAs]

theorem appendOnlyAdmin_append (old new more : List AdminSession)
    (h : AppendOnlyAdmin old new) : AppendOnlyAdmin old (new ++ more) := by
  obtain ⟨kept, extra, hnew, hk⟩ := h
  exact ⟨kept, extra ++ more, by simp [hnew], hk⟩

theorem CreateSession_appendOnly (e : Env) (db : DB) (sess : AdminSession)
    (old : List AdminSession) (h : AppendOnlyAdmin old db.admin_sessions) :
    AppendOnlyAdmin old (CreateSession e db sess).2.admin_sessions
    ∧ (CreateSession e db sess).2.customer_sessions = db.customer_sessions := by
  unfold CreateSession
  split
  · exact ⟨h, rfl⟩
  · dsimp only
    split
    · exact ⟨h, rfl⟩
    · exact ⟨appendOnlyAdmin_append _ _ _ h, rfl⟩

theorem CreateSession_appendOnly_of (e : Env) (db db2 : DB) (sess : AdminSession)
    (res : Except Err AdminSession) (old : List AdminSession)
    (hc : CreateSession e db sess = (res, db2)) (h : AppendOnlyAdmin old db.admin_sessions) :
    AppendOnlyAdmin old db2.admin_sessions ∧ db2.customer_sessions = db.customer_sessions := by
  have := CreateSession_appendOnly e db sess old h
  rw [hc] at this
  exact this

theorem AuthenticateAndCreateSession_appendOnly (L : Lib) (cfg : Config) (e : Env) (db : DB)
    (email password : String) :
    AppendOnlyAdmin db.admin_sessions
      (AuthenticateAndCreateSession L cfg e db email password).2.admin_sessions
    ∧ (AuthenticateAndCreateSession L cfg e db email password).2.customer_sessions
        = db.customer_sessions := by
  have hrefl := appendOnlyAdmin_refl db.admin_sessions
  unfold AuthenticateAndCreateSession
  simp only
  split
  · exact ⟨hrefl, rfl⟩
  · split
    · exact ⟨hrefl, rfl⟩
    · split
      · exact ⟨hrefl, rfl⟩
      · split
        · exact ⟨hrefl, rfl⟩
        · split
          · exact ⟨hrefl, rfl⟩
          · split
            · rename_i hc
              exact CreateSession_appendOnly_of e _ _ _ _ _ hc hrefl
            · rename_i hc
              exact CreateSession_appendOnly_of e _ _ _ _ _ hc hrefl

theorem RefreshTokens_appendOnly (L : Lib) (cfg : Config) (e : Env) (db : DB) (r : String) :
    AppendOnlyAdmin db.admin_sessions (RefreshTokens L cfg e db r).2.admin_sessions
    ∧ (RefreshTokens L cfg e db r).2.customer_sessions = db.customer_sessions := by
  have hrefl := appendOnlyAdmin_refl db.admin_sessions
  unfold RefreshTokens
  simp only [RevokeSession]
  split
  · exact ⟨hrefl, rfl⟩
  · rename_i sess _
    have hupd := appendOnlyAdmin_update (fun s => s.ID == sess.ID) db.admin_sessions
    split
    · exact ⟨hrefl, rfl⟩
    · split
      · exact ⟨hrefl, rfl⟩
      · split
        · exact ⟨hrefl, rfl⟩
        · split
          · exact ⟨hupd, rfl⟩
          · split
            · exact ⟨hupd, rfl⟩
            · split
              · rename_i hc
                have h2 := CreateSession_appendOnly_of e _ _ _ _ _ hc hupd
                exact ⟨h2.1, h2.2⟩
              · rename_i hc
                have h2 := CreateSession_appendOnly_of e _ _ _ _ _ hc hupd
                exact ⟨h2.1, h2.2⟩

theorem appendOnlyCustomer_refl (rows : List CustomerSession) : AppendOnlyCustomer rows rows :=
  ⟨rows, [], by simp, List.forall₂_same.2 fun _ _ =>
    ⟨rfl, rfl, rfl, rfl, rfl, rfl, rfl, fun h => h⟩⟩

theorem appendOnlyCustomer_update (cond : CustomerSession → Bool) (rows : List CustomerSession) :
    AppendOnlyCustomer rows (updateRevokedCustomer cond rows) := by
  refine ⟨updateRevokedCustomer cond rows, [], by simp, ?_⟩
  unfold updateRevokedCustomer
  rw [List.forall₂_map_right_iff, List.forall₂_same]
  intro s _
  by_cases hc : cond s = true
  · simp [hc, CustomerSession.KeptAs]
  · simp [hc, CustomerSession.KeptAs]

theorem appendOnlyCustomer_append (old new more : List CustomerSession)
    (h : AppendOnlyCustomer old new) : AppendOnlyCustomer old (new ++ more) := by
  obtain ⟨kept, extra, hnew, hk⟩ := h
  exact ⟨kept, extra ++ more, by simp [hnew], hk⟩

theorem CreateCustomerSession_appendOnly (e : Env) (db : DB) (sess : CustomerSession)
    (old : List CustomerSession) (h : AppendOnlyCustomer old db.customer_sessions) :
    AppendOnlyCustomer old (CreateCustomerSession e db sess).2.customer_sessions
    ∧ (CreateCustomerSession e db sess).2.admin_sessions = db.admin_sessions := by
  unfold CreateCustomerSession
  split
  · exact ⟨h, rfl⟩
  · dsimp only
    split
    · exact ⟨h, rfl⟩
    · exact ⟨appendOnlyCustomer_append _ _ _ h, rfl⟩

theorem CreateCustomerSession_appendOnly_of (e : Env) (db db2 : DB) (sess : CustomerSession)
    (res : Except Err CustomerSession) (old : List CustomerSession)
    (hc : CreateCustomerSession e db sess = (res, db2)) (h : AppendOnlyCustomer old db.customer_sessions) :
    AppendOnlyCustomer old db2.customer_sessions ∧ db2.admin_sessions = db.admin_sessions := by
  have := CreateCustomerSession_appendOnly e db sess old h
  rw [hc] at this
  exact this

theorem CustomerAuthenticateAndCreateSession_appendOnly (L : Lib) (cfg : Config) (e : Env) (db : DB)
    (email password : String) :
    AppendOnlyCustomer db.customer_sessions
      (CustomerAuthenticateAndCreateSession L cfg e db email password).2.customer_sessions
    ∧ (CustomerAuthenticateAndCreateSession L cfg e db email password).2.admin_sessions
        = db.admin_sessions := by
  have hrefl := appendOnlyCustomer_refl db.customer_sessions
  unfold CustomerAuthenticateAndCreateSession
  simp only
  split
  · exact ⟨hrefl, rfl⟩
  · split
    · exact ⟨hrefl, rfl⟩
    · split
      · exact ⟨hrefl, rfl⟩
      · split
        · exact ⟨hrefl, rfl⟩
        · split
          · exact ⟨hrefl, rfl⟩
          · split
            · rename_i hc
              exact CreateCustomerSession_appendOnly_of e _ _ _ _ _ hc hrefl
            · rename_i hc
              exact CreateCustomerSession_appendOnly_of e _ _ _ _ _ hc hrefl

theorem CustomerRefreshTokens_appendOnly (L : Lib) (cfg : Config) (e : Env) (db : DB) (r : String) :
    AppendOnlyCustomer db.customer_sessions (CustomerRefreshTokens L cfg e db r).2.customer_sessions
    ∧ (CustomerRefreshTokens L cfg e db r).2.admin_sessions = db.admin_sessions := by
  have hrefl := appendOnlyCustomer_refl db.customer_sessions
  unfold CustomerRefreshTokens
  simp only
  split
  · exact ⟨hrefl, rfl⟩
  · rename_i sess _
    have hupd := appendOnlyCustomer_update (fun s => s.ID == sess.ID) db.customer_sessions
    split
    · exact ⟨hrefl, rfl⟩
    · split
      · exact ⟨hrefl, rfl⟩
      · split
        · exact ⟨hrefl, rfl⟩
        · split
          · exact ⟨hupd, rfl⟩
          · split
            · exact ⟨hupd, rfl⟩
            · split
              · rename_i hc
                have h2 := CreateCustomerSession_appendOnly_of e _ _ _ _ _ hc hupd
                exact ⟨h2.1, h2.2⟩
              · rename_i hc
                have h2 := CreateCustomerSession_appendOnly_of e _ _ _ _ _ hc hupd
                exact ⟨h2.1, h2.2⟩

/-- C6: every operation of the session manager (login, refresh, logout,
`RevokeSession`, `RevokeByRefreshHash`, `CreateSession`, and their customer
counterparts), at every database and with every input, keeps every existing
session row in place with all fields other than `revoked` unchanged and with
`revoked` never going from true to false; it may only set `revoked` and add rows
after the existing ones. -/
theorem sessions_append_only (L : Lib) (cfg : Config) (e : Env) (db : DB) (op : Op) :
    AppendOnlyAdmin db.admin_sessions (op.run L cfg e db).admin_sessions
    ∧ AppendOnlyCustomer db.customer_sessions (op.run L cfg e db).customer_sessions := by
  have ha := appendOnlyAdmin_refl db.admin_sessions
  have hc := appendOnlyCustomer_refl db.customer_sessions
  cases op with
  | login email password =>
    have h := AuthenticateAndCreateSession_appendOnly L cfg e db email password
    exact ⟨h.1, by simp only [Op.run]; rw [h.2]; exact hc⟩
  | refresh r =>
    have h := RefreshTokens_appendOnly L cfg e db r
    exact ⟨h.1, by simp only [Op.run]; rw [h.2]; exact hc⟩
  | logout r => exact ⟨appendOnlyAdmin_update _ _, hc⟩
  | revokeSession id => exact ⟨appendOnlyAdmin_update _ _, hc⟩
  | revokeByRefreshHash hash => exact ⟨appendOnlyAdmin_update _ _, hc⟩
  | createSession sess =>
    have h := CreateSession_appendOnly e db sess _ ha
    exact ⟨h.1, by simp only [Op.run]; rw [h.2]; exact hc⟩
  | customerLogin email password =>
    have h := CustomerAuthenticateAndCreateSession_appendOnly L cfg e db email password
    exact ⟨by simp only [Op.run]; rw [h.2]; exact ha, h.1⟩
  | customerRefresh r =>
    have h := CustomerRefreshTokens_appendOnly L cfg e db r
    exact ⟨by simp only [Op.run]; rw [h.2]; exact ha, h.1⟩
  | customerLogout r => exact ⟨ha, appendOnlyCustomer_update _ _⟩
  | revokeCustomerByRefreshHash hash => exact ⟨ha, appendOnlyCustomer_update _ _⟩
  | createCustomerSession sess =>
    have h := CreateCustomerSession_appendOnly e db sess _ hc
    exact ⟨by simp only [Op.run]; rw [h.2]; exact ha, h.1⟩

/-! ## Login: unknown email against wrong password -/

theorem login_unknown_email (L : Lib) (cfg : Config) (e : Env) (db : DB)
    (email password : String) (h : ∀ a ∈ db.admins, a.Email ≠ email) :
    AuthenticateAndCreateSession L cfg e db email password = (.error .ErrRecordNotFound, db) := by
  have hnone := dbFirst_none Admin.ID (fun a => a.Email == email) db.admins
    (by intro a ha; simpa using h a ha)
  simp [AuthenticateAndCreateSession, GetAdminByEmail, hnone]

theorem login_wrong_password (L : Lib) (cfg : Config) (e : Env) (db : DB)
    (email password : String) (a : Admin) (ha : GetAdminByEmail db email = .ok a)
    (hpw : CheckPassword L a.PasswordHash password = false) :
    AuthenticateAndCreateSession L cfg e db email password
      = (.error (.New "invalid credentials"), db) := by
  simp [AuthenticateAndCreateSession, ha, hpw]

/-- C2, the code at the failing input: on the sample database a login with an
email that matches no administrator returns `gorm.ErrRecordNotFound`, which
`LoginHandler` answers with 401 and the message "record not found", while a login
with an existing email and a wrong password returns the error "invalid
credentials", answered with 401 and that message; the two errors differ. -/
theorem login_unknown_email_differs :
    (∀ a ∈ sampleDB.admins, a.Email ≠ "nobody@example.com")
    ∧ AuthenticateAndCreateSession sampleLib sampleCfg sampleEnv sampleDB
          "nobody@example.com" "wrong" = (.error .ErrRecordNotFound, sampleDB)
    ∧ LoginHandler sampleLib sampleCfg sampleEnv (.ok ⟨"nobody@example.com", "wrong"⟩)
          (some sampleDB) = (⟨401, .error "record not found"⟩, some sampleDB)
    ∧ GetAdminByEmail sampleDB "a@example.com" = .ok sampleAdmin
    ∧ AuthenticateAndCreateSession sampleLib sampleCfg sampleEnv sampleDB
          "a@example.com" "wrong" = (.error (.New "invalid credentials"), sampleDB)
    ∧ LoginHandler sampleLib sampleCfg sampleEnv (.ok ⟨"a@example.com", "wrong"⟩)
          (some sampleDB) = (⟨401, .error "invalid credentials"⟩, some sampleDB)
    ∧ Err.ErrRecordNotFound ≠ Err.New "invalid credentials" :=
  ⟨by decide, by rfl, by rfl, by rfl, by rfl, by rfl, by decide⟩

/-! ## Refresh: sessions without an expiry -/

theorem dbFirst_error {α : Type} (key : α → String) (cond : α → Bool) (rows : List α)
    (err : Err) (h : dbFirst key cond rows = .error err) : err = .ErrRecordNotFound := by
  unfold dbFirst at h
  split at h
  · simp only [Except.error.injEq] at h
    exact h.symm
  · simp at h

theorem CreateSession_error (e : Env) (db db1 : DB) (sess : AdminSession) (err : Err)
    (h : CreateSession e db sess = (.error err, db1)) :
    (err = .RandRead ∨ err = .UniqueViolation) ∧ db1 = db := by
  unfold CreateSession AdminSession.BeforeCreate at h
  split at h
  · rename_i err0 hb
    simp only [Prod.mk.injEq, Except.error.injEq] at h
    obtain ⟨h1, h2⟩ := h
    subst h1 h2
    split at hb
    · split at hb
      · rename_i err1 hu
        simp only [Except.error.injEq] at hb
        subst hb
        unfold uuid.New at hu
        split at hu
        · simp only [Except.error.injEq] at hu
          exact ⟨Or.inl hu.symm, rfl⟩
        · simp at hu
      · simp at hb
    · simp at hb
  · dsimp only at h
    split at h
    · simp only [Prod.mk.injEq, Except.error.injEq] at h
      exact ⟨Or.inr h.1.symm, h.2.symm⟩
    · simp at h

/-- C11: when the session found for the presented secret is not revoked and has
no expiry, `RefreshTokens` does not fail with "refresh token expired", whatever
the clock reads; and it succeeds at every clock reading once the owner exists, the
signing secret is set, the random source delivers and the drawn session id is not
yet a key of the table. -/
theorem null_expiry_never_expires (L : Lib) (cfg : Config) (e : Env) (db : DB) (r : String)
    (sess : AdminSession)
    (hs : dbFirst AdminSession.ID (fun s => s.RefreshTokenHash == HashOpaqueToken L r)
        db.admin_sessions = .ok sess)
    (hrev : sess.Revoked = false) (hnull : sess.ExpiresAt = none) :
    (RefreshTokens L cfg e db r).1 ≠ .error (.New "refresh token expired")
    ∧ ((∃ owner, GetAdminByID db sess.AdminID = .ok owner) → cfg.accessSecret ≠ "" →
        (∃ rb, e.randRefresh = some rb) →
        (∃ id, uuid.New e.nowUUID e.randUUID = .ok id ∧ ∀ s ∈ db.admin_sessions, s.ID ≠ id) →
        ∃ out db1, RefreshTokens L cfg e db r = (.ok out, db1)) := by
  constructor
  · unfold RefreshTokens
    simp only [hs, hrev, hnull, Bool.false_eq_true, if_false, RevokeSession]
    split
    · rename_i err hadm
      unfold GetAdminByID at hadm
      split at hadm
      · rename_i err0 hf
        simp only [Except.error.injEq] at hadm
        subst hadm
        rw [dbFirst_error _ _ _ _ hf]
        simp
      · simp at hadm
    · split
      · rename_i err hgen
        unfold GenerateAccessTokenWithLevel at hgen
        simp only [SignedStringHS256] at hgen
        split at hgen
        · simp only [Except.error.injEq] at hgen
          subst hgen
          simp
        · simp at hgen
      · split
        · rename_i err hopq
          unfold GenerateOpaqueRefreshToken at hopq
          split at hopq
          · simp only [Except.error.injEq] at hopq
            subst hopq
            simp
          · simp at hopq
        · split
          · rename_i err db2 hc
            rcases (CreateSession_error _ _ _ _ _ hc).1 with h | h <;> subst h <;> simp
          · simp
  · rintro ⟨owner, ho⟩ hsec ⟨rb, hr⟩ ⟨id, hu, hfresh⟩
    exact RefreshTokens_succeeds L cfg e db r sess owner rb id hs hrev
      (by intro t ht; rw [hnull] at ht; cases ht) ho hsec hr hu hfresh

/-- C11, a concrete instance: the sample session without expiry, three centuries
on. -/
theorem null_expiry_never_expires_witness :
    dbFirst AdminSession.ID
        (fun s => s.RefreshTokenHash == HashOpaqueToken sampleLib "secret-4")
        sampleNoExpiryDB.admin_sessions = .ok sampleNoExpirySession
    ∧ sampleNoExpirySession.Revoked = false ∧ sampleNoExpirySession.ExpiresAt = none
    ∧ (RefreshTokens sampleLib sampleCfg sampleLateEnv sampleNoExpiryDB "secret-4").1
        ≠ .error (.New "refresh token expired")
    ∧ (RefreshTokens sampleLib sampleCfg sampleLateEnv sampleNoExpiryDB "secret-4").1
        = .ok (Tokens.ofResult
            (RefreshTokens sampleLib sampleCfg sampleLateEnv sampleNoExpiryDB "secret-4")) :=
  ⟨by rfl, by rfl, by rfl,
    (null_expiry_never_expires sampleLib sampleCfg sampleLateEnv sampleNoExpiryDB "secret-4"
      sampleNoExpirySession (by rfl) (by rfl) (by rfl)).1, by rfl⟩

/-! ## The access token codec -/

/-- C13: for every principal id, level, lifetime and clock reading,
`GenerateAccessTokenWithLevel` returns the error "jwt secret is empty" and no token
when the signing secret is empty, and returns a token together with the expiry
`now + ttl` when the secret is not empty. -/
theorem generate_access_token_secret (L : Lib) (cfg : Config) (now nowIat : Time)
    (adminID level : String) (ttl : Duration) :
    (cfg.accessSecret = "" →
        GenerateAccessTokenWithLevel L cfg now nowIat adminID level ttl
          = .error (.New "jwt secret is empty"))
    ∧ (cfg.accessSecret ≠ "" →
        ∃ tok, GenerateAccessTokenWithLevel L cfg now nowIat adminID level ttl
          = .ok (tok, now + ttl)) := by
  constructor
  · intro h
    simp [GenerateAccessTokenWithLevel, h]
  · intro h
    exact GenerateAccessTokenWithLevel_succeeds L cfg now nowIat adminID level ttl h

/-- C13, concrete instances: the sample configuration with its secret removed,
and the sample configuration itself. -/
theorem generate_access_token_secret_witness :
    (sampleEmptyCfg.accessSecret = ""
      ∧ GenerateAccessTokenWithLevel sampleLib sampleEmptyCfg 1700000000000000000
          1700000000000000000 sampleAdmin.ID "SUPERADMIN" defaultAccessTTL
          = .error (.New "jwt secret is empty"))
    ∧ (sampleCfg.accessSecret ≠ ""
      ∧ ∃ tok, GenerateAccessTokenWithLevel sampleLib sampleCfg 1700000000000000000
          1700000000000000000 sampleAdmin.ID "SUPERADMIN" defaultAccessTTL
          = .ok (tok, 1700000000000000000 + defaultAccessTTL)) :=
  ⟨⟨by rfl, (generate_access_token_secret sampleLib sampleEmptyCfg 1700000000000000000
      1700000000000000000 sampleAdmin.ID "SUPERADMIN" defaultAccessTTL).1 (by rfl)⟩,
    ⟨by decide, (generate_access_token_secret sampleLib sampleCfg 1700000000000000000
      1700000000000000000 sampleAdmin.ID "SUPERADMIN" defaultAccessTTL).2 (by decide)⟩⟩

/-- C14: a token whose header names an algorithm other than `HS256` is refused by
`ParseAccessTokenClaims` with an error, whatever its claims and signature, the
configured secret and the clock reading. -/
theorem parse_rejects_other_algorithm (L : Lib) (cfg : Config) (now : Time) (alg : String)
    (payload : Payload) (sig : List Byte) (halg : alg ≠ "HS256") :
    ∃ err, ParseAccessTokenClaims L cfg now (.compact alg payload sig) = .error err := by
  unfold ParseAccessTokenClaims
  simp only [reduceCtorEq, if_false]
  split
  · exact ⟨_, rfl⟩
  · simp [ParseWithClaimsHS256, halg]

/-- C14, a concrete instance: a token with the claims and the signature of a
token issued for the sample administrator, but with the header algorithm `none`. -/
theorem parse_rejects_other_algorithm_witness :
    ("none" : String) ≠ "HS256"
    ∧ ∃ err, ParseAccessTokenClaims sampleLib sampleCfg 1700000000000000000
        (.compact "none"
          { admin_id := some sampleAdmin.ID, level := some "SUPERADMIN", sub := none,
            typ := none, exp := some 1700000900, iat := some 1700000000 }
          (sampleLib.HMACSHA256 sampleCfg.accessSecret "HS256"
            { admin_id := some sampleAdmin.ID, level := some "SUPERADMIN", sub := none,
              typ := none, exp := some 1700000900, iat := some 1700000000 }))
        = .error err :=
  ⟨by decide, parse_rejects_other_algorithm sampleLib sampleCfg 1700000000000000000 "none" _ _
    (by decide)⟩

theorem expiry_second_le (x now : Int) (h : x < now) :
    NewNumericDate x * 1000000000 ≤ now := by
  unfold NewNumericDate
  have h1 := Int.emod_add_ediv x 1000000000
  have h2 := Int.emod_nonneg x (show (1000000000 : Int) ≠ 0 by decide)
  omega

/-- C15, as amended: with a non-empty secret, `GenerateAccessTokenWithLevel` at
clock reading `t` returns a token and the expiry `t + ttl`; `ParseAccessTokenClaims`
under the same secret accepts that token at every time before the expiry cut to
whole seconds, yielding the same principal id and level, and refuses it as expired
at every time from that second on, hence at every time after `t + ttl`. -/
theorem access_token_round_trip (L : Lib) (cfg : Config) (t nowIat : Time)
    (adminID level : String) (ttl : Duration) (hsec : cfg.accessSecret ≠ "") :
    ∃ tok, GenerateAccessTokenWithLevel L cfg t nowIat adminID level ttl = .ok (tok, t + ttl)
      ∧ (∀ now : Time, now < NewNumericDate (t + ttl) * 1000000000 →
          ∃ claims, ParseAccessTokenClaims L cfg now tok = .ok claims
            ∧ claims.AdminID = adminID ∧ claims.Level = level)
      ∧ (∀ now : Time, NewNumericDate (t + ttl) * 1000000000 ≤ now →
          ParseAccessTokenClaims L cfg now tok = .error .ErrTokenExpired)
      ∧ (∀ now : Time, t + ttl < now →
          ParseAccessTokenClaims L cfg now tok = .error .ErrTokenExpired) := by
  obtain ⟨tok, hg⟩ := GenerateAccessTokenWithLevel_succeeds L cfg t nowIat adminID level ttl hsec
  have hexpired : ∀ now : Time, NewNumericDate (t + ttl) * 1000000000 ≤ now →
      ParseAccessTokenClaims L cfg now tok = .error .ErrTokenExpired := by
    intro now hnow
    obtain ⟨-, -, htok⟩ := GenerateAccessTokenWithLevel_ok L cfg t nowIat adminID level ttl
      tok _ hg
    subst htok
    have hnot : ¬ now < NewNumericDate (t + ttl) * 1000000000 := not_lt.mpr hnow
    simp [ParseAccessTokenClaims, ParseWithClaimsHS256, hsec, hnot]
  refine ⟨tok, hg, ?_, hexpired, ?_⟩
  · intro now hnow
    exact ⟨_, ParseAccessTokenClaims_generated L cfg t nowIat adminID level ttl tok _ hg now hnow,
      rfl, rfl⟩
  · intro now hnow
    exact hexpired now (expiry_second_le _ _ hnow)

/-- C15, a concrete instance of the amended claim: the sample configuration has a
secret. -/
theorem access_token_round_trip_witness :
    sampleCfg.accessSecret ≠ ""
    ∧ ∃ tok, GenerateAccessTokenWithLevel sampleLib sampleCfg 1700000000500000000
          1700000000500000000 sampleAdmin.ID "SUPERADMIN" defaultAccessTTL
          = .ok (tok, 1700000000500000000 + defaultAccessTTL)
      ∧ (∀ now : Time,
          now < NewNumericDate (1700000000500000000 + defaultAccessTTL) * 1000000000 →
          ∃ claims, ParseAccessTokenClaims sampleLib sampleCfg now tok = .ok claims
            ∧ claims.AdminID = sampleAdmin.ID ∧ claims.Level = "SUPERADMIN")
      ∧ (∀ now : Time,
          NewNumericDate (1700000000500000000 + defaultAccessTTL) * 1000000000 ≤ now →
          ParseAccessTokenClaims sampleLib sampleCfg now tok = .error .ErrTokenExpired)
      ∧ (∀ now : Time, 1700000000500000000 + defaultAccessTTL < now →
          ParseAccessTokenClaims sampleLib sampleCfg now tok = .error .ErrTokenExpired) :=
  ⟨by decide, access_token_round_trip sampleLib sampleCfg 1700000000500000000
    1700000000500000000 sampleAdmin.ID "SUPERADMIN" defaultAccessTTL (by decide)⟩

/-- C15, counterexample to the claim as stated: a token issued at
1 700 000 000.5 s for fifteen minutes comes with the expiry 1 700 000 900.5 s, yet
`ParseAccessTokenClaims` under the same secret refuses it as expired at
1 700 000 900.0 s and at 1 700 000 900.2 s, both not after that expiry: the `exp`
claim holds whole seconds and a token is valid only before it. -/
theorem access_token_round_trip_counterexample :
    sampleCfg.accessSecret ≠ ""
    ∧ GenerateAccessTokenWithLevel sampleLib sampleCfg 1700000000500000000
          1700000000500000000 sampleAdmin.ID "SUPERADMIN" defaultAccessTTL
        = .ok (.compact "HS256"
            { admin_id := some sampleAdmin.ID, level := some "SUPERADMIN", sub := none,
              typ := none, exp := some 1700000900, iat := some 1700000000 }
            (sampleLib.HMACSHA256 sampleCfg.accessSecret "HS256"
              { admin_id := some sampleAdmin.ID, level := some "SUPERADMIN", sub := none,
                typ := none, exp := some 1700000900, iat := some 1700000000 }),
          1700000900500000000)
    ∧ (1700000900000000000 : Time) ≤ 1700000900500000000
    ∧ ParseAccessTokenClaims sampleLib sampleCfg 1700000900000000000
        (.compact "HS256"
            { admin_id := some sampleAdmin.ID, level := some "SUPERADMIN", sub := none,
              typ := none, exp := some 1700000900, iat := some 1700000000 }
            (sampleLib.HMACSHA256 sampleCfg.accessSecret "HS256"
              { admin_id := some sampleAdmin.ID, level := some "SUPERADMIN", sub := none,
                typ := none, exp := some 1700000900, iat := some 1700000000 }))
        = .error .ErrTokenExpired
    ∧ (1700000900200000000 : Time) ≤ 1700000900500000000
    ∧ ParseAccessTokenClaims sampleLib sampleCfg 1700000900200000000
        (.compact "HS256"
            { admin_id := some sampleAdmin.ID, level := some "SUPERADMIN", sub := none,
              typ := none, exp := some 1700000900, iat := some 1700000000 }
            (sampleLib.HMACSHA256 sampleCfg.accessSecret "HS256"
              { admin_id := some sampleAdmin.ID, level := some "SUPERADMIN", sub := none,
                typ := none, exp := some 1700000900, iat := some 1700000000 }))
        = .error .ErrTokenExpired :=
  ⟨by decide, by rfl, by decide, by rfl, by decide, by rfl⟩

/-! ## Login: the lifetimes of the issued tokens -/

theorem login_lifetimes_fixed (L : Lib) (cfg : Config) (e : Env) (db db1 : DB)
    (email password : String) (out : Tokens)
    (h : AuthenticateAndCreateSession L cfg e db email password = (.ok out, db1)) :
    out.accessExp = e.nowAccessExp + defaultAccessTTL
    ∧ out.refreshExp = e.nowRefreshExp + defaultRefreshTTL := by
  obtain ⟨admin, newSess, -, -, -, hgen, -, hexp, -, -, -, -⟩ :=
    AuthenticateAndCreateSession_ok L cfg e db db1 email password out h
  exact ⟨(GenerateAccessTokenWithLevel_ok L cfg _ _ _ _ _ _ _ hgen).2.1, hexp⟩

/-- C12, the code at the failing input: under the sample configuration, whose
configured lifetimes are 600 s and 1 209 600 s, the login of the sample
administrator succeeds with an access expiry 900 s after the clock reading and a
refresh expiry 604 800 s after the clock reading; neither equals the clock
reading plus the configured lifetime. -/
theorem login_lifetimes_ignore_config :
    (AuthenticateAndCreateSession sampleLib sampleCfg sampleEnv sampleDB
        "a@example.com" "correct").1
      = .ok (Tokens.ofResult (AuthenticateAndCreateSession sampleLib sampleCfg sampleEnv
          sampleDB "a@example.com" "correct"))
    ∧ AccessExpirySeconds sampleCfg = 600 ∧ RefreshExpirySeconds sampleCfg = 1209600
    ∧ (Tokens.ofResult (AuthenticateAndCreateSession sampleLib sampleCfg sampleEnv
          sampleDB "a@example.com" "correct")).accessExp
        = sampleEnv.nowAccessExp + 900 * 1000000000
    ∧ (Tokens.ofResult (AuthenticateAndCreateSession sampleLib sampleCfg sampleEnv
          sampleDB "a@example.com" "correct")).accessExp
        ≠ sampleEnv.nowAccessExp + AccessExpirySeconds sampleCfg * 1000000000
    ∧ (Tokens.ofResult (AuthenticateAndCreateSession sampleLib sampleCfg sampleEnv
          sampleDB "a@example.com" "correct")).refreshExp
        = sampleEnv.nowRefreshExp + 604800 * 1000000000
    ∧ (Tokens.ofResult (AuthenticateAndCreateSession sampleLib sampleCfg sampleEnv
          sampleDB "a@example.com" "correct")).refreshExp
        ≠ sampleEnv.nowRefreshExp + RefreshExpirySeconds sampleCfg * 1000000000 :=
  ⟨by rfl, by rfl, by rfl, by rfl, by decide, by rfl, by decide⟩

/-! ## The opaque refresh secret -/

theorem hextable_getD_mem (n : Nat) (h : n < 16) : hextable.getD n '0' ∈ hextable := by
  interval_cases n <;> decide

theorem EncodeToString_length (src : List Byte) :
    (EncodeToString src).length = 2 * src.length := by
  unfold EncodeToString
  simp only [String.length]
  induction src with
  | nil => rfl
  | cons v vs ih =>
    simp only [List.flatMap_cons, List.length_append, List.length_cons, List.length_nil, ih]
    omega

theorem EncodeToString_hex (src : List Byte) :
    ∀ c ∈ (EncodeToString src).toList, c ∈ hextable := by
  intro c hc
  unfold EncodeToString at hc
  simp only [String.toList, List.mem_flatMap, List.mem_cons, List.mem_singleton,
    List.not_mem_nil, or_false] at hc
  obtain ⟨v, -, hv⟩ := hc
  rcases hv with h | h
  · subst h
    apply hextable_getD_mem
    rw [Nat.shiftRight_eq_div_pow]
    have := v.isLt
    omega
  · subst h
    apply hextable_getD_mem
    exact Nat.lt_succ_of_le Nat.and_le_right

/-- C16: for every draw `b` of 48 bytes, `GenerateOpaqueRefreshToken` returns as
plaintext the hex encoding of `b`, which has 96 characters, all of them lowercase
hex digits, and as hash `HashOpaqueToken` of that plaintext; `HashOpaqueToken`, a
function of its input, returns 64 lowercase hex digits for every input; and in
every table that holds a session under the returned hash, the lookup by
`HashOpaqueToken` of the returned plaintext finds a session with that hash. -/
theorem opaque_token_round_trip (L : Lib) (b : Fin 48 → Byte) :
    GenerateOpaqueRefreshToken L (some b)
      = .ok (EncodeToString (List.ofFn b), HashOpaqueToken L (EncodeToString (List.ofFn b)))
    ∧ (EncodeToString (List.ofFn b)).length = 96
    ∧ (∀ c ∈ (EncodeToString (List.ofFn b)).toList, c ∈ "0123456789abcdef".toList)
    ∧ (∀ tok : String, (HashOpaqueToken L tok).length = 64
        ∧ ∀ c ∈ (HashOpaqueToken L tok).toList, c ∈ "0123456789abcdef".toList)
    ∧ (∀ (plain hash : String) (rows : List AdminSession) (s : AdminSession),
        GenerateOpaqueRefreshToken L (some b) = .ok (plain, hash) →
        s ∈ rows → s.RefreshTokenHash = hash →
        ∃ m, dbFirst AdminSession.ID (fun s => s.RefreshTokenHash == HashOpaqueToken L plain)
            rows = .ok m ∧ m.RefreshTokenHash = hash) := by
  refine ⟨rfl, ?_, EncodeToString_hex _, ?_, ?_⟩
  · rw [EncodeToString_length, List.length_ofFn]
  · intro tok
    refine ⟨?_, EncodeToString_hex _⟩
    unfold HashOpaqueToken
    rw [EncodeToString_length, List.length_ofFn]
  · intro plain hash rows s hgen hs hh
    obtain ⟨hhash, -⟩ := GenerateOpaqueRefreshToken_ok L _ _ _ hgen
    obtain ⟨m, hm⟩ := dbFirst_exists AdminSession.ID
      (fun s => s.RefreshTokenHash == HashOpaqueToken L plain) rows s hs
      (by simp [hh, hhash])
    refine ⟨m, hm, ?_⟩
    have := (dbFirst_ok_mem _ _ _ _ hm).2
    simp only [beq_iff_eq] at this
    rw [this, hhash]

/-- C16, a concrete instance: the draw of `sampleEnv`, stored by a login on the
sample database and found again by the hash of the returned plaintext. -/
theorem opaque_token_round_trip_witness :
    GenerateOpaqueRefreshToken sampleLib (some fun i => byte (i.val + 1))
      = .ok ((Tokens.ofResult (AuthenticateAndCreateSession sampleLib sampleCfg sampleEnv
            sampleDB "a@example.com" "correct")).refreshPlain,
          HashOpaqueToken sampleLib (Tokens.ofResult (AuthenticateAndCreateSession sampleLib
            sampleCfg sampleEnv sampleDB "a@example.com" "correct")).refreshPlain)
    ∧ ∃ m, dbFirst AdminSession.ID
        (fun s => s.RefreshTokenHash == HashOpaqueToken sampleLib
          (Tokens.ofResult (AuthenticateAndCreateSession sampleLib sampleCfg sampleEnv
            sampleDB "a@example.com" "correct")).refreshPlain)
        (AuthenticateAndCreateSession sampleLib sampleCfg sampleEnv sampleDB
          "a@example.com" "correct").2.admin_sessions = .ok m
      ∧ m.RefreshTokenHash = HashOpaqueToken sampleLib
          (Tokens.ofResult (AuthenticateAndCreateSession sampleLib sampleCfg sampleEnv
            sampleDB "a@example.com" "correct")).refreshPlain :=
  ⟨by rfl,
    (opaque_token_round_trip sampleLib (fun i => byte (i.val + 1))).2.2.2.2
      (Tokens.ofResult (AuthenticateAndCreateSession sampleLib sampleCfg sampleEnv
        sampleDB "a@example.com" "correct")).refreshPlain
      (HashOpaqueToken sampleLib (Tokens.ofResult (AuthenticateAndCreateSession sampleLib
        sampleCfg sampleEnv sampleDB "a@example.com" "correct")).refreshPlain)
      (AuthenticateAndCreateSession sampleLib sampleCfg sampleEnv sampleDB
        "a@example.com" "correct").2.admin_sessions
      { ID := (Tokens.ofResult (AuthenticateAndCreateSession sampleLib sampleCfg sampleEnv
            sampleDB "a@example.com" "correct")).sessionID,
        AdminID := sampleAdmin.ID,
        RefreshTokenHash := HashOpaqueToken sampleLib (Tokens.ofResult
          (AuthenticateAndCreateSession sampleLib sampleCfg sampleEnv sampleDB
            "a@example.com" "correct")).refreshPlain,
        UserAgent := none, IPAddress := none, CreatedAt := sampleEnv.nowCreatedAt,
        ExpiresAt := some (sampleEnv.nowRefreshExp + defaultRefreshTTL), Revoked := false }
      (by rfl) (by decide) (by rfl)⟩

/-! ## Customer operations mirror administrator operations -/

theorem leastByKey_map_of {α β : Type} (keyA : α → String) (keyB : β → String) (f : α → β)
    (hkey : ∀ x, keyB (f x) = keyA x) (l : List α) :
    leastByKey keyB (l.map f) = (leastByKey keyA l).map f := by
  induction l with
  | nil => rfl
  | cons r rs ih =>
    simp only [List.map_cons, leastByKey, ih]
    cases hrs : leastByKey keyA rs with
    | none => simp
    | some b =>
      simp only [Option.map_some', hkey]
      split <;> simp

theorem dbFirst_map_of {α β : Type} (keyA : α → String) (keyB : β → String)
    (condA : α → Bool) (condB : β → Bool) (f : α → β)
    (hkey : ∀ x, keyB (f x) = keyA x) (hcond : ∀ x, condB (f x) = condA x) (rows : List α) :
    dbFirst keyB condB (rows.map f) = (dbFirst keyA condA rows).map f := by
  have hf : (rows.map f).filter condB = (rows.filter condA).map f := by
    rw [List.filter_map]
    congr 1
    apply List.filter_congr
    intro x _
    simp [hcond]
  unfold dbFirst
  rw [hf, leastByKey_map_of keyA keyB f hkey]
  cases leastByKey keyA (rows.filter condA) <;> rfl

theorem GetAdminByEmail_mirror (db : DB) (email : String) :
    GetAdminByEmail db.customersAsAdmins email
      = (GetCustomerByEmail db email).map Customer.asAdmin := by
  unfold GetAdminByEmail GetCustomerByEmail DB.customersAsAdmins
  simp only
  rw [dbFirst_map_of Customer.ID Admin.ID (fun c => c.Email == email) (fun a => a.Email == email)
    Customer.asAdmin (fun _ => rfl) (fun _ => rfl)]
  cases dbFirst Customer.ID (fun c => c.Email == email) db.customers <;> rfl

theorem GetAdminByID_mirror (db : DB) (id : String) :
    GetAdminByID db.customersAsAdmins id = (GetCustomerByID db id).map Customer.asAdmin := by
  unfold GetAdminByID GetCustomerByID DB.customersAsAdmins
  simp only
  rw [dbFirst_map_of Customer.ID Admin.ID (fun c => c.ID == id) (fun a => a.ID == id)
    Customer.asAdmin (fun _ => rfl) (fun _ => rfl)]
  cases dbFirst Customer.ID (fun c => c.ID == id) db.customers <;> rfl

theorem CreateSession_mirror (e : Env) (db : DB) (s : CustomerSession) :
    CreateSession e db.customersAsAdmins s.asAdminSession
      = ((CreateCustomerSession e db s).1.map CustomerSession.asAdminSession,
          (CreateCustomerSession e db s).2.customersAsAdmins) := by
  have hany : ∀ (id : String) (rows : List CustomerSession),
      ((rows.map CustomerSession.asAdminSession).any fun s => s.ID == id)
        = (rows.any fun s => s.ID == id) := by
    intro id rows
    induction rows with
    | nil => rfl
    | cons x xs ih =>
      simp only [List.map_cons, List.any_cons, ih]
      rfl
  have hid : s.asAdminSession.ID = s.ID := rfl
  unfold CreateSession CreateCustomerSession AdminSession.BeforeCreate
    CustomerSession.BeforeCreate
  simp only [hid]
  by_cases h0 : s.ID = ""
  · simp only [h0, if_true]
    cases uuid.New e.nowUUID e.randUUID with
    | error err => rfl
    | ok id =>
      simp only [DB.customersAsAdmins, hany]
      cases db.customer_sessions.any fun s => s.ID == id with
      | true => rfl
      | false =>
        simp only [Bool.false_eq_true, if_false, List.map_append, List.map_cons, List.map_nil]
        rfl
  · simp only [h0, if_false]
    simp only [DB.customersAsAdmins, hany, hid]
    cases db.customer_sessions.any fun x => x.ID == s.ID with
    | true => rfl
    | false =>
      simp only [Bool.false_eq_true, if_false, List.map_append, List.map_cons, List.map_nil]
      rfl

theorem AuthenticateAndCreateSession_mirror (L : Lib) (cfg : Config) (e : Env) (db : DB)
    (email password : String) :
    AuthenticateAndCreateSession L cfg e db.customersAsAdmins email password
      = ((CustomerAuthenticateAndCreateSession L cfg e db email password).1,
          (CustomerAuthenticateAndCreateSession L cfg e db email password).2.customersAsAdmins) := by
  unfold AuthenticateAndCreateSession CustomerAuthenticateAndCreateSession
  rw [GetAdminByEmail_mirror]
  cases GetCustomerByEmail db email with
  | error err => rfl
  | ok c =>
    have hpwd : c.asAdmin.PasswordHash = c.PasswordHash := rfl
    have hact : c.asAdmin.IsActive = c.IsActive := rfl
    have hcid : c.asAdmin.ID = c.ID := rfl
    have hlvl : c.asAdmin.Level = "customer" := rfl
    simp only [Except.map, hpwd, hact, hcid, hlvl]
    cases CheckPassword L c.PasswordHash password with
    | false => rfl
    | true =>
      cases c.IsActive with
      | false => rfl
      | true =>
        simp only [Bool.not_true, Bool.false_eq_true, if_false]
        cases GenerateAccessTokenWithLevel L cfg e.nowAccessExp e.nowAccessIat c.ID "customer"
            defaultAccessTTL with
        | error err => rfl
        | ok tk =>
          obtain ⟨at_, aexp⟩ := tk
          simp only
          cases GenerateOpaqueRefreshToken L e.randRefresh with
          | error err => rfl
          | ok ph =>
            obtain ⟨plain, hash⟩ := ph
            simp only
            have hlit : AdminSession.mk "" c.ID hash none none zeroTime
                (some (e.nowRefreshExp + defaultRefreshTTL)) false
              = CustomerSession.asAdminSession (CustomerSession.mk "" c.ID hash "" "" zeroTime
                (some (e.nowRefreshExp + defaultRefreshTTL)) false) := rfl
            rw [hlit, CreateSession_mirror]
            cases CreateCustomerSession e db (CustomerSession.mk "" c.ID hash "" "" zeroTime
                (some (e.nowRefreshExp + defaultRefreshTTL)) false) with
            | mk res db2 =>
              cases res with
              | error err => rfl
              | ok created => rfl

theorem updateRevoked_mirror (id : String) (rows : List CustomerSession) :
    updateRevokedAdmin (fun s => s.ID == id) (rows.map CustomerSession.asAdminSession)
      = (updateRevokedCustomer (fun s => s.ID == id) rows).map
          CustomerSession.asAdminSession := by
  unfold updateRevokedAdmin updateRevokedCustomer
  rw [List.map_map, List.map_map]
  apply List.map_congr_left
  intro s _
  simp only [Function.comp]
  by_cases h : (s.ID == id) = true
  · rw [if_pos (show (s.asAdminSession.ID == id) = true from h), if_pos h]
    rfl
  · rw [if_neg (show ¬ (s.asAdminSession.ID == id) = true from h), if_neg h]

theorem RefreshTokens_mirror (L : Lib) (cfg : Config) (e : Env) (db : DB) (r : String) :
    RefreshTokens L cfg e db.customersAsAdmins r
      = ((CustomerRefreshTokens L cfg e db r).1,
          (CustomerRefreshTokens L cfg e db r).2.customersAsAdmins) := by
  unfold RefreshTokens CustomerRefreshTokens
  have hfirst : dbFirst AdminSession.ID (fun s => s.RefreshTokenHash == HashOpaqueToken L r)
      db.customersAsAdmins.admin_sessions
      = (dbFirst CustomerSession.ID (fun s => s.RefreshTokenHash == HashOpaqueToken L r)
          db.customer_sessions).map CustomerSession.asAdminSession :=
    dbFirst_map_of CustomerSession.ID AdminSession.ID _ _ CustomerSession.asAdminSession
      (fun _ => rfl) (fun _ => rfl) db.customer_sessions
  simp only [hfirst]
  cases dbFirst CustomerSession.ID (fun s => s.RefreshTokenHash == HashOpaqueToken L r)
      db.customer_sessions with
  | error err => rfl
  | ok sess =>
    have hrev : sess.asAdminSession.Revoked = sess.Revoked := rfl
    have hexp : sess.asAdminSession.ExpiresAt = sess.ExpiresAt := rfl
    have hown : sess.asAdminSession.AdminID = sess.CustomerID := rfl
    have hsid : sess.asAdminSession.ID = sess.ID := rfl
    simp only [Except.map, hrev, hexp, hown, hsid]
    cases sess.Revoked with
    | true => rfl
    | false =>
      simp only [Bool.false_eq_true, if_false]
      cases (match sess.ExpiresAt with
          | some t => decide (t < e.nowExpiryCheck)
          | none => false) with
      | true => rfl
      | false =>
        simp only [Bool.false_eq_true, if_false]
        rw [GetAdminByID_mirror]
        cases GetCustomerByID db sess.CustomerID with
        | error err => rfl
        | ok c =>
          have hcid : c.asAdmin.ID = c.ID := rfl
          have hlvl : c.asAdmin.Level = "customer" := rfl
          have hdb1 : (RevokeSession db.customersAsAdmins sess.ID)
              = (none, DB.customersAsAdmins { db with
                  customer_sessions :=
                    updateRevokedCustomer (fun s => s.ID == sess.ID) db.customer_sessions }) := by
            simp only [RevokeSession, DB.customersAsAdmins, updateRevoked_mirror]
          simp only [Except.map, hcid, hlvl, hdb1]
          cases GenerateAccessTokenWithLevel L cfg e.nowAccessExp e.nowAccessIat c.ID "customer"
              defaultAccessTTL with
          | error err => rfl
          | ok tk =>
            obtain ⟨at_, aexp⟩ := tk
            simp only
            cases GenerateOpaqueRefreshToken L e.randRefresh with
            | error err => rfl
            | ok ph =>
              obtain ⟨plain, hash⟩ := ph
              simp only
              have hlit : AdminSession.mk "" c.ID hash none none zeroTime
                  (some (e.nowRefreshExp + defaultRefreshTTL)) false
                = CustomerSession.asAdminSession (CustomerSession.mk "" c.ID hash "" ""
                  zeroTime (some (e.nowRefreshExp + defaultRefreshTTL)) false) := rfl
              rw [hlit, CreateSession_mirror]
              cases CreateCustomerSession e
                  { db with
                    customer_sessions :=
                      updateRevokedCustomer (fun s => s.ID == sess.ID) db.customer_sessions }
                  (CustomerSession.mk "" c.ID hash "" "" zeroTime
                    (some (e.nowRefreshExp + defaultRefreshTTL)) false) with
              | mk res db2 =>
                cases res with
                | error err => rfl
                | ok created => rfl

/-- C17: for every database, input, clock reading and random draw,
`CustomerAuthenticateAndCreateSession` and `CustomerRefreshTokens` return exactly
what `AuthenticateAndCreateSession` and `RefreshTokens` return on the administrator
store that corresponds to the customer tables (each customer read as an
administrator of level `"customer"`, each customer session as an administrator
session): the same tokens or the same error, decided by the same checks in the
same order; and they leave behind the customer tables that correspond to the
administrator store the administrator operations leave behind. -/
theorem customer_operations_mirror_admin (L : Lib) (cfg : Config) (e : Env) (db : DB) :
    (∀ email password : String,
        (CustomerAuthenticateAndCreateSession L cfg e db email password).1
          = (AuthenticateAndCreateSession L cfg e db.customersAsAdmins email password).1
        ∧ (CustomerAuthenticateAndCreateSession L cfg e db email password).2.customersAsAdmins
          = (AuthenticateAndCreateSession L cfg e db.customersAsAdmins email password).2)
    ∧ (∀ r : String,
        (CustomerRefreshTokens L cfg e db r).1
          = (RefreshTokens L cfg e db.customersAsAdmins r).1
        ∧ (CustomerRefreshTokens L cfg e db r).2.customersAsAdmins
          = (RefreshTokens L cfg e db.customersAsAdmins r).2) := by
  constructor
  · intro email password
    rw [AuthenticateAndCreateSession_mirror]
    exact ⟨rfl, rfl⟩
  · intro r
    rw [RefreshTokens_mirror]
    exact ⟨rfl, rfl⟩

/-! ## Two refresh calls on one database -/

theorem refresh_statements_compose (L : Lib) (cfg : Config) (eA eB : Env) (db : DB)
    (r : String) (b : RefreshCall) :
    runInterleaved L cfg eA eB [true, true, true, true] (.start r, b, db)
      = (.done (RefreshTokens L cfg eA db r).1, b, (RefreshTokens L cfg eA db r).2) := by
  simp only [runInterleaved]
  unfold RefreshTokens
  simp only [RefreshCall.step]
  cases dbFirst AdminSession.ID (fun s => s.RefreshTokenHash == HashOpaqueToken L r)
      db.admin_sessions with
  | error err => rfl
  | ok sess =>
    simp only
    cases sess.Revoked with
    | true => rfl
    | false =>
      simp only [Bool.false_eq_true, if_false]
      cases (match sess.ExpiresAt with
          | some t => decide (t < eA.nowExpiryCheck)
          | none => false) with
      | true => rfl
      | false =>
        simp only [Bool.false_eq_true, if_false, RefreshCall.step]
        cases GetAdminByID db sess.AdminID with
        | error err => rfl
        | ok admin =>
          simp only [RefreshCall.step, RevokeSession]
          cases GenerateAccessTokenWithLevel L cfg eA.nowAccessExp eA.nowAccessIat admin.ID
              admin.Level defaultAccessTTL with
          | error err => rfl
          | ok tk =>
            obtain ⟨at_, aexp⟩ := tk
            simp only
            cases GenerateOpaqueRefreshToken L eA.randRefresh with
            | error err => rfl
            | ok ph =>
              obtain ⟨plain, hash⟩ := ph
              simp only
              cases CreateSession eA
                  { db with
                    admin_sessions :=
                      updateRevokedAdmin (fun s => s.ID == sess.ID) db.admin_sessions }
                  (AdminSession.mk "" admin.ID hash none none zeroTime
                    (some (eA.nowRefreshExp + defaultRefreshTTL)) false) with
              | mk res db2 =>
                cases res with
                | error err => rfl
                | ok created => rfl

/-- C18, the code at the failing input: two `RefreshTokens` calls present
`"secret-1"` to the sample database and execute their database statements in
turn (lookup, lookup, owner, owner, revoke, revoke, insert, insert). Both calls
return without error, and the session table ends with two new rows, neither of
them revoked, where it held three rows before. -/
theorem concurrent_refresh_both_succeed :
    (runInterleaved sampleLib sampleCfg sampleEnv sampleEnv2
        [true, false, true, false, true, false, true, false]
        (.start "secret-1", .start "secret-1", sampleDB)).1.succeeded = true
    ∧ (runInterleaved sampleLib sampleCfg sampleEnv sampleEnv2
        [true, false, true, false, true, false, true, false]
        (.start "secret-1", .start "secret-1", sampleDB)).2.1.succeeded = true
    ∧ sampleDB.admin_sessions.length = 3
    ∧ (runInterleaved sampleLib sampleCfg sampleEnv sampleEnv2
        [true, false, true, false, true, false, true, false]
        (.start "secret-1", .start "secret-1", sampleDB)).2.2.admin_sessions.length = 5
    ∧ ((runInterleaved sampleLib sampleCfg sampleEnv sampleEnv2
        [true, false, true, false, true, false, true, false]
        (.start "secret-1", .start "secret-1", sampleDB)).2.2.admin_sessions.drop 3).map
          (fun s => (s.AdminID, s.Revoked))
        = [(sampleAdmin.ID, false), (sampleAdmin.ID, false)] :=
  ⟨by rfl, by rfl, by rfl, by rfl, by rfl⟩

/-! ## Handlers: the status of a failed service call -/

theorem handler_service_error_is_401 (L : Lib) (cfg : Config) (e : Env) (db db1 : DB)
    (err : Err) :
    (∀ req : loginReq,
        AuthenticateAndCreateSession L cfg e db req.Email req.Password = (.error err, db1) →
        LoginHandler L cfg e (.ok req) (some db) = (⟨401, .error err.Error⟩, some db1))
    ∧ (∀ req : refreshReq, RefreshTokens L cfg e db req.RefreshToken = (.error err, db1) →
        RefreshHandler L cfg e (.ok req) (some db) = (⟨401, .error err.Error⟩, some db1))
    ∧ (∀ req : memberLoginReq,
        CustomerAuthenticateAndCreateSession L cfg e db req.Email req.Password
          = (.error err, db1) →
        MemberLoginHandler L cfg e (.ok req) (some db) = (⟨401, .error err.Error⟩, some db1))
    ∧ (∀ req : refreshReq, CustomerRefreshTokens L cfg e db req.RefreshToken = (.error err, db1) →
        MemberRefreshHandler L cfg e (.ok req) (some db)
          = (⟨401, .error err.Error⟩, some db1)) := by
  refine ⟨?_, ?_, ?_, ?_⟩
  · intro req h
    simp [LoginHandler, h]
  · intro req h
    simp [RefreshHandler, h]
  · intro req h
    simp [MemberLoginHandler, h]
  · intro req h
    simp [MemberRefreshHandler, h]

/-- C19, the code at the failing input: on the sample database after one login
under `sampleEnv`, a second login with the right credentials under the same clock
reading and random draw fails only because the insert of the session row is
refused by the primary key; `LoginHandler` answers 401, not 503. The same holds
for `RefreshHandler`, `MemberLoginHandler` and `MemberRefreshHandler`. -/
theorem storage_error_answered_401 :
    (AuthenticateAndCreateSession sampleLib sampleCfg sampleEnv sampleDBAfterLogin
        "a@example.com" "correct").1 = .error .UniqueViolation
    ∧ (LoginHandler sampleLib sampleCfg sampleEnv (.ok ⟨"a@example.com", "correct"⟩)
        (some sampleDBAfterLogin)).1 = ⟨401, .error Err.UniqueViolation.Error⟩
    ∧ (RefreshTokens sampleLib sampleCfg sampleEnv sampleDBAfterLogin "secret-1").1
        = .error .UniqueViolation
    ∧ (RefreshHandler sampleLib sampleCfg sampleEnv (.ok ⟨"secret-1"⟩)
        (some sampleDBAfterLogin)).1 = ⟨401, .error Err.UniqueViolation.Error⟩
    ∧ (CustomerAuthenticateAndCreateSession sampleLib sampleCfg sampleEnv
        sampleDBAfterMemberLogin "c@example.com" "correct").1 = .error .UniqueViolation
    ∧ (MemberLoginHandler sampleLib sampleCfg sampleEnv (.ok ⟨"c@example.com", "correct"⟩)
        (some sampleDBAfterMemberLogin)).1 = ⟨401, .error Err.UniqueViolation.Error⟩
    ∧ (CustomerRefreshTokens sampleLib sampleCfg sampleEnv sampleDBAfterMemberLogin
        "secret-1").1 = .error .UniqueViolation
    ∧ (MemberRefreshHandler sampleLib sampleCfg sampleEnv (.ok ⟨"secret-1"⟩)
        (some sampleDBAfterMemberLogin)).1 = ⟨401, .error Err.UniqueViolation.Error⟩ :=
  ⟨by rfl, by rfl, by rfl, by rfl, by rfl, by rfl, by rfl, by rfl⟩

/-! ## Middleware order -/

theorem collectMiddleware_eq_flatMap (registered : List Plugin) :
    collectMiddleware registered = registered.flatMap fun p => p.RegisterMiddleware := by
  have h : ∀ (l : List Plugin) (init : List MiddlewareDescriptor),
      l.foldl (fun all p => all ++ p.RegisterMiddleware) init
        = init ++ l.flatMap fun p => p.RegisterMiddleware := by
    intro l
    induction l with
    | nil => intro init; simp
    | cons p ps ih => intro init; simp [List.foldl_cons, ih, List.flatMap_cons]
  simpa [collectMiddleware] using h registered []

theorem attach_fold (routers : String → Option GroupRef) (g : GroupRef)
    (l : List MiddlewareDescriptor) (heap : GroupRef → List HandlerFunc) :
    l.foldl (fun heap md =>
        match routers md.Target, md.Handler with
        | some grp, some h => Use heap grp h
        | _, _ => heap) heap g
      = heap g ++ (l.filter fun md => routers md.Target == some g && md.Handler.isSome).filterMap
          fun md => md.Handler := by
  induction l generalizing heap with
  | nil => simp
  | cons md mds ih =>
    rw [List.foldl_cons, ih]
    cases hr : routers md.Target with
    | none => simp [List.filter_cons, hr]
    | some grp =>
      cases hh : md.Handler with
      | none => simp [List.filter_cons, hr, hh]
      | some h =>
        by_cases hg : g = grp
        · subst hg
          simp [List.filter_cons, hr, hh, Use]
        · have hg' : ¬ grp = g := fun h => hg h.symm
          simp [List.filter_cons, hr, hh, Use, hg, hg']

theorem sliceStable_perm (l : List MiddlewareDescriptor) :
    (SliceStable (fun a b => decide (a.Priority < b.Priority)) l).Perm l :=
  List.perm_insertionSort _ l

theorem sliceStable_sorted (l : List MiddlewareDescriptor) :
    (SliceStable (fun a b => decide (a.Priority < b.Priority)) l).Pairwise
      fun a b => a.Priority ≤ b.Priority := by
  have hs := @List.sorted_insertionSort MiddlewareDescriptor
    (fun a b => decide (b.Priority < a.Priority) = false) _
    ⟨fun a b => by
      simp only [decide_eq_false_iff_not, not_lt]
      exact le_total a.Priority b.Priority⟩
    ⟨fun a b c hab hbc => by
      simp only [decide_eq_false_iff_not, not_lt] at hab hbc ⊢
      exact le_trans hab hbc⟩ l
  unfold SliceStable
  refine List.Pairwise.imp ?_ hs
  intro a b hab
  simpa using hab

theorem sliceStable_keeps_equal (l : List MiddlewareDescriptor) (p : Int) :
    (SliceStable (fun a b => decide (a.Priority < b.Priority)) l).filter
        (fun md => md.Priority == p)
      = l.filter fun md => md.Priority == p := by
  have hsub : (l.filter fun md => md.Priority == p).Sublist
      (SliceStable (fun a b => decide (a.Priority < b.Priority)) l) := by
    unfold SliceStable
    apply List.sublist_insertionSort
    · rw [List.pairwise_iff_forall_sublist]
      intro a b hab
      have ha : a ∈ l.filter fun md => md.Priority == p := hab.subset (by simp)
      have hb : b ∈ l.filter fun md => md.Priority == p := hab.subset (by simp)
      simp only [List.mem_filter, beq_iff_eq] at ha hb
      simp [ha.2, hb.2]
    · exact List.filter_sublist _
  have hsub2 := hsub.filter fun md => md.Priority == p
  rw [List.filter_filter] at hsub2
  simp only [Bool.and_self] at hsub2
  have hlen := ((sliceStable_perm l).filter fun md => md.Priority == p).length_eq
  exact (hsub2.eq_of_length hlen.symm).symm

theorem map_handler_of_isSome (l : List MiddlewareDescriptor)
    (h : ∀ md ∈ l, md.Handler.isSome = true) :
    l.map (fun md => md.Handler) = (l.filterMap fun md => md.Handler).map some := by
  induction l with
  | nil => rfl
  | cons md mds ih =>
    obtain ⟨x, hx⟩ := Option.isSome_iff_exists.mp (h md (by simp))
    have ih2 := ih fun m hm => h m (List.mem_cons_of_mem _ hm)
    simp only [List.map_cons, List.filterMap_cons, hx, ih2]

/-- C20: for every list of registered plugins, every router map and every group,
`AttachMiddleware` appends to the group's handlers the handlers of a list of
descriptors that (1) all target that group and carry a handler, (2) is a
rearrangement of the descriptors, taken over all plugins in registration order,
that target the group and carry a handler, (3) is in non-decreasing priority, and
(4) keeps, for every priority, the descriptors of that priority in their
registration order. -/
theorem attach_middleware_stable_order (registered : List Plugin)
    (routers : String → Option GroupRef) (heap : GroupRef → List HandlerFunc) (g : GroupRef) :
    ∃ attached : List MiddlewareDescriptor,
      AttachMiddleware registered routers heap g
        = heap g ++ attached.filterMap (fun md => md.Handler)
      ∧ attached.map (fun md => md.Handler)
        = (attached.filterMap fun md => md.Handler).map some
      ∧ (∀ md ∈ attached, routers md.Target = some g)
      ∧ attached.Perm
          ((registered.flatMap fun p => p.RegisterMiddleware).filter
            fun md => routers md.Target == some g && md.Handler.isSome)
      ∧ attached.Pairwise (fun a b => a.Priority ≤ b.Priority)
      ∧ ∀ p : Int,
          attached.filter (fun md => md.Priority == p)
            = ((registered.flatMap fun p => p.RegisterMiddleware).filter
                fun md => routers md.Target == some g && md.Handler.isSome).filter
                  fun md => md.Priority == p := by
  refine ⟨(SliceStable (fun a b => decide (a.Priority < b.Priority))
      (collectMiddleware registered)).filter
        fun md => routers md.Target == some g && md.Handler.isSome, ?_, ?_, ?_, ?_, ?_, ?_⟩
  · unfold AttachMiddleware
    exact attach_fold routers g _ heap
  · apply map_handler_of_isSome
    intro md hmd
    simp only [List.mem_filter, Bool.and_eq_true] at hmd
    exact hmd.2.2
  · intro md hmd
    simp only [List.mem_filter, Bool.and_eq_true, beq_iff_eq] at hmd
    exact hmd.2.1
  · rw [← collectMiddleware_eq_flatMap]
    exact (sliceStable_perm _).filter _
  · exact (sliceStable_sorted _).filter _
  · intro p
    rw [← collectMiddleware_eq_flatMap, List.filter_filter, List.filter_filter]
    have h := sliceStable_keeps_equal (collectMiddleware registered) p
    have h2 := congrArg (List.filter fun md => routers md.Target == some g && md.Handler.isSome) h
    rw [List.filter_filter, List.filter_filter] at h2
    simpa [Bool.and_comm] using h2

/-- C20, a concrete instance: two plugins register descriptors of priorities 50,
10, 50 for the admin group and 0 for the store group; the admin group receives the
handlers in the order 10, 50 (first plugin), 50 (second plugin). -/
theorem attach_middleware_stable_order_witness :
    AttachMiddleware samplePlugins sampleRouters (fun _ => []) 1 = [2, 1, 3]
    ∧ AttachMiddleware samplePlugins sampleRouters (fun _ => []) 2 = [4]
    ∧ ∃ attached : List MiddlewareDescriptor,
      AttachMiddleware samplePlugins sampleRouters (fun _ => []) 1
        = [] ++ attached.filterMap (fun md => md.Handler)
      ∧ attached.map (fun md => md.Handler)
        = (attached.filterMap fun md => md.Handler).map some
      ∧ (∀ md ∈ attached, sampleRouters md.Target = some 1)
      ∧ attached.Perm
          ((samplePlugins.flatMap fun p => p.RegisterMiddleware).filter
            fun md => sampleRouters md.Target == some 1 && md.Handler.isSome)
      ∧ attached.Pairwise (fun a b => a.Priority ≤ b.Priority)
      ∧ ∀ p : Int,
          attached.filter (fun md => md.Priority == p)
            = ((samplePlugins.flatMap fun p => p.RegisterMiddleware).filter
                fun md => sampleRouters md.Target == some 1 && md.Handler.isSome).filter
                  fun md => md.Priority == p :=
  ⟨by decide, by decide,
    attach_middleware_stable_order samplePlugins sampleRouters (fun _ => []) 1⟩

/-! ## Refresh and the active flag -/

theorem CustomerRefreshTokens_succeeds (L : Lib) (cfg : Config) (e : Env) (db : DB) (r : String)
    (sess : CustomerSession) (owner : Customer) (rb : Fin 48 → Byte) (id : String)
    (hs : dbFirst CustomerSession.ID (fun s => s.RefreshTokenHash == HashOpaqueToken L r)
        db.customer_sessions = .ok sess)
    (hrev : sess.Revoked = false)
    (hexp : ∀ t, sess.ExpiresAt = some t → ¬ t < e.nowExpiryCheck)
    (ho : GetCustomerByID db sess.CustomerID = .ok owner)
    (hsec : cfg.accessSecret ≠ "") (hr : e.randRefresh = some rb)
    (hu : uuid.New e.nowUUID e.randUUID = .ok id)
    (hfresh : ∀ s ∈ db.customer_sessions, s.ID ≠ id) :
    ∃ out db1, CustomerRefreshTokens L cfg e db r = (.ok out, db1) := by
  have hs1 : dbFirst AdminSession.ID (fun s => s.RefreshTokenHash == HashOpaqueToken L r)
      db.customersAsAdmins.admin_sessions = .ok sess.asAdminSession := by
    have := dbFirst_map_of CustomerSession.ID AdminSession.ID
      (fun s => s.RefreshTokenHash == HashOpaqueToken L r)
      (fun s => s.RefreshTokenHash == HashOpaqueToken L r) CustomerSession.asAdminSession
      (fun _ => rfl) (fun _ => rfl) db.customer_sessions
    rw [hs] at this
    exact this
  have ho1 : GetAdminByID db.customersAsAdmins sess.asAdminSession.AdminID
      = .ok owner.asAdmin := by
    rw [GetAdminByID_mirror]
    have : sess.asAdminSession.AdminID = sess.CustomerID := rfl
    rw [this, ho]
    rfl
  have hfresh1 : ∀ s ∈ db.customersAsAdmins.admin_sessions, s.ID ≠ id := by
    intro s hmem
    simp only [DB.customersAsAdmins, List.mem_map] at hmem
    obtain ⟨c, hc, rfl⟩ := hmem
    exact hfresh c hc
  obtain ⟨out, db1, hres⟩ := RefreshTokens_succeeds L cfg e db.customersAsAdmins r
    sess.asAdminSession owner.asAdmin rb id hs1 hrev hexp ho1 hsec hr hu hfresh1
  rw [RefreshTokens_mirror] at hres
  simp only [Prod.mk.injEq] at hres
  refine ⟨out, (CustomerRefreshTokens L cfg e db r).2, ?_⟩
  rw [← hres.1]

/-! ## Refresh and the active flag: what is issued and stored -/

theorem GetAdminByID_id (db : DB) (id : String) (a : Admin)
    (h : GetAdminByID db id = .ok a) : a.ID = id := by
  unfold GetAdminByID at h
  split at h
  · simp at h
  · rename_i a0 hfirst
    simp only [Except.ok.injEq] at h
    subst h
    simpa using (dbFirst_ok_mem _ _ _ _ hfirst).2

theorem dbFirst_new_session_admin (h : String) (rows : List AdminSession) (id : String)
    (newSess : AdminSession) (hnone : ∀ s ∈ rows, s.RefreshTokenHash ≠ h)
    (hnew : newSess.RefreshTokenHash = h) :
    dbFirst AdminSession.ID (fun s => s.RefreshTokenHash == h)
        (updateRevokedAdmin (fun s => s.ID == id) rows ++ [newSess]) = .ok newSess := by
  have hf : (updateRevokedAdmin (fun s => s.ID == id) rows).filter
      (fun s => s.RefreshTokenHash == h) = [] := by
    simp only [List.filter_eq_nil_iff, updateRevokedAdmin, List.mem_map]
    rintro a ⟨s, hs, rfl⟩
    have hne := hnone s hs
    split <;> simpa using hne
  unfold dbFirst
  simp [List.filter_append, hf, hnew, leastByKey]

theorem RefreshTokens_issues (L : Lib) (cfg : Config) (e : Env) (db db1 : DB) (r : String)
    (out : Tokens) (sess : AdminSession) (owner : Admin)
    (hs : dbFirst AdminSession.ID (fun s => s.RefreshTokenHash == HashOpaqueToken L r)
        db.admin_sessions = .ok sess)
    (ho : GetAdminByID db sess.AdminID = .ok owner)
    (h : RefreshTokens L cfg e db r = (.ok out, db1)) :
    GenerateAccessTokenWithLevel L cfg e.nowAccessExp e.nowAccessIat owner.ID owner.Level
        defaultAccessTTL = .ok (out.accessToken, out.accessExp)
    ∧ (∃ rb, e.randRefresh = some rb ∧ out.refreshPlain = EncodeToString (List.ofFn rb))
    ∧ out.refreshExp = e.nowRefreshExp + defaultRefreshTTL
    ∧ db1 = { db with
        admin_sessions :=
          updateRevokedAdmin (fun s => s.ID == sess.ID) db.admin_sessions
            ++ [AdminSession.mk out.sessionID owner.ID (HashOpaqueToken L out.refreshPlain)
                  none none e.nowCreatedAt (some out.refreshExp) false] } := by
  obtain ⟨sess1, admin, newSess, hs1, -, -, hadmin, hgen, hopq, hrexp, hnew, -, -, hdb⟩ :=
    RefreshTokens_ok L cfg e db db1 r out h
  rw [hs] at hs1
  simp only [Except.ok.injEq] at hs1
  subst hs1
  rw [ho] at hadmin
  simp only [Except.ok.injEq] at hadmin
  subst hadmin
  obtain ⟨-, rb, hrb, hplain⟩ := GenerateOpaqueRefreshToken_ok L _ _ _ hopq
  refine ⟨hgen, ⟨rb, hrb, hplain⟩, hrexp, ?_⟩
  rw [hdb, hnew]

theorem RefreshTokens_chain (L : Lib) (cfg : Config) (e e2 : Env) (db db1 : DB) (r : String)
    (out : Tokens) (sess : AdminSession) (owner : Admin)
    (hs : dbFirst AdminSession.ID (fun s => s.RefreshTokenHash == HashOpaqueToken L r)
        db.admin_sessions = .ok sess)
    (ho : GetAdminByID db sess.AdminID = .ok owner)
    (h : RefreshTokens L cfg e db r = (.ok out, db1))
    (hnone : ∀ s ∈ db.admin_sessions, s.RefreshTokenHash ≠ HashOpaqueToken L out.refreshPlain)
    (hexp2 : ¬ out.refreshExp < e2.nowExpiryCheck)
    (rb2 : Fin 48 → Byte) (hr2 : e2.randRefresh = some rb2) (id2 : String)
    (hu2 : uuid.New e2.nowUUID e2.randUUID = .ok id2)
    (hfresh2 : ∀ s ∈ db1.admin_sessions, s.ID ≠ id2) :
    ∃ out2 db2, RefreshTokens L cfg e2 db1 out.refreshPlain = (.ok out2, db2)
      ∧ GenerateAccessTokenWithLevel L cfg e2.nowAccessExp e2.nowAccessIat owner.ID owner.Level
          defaultAccessTTL = .ok (out2.accessToken, out2.accessExp) := by
  obtain ⟨hgen, -, -, hdb⟩ := RefreshTokens_issues L cfg e db db1 r out sess owner hs ho h
  have hsec := (GenerateAccessTokenWithLevel_ok L cfg _ _ _ _ _ _ _ hgen).1
  have hoid : owner.ID = sess.AdminID := GetAdminByID_id db _ _ ho
  have hs2 : dbFirst AdminSession.ID
      (fun s => s.RefreshTokenHash == HashOpaqueToken L out.refreshPlain) db1.admin_sessions
      = .ok (AdminSession.mk out.sessionID owner.ID (HashOpaqueToken L out.refreshPlain)
          none none e.nowCreatedAt (some out.refreshExp) false) := by
    rw [hdb]
    exact dbFirst_new_session_admin _ _ _ _ hnone rfl
  have ho2 : GetAdminByID db1 (AdminSession.mk out.sessionID owner.ID
      (HashOpaqueToken L out.refreshPlain) none none e.nowCreatedAt (some out.refreshExp)
      false).AdminID = .ok owner := by
    have hadm : db1.admins = db.admins := by rw [hdb]
    have hstep : GetAdminByID db1 owner.ID = GetAdminByID db owner.ID := by
      unfold GetAdminByID
      rw [hadm]
    show GetAdminByID db1 owner.ID = .ok owner
    rw [hstep, hoid]
    exact ho
  obtain ⟨out2, db2, h2⟩ := RefreshTokens_succeeds L cfg e2 db1 out.refreshPlain _ owner rb2 id2
    hs2 rfl (by intro t ht; cases ht; exact hexp2) ho2 hsec hr2 hu2 hfresh2
  exact ⟨out2, db2, h2,
    (RefreshTokens_issues L cfg e2 db1 db2 out.refreshPlain out2 _ owner hs2 ho2 h2).1⟩

theorem GetAdminByID_setActive (fa : Admin → Bool) (fc : Customer → Bool) (db : DB)
    (id : String) :
    GetAdminByID (db.setActive fa fc) id
      = (GetAdminByID db id).map fun a => { a with IsActive := fa a } := by
  unfold GetAdminByID DB.setActive
  simp only
  rw [dbFirst_map Admin.ID (fun a => a.ID == id) (fun a => { a with IsActive := fa a })
    (fun _ => rfl) (fun _ => rfl)]
  cases dbFirst Admin.ID (fun a => a.ID == id) db.admins <;> rfl

theorem CreateSession_setActive (fa : Admin → Bool) (fc : Customer → Bool) (e : Env) (db : DB)
    (s : AdminSession) :
    CreateSession e (db.setActive fa fc) s
      = ((CreateSession e db s).1, (CreateSession e db s).2.setActive fa fc) := by
  unfold CreateSession
  cases AdminSession.BeforeCreate e s with
  | error err => rfl
  | ok s1 =>
    have hses : (db.setActive fa fc).admin_sessions = db.admin_sessions := rfl
    simp only [hses]
    split <;> rfl

theorem RefreshTokens_setActive (fa : Admin → Bool) (fc : Customer → Bool) (L : Lib)
    (cfg : Config) (e : Env) (db : DB) (r : String) :
    RefreshTokens L cfg e (db.setActive fa fc) r
      = ((RefreshTokens L cfg e db r).1, (RefreshTokens L cfg e db r).2.setActive fa fc) := by
  unfold RefreshTokens
  have hses : (db.setActive fa fc).admin_sessions = db.admin_sessions := rfl
  simp only [hses]
  cases dbFirst AdminSession.ID (fun s => s.RefreshTokenHash == HashOpaqueToken L r)
      db.admin_sessions with
  | error err => rfl
  | ok sess =>
    simp only
    cases sess.Revoked with
    | true => rfl
    | false =>
      simp only [Bool.false_eq_true, if_false]
      cases (match sess.ExpiresAt with
          | some t => decide (t < e.nowExpiryCheck)
          | none => false) with
      | true => rfl
      | false =>
        simp only [Bool.false_eq_true, if_false]
        rw [GetAdminByID_setActive]
        cases GetAdminByID db sess.AdminID with
        | error err => rfl
        | ok a =>
          have hdb1 : RevokeSession (db.setActive fa fc) sess.ID
              = (none, DB.setActive fa fc { db with
                  admin_sessions :=
                    updateRevokedAdmin (fun s => s.ID == sess.ID) db.admin_sessions }) := rfl
          simp only [Except.map, hdb1, RevokeSession]
          cases GenerateAccessTokenWithLevel L cfg e.nowAccessExp e.nowAccessIat a.ID a.Level
              defaultAccessTTL with
          | error err => rfl
          | ok tk =>
            obtain ⟨at_, aexp⟩ := tk
            simp only
            cases GenerateOpaqueRefreshToken L e.randRefresh with
            | error err => rfl
            | ok ph =>
              obtain ⟨plain, hash⟩ := ph
              simp only
              have hcs : CreateSession e
                  (DB.mk (db.setActive fa fc).admins
                    (updateRevokedAdmin (fun s => s.ID == sess.ID)
                      (db.setActive fa fc).admin_sessions)
                    (db.setActive fa fc).customers (db.setActive fa fc).customer_sessions)
                  (AdminSession.mk "" a.ID hash none none zeroTime
                    (some (e.nowRefreshExp + defaultRefreshTTL)) false)
                = ((CreateSession e { db with
                      admin_sessions :=
                        updateRevokedAdmin (fun s => s.ID == sess.ID) db.admin_sessions }
                    (AdminSession.mk "" a.ID hash none none zeroTime
                      (some (e.nowRefreshExp + defaultRefreshTTL)) false)).1,
                  (CreateSession e { db with
                      admin_sessions :=
                        updateRevokedAdmin (fun s => s.ID == sess.ID) db.admin_sessions }
                    (AdminSession.mk "" a.ID hash none none zeroTime
                      (some (e.nowRefreshExp + defaultRefreshTTL)) false)).2.setActive fa fc) :=
                CreateSession_setActive fa fc e { db with
                    admin_sessions :=
                      updateRevokedAdmin (fun s => s.ID == sess.ID) db.admin_sessions }
                  (AdminSession.mk "" a.ID hash none none zeroTime
                    (some (e.nowRefreshExp + defaultRefreshTTL)) false)
              rw [hcs]
              cases CreateSession e { db with
                  admin_sessions :=
                    updateRevokedAdmin (fun s => s.ID == sess.ID) db.admin_sessions }
                (AdminSession.mk "" a.ID hash none none zeroTime
                  (some (e.nowRefreshExp + defaultRefreshTTL)) false) with
              | mk res db2 =>
                cases res with
                | error err => rfl
                | ok created => rfl

theorem GetCustomerByID_id (db : DB) (id : String) (a : Customer)
    (h : GetCustomerByID db id = .ok a) : a.ID = id := by
  unfold GetCustomerByID at h
  split at h
  · simp at h
  · rename_i a0 hfirst
    simp only [Except.ok.injEq] at h
    subst h
    simpa using (dbFirst_ok_mem _ _ _ _ hfirst).2

theorem dbFirst_new_session_customer (h : String) (rows : List CustomerSession) (id : String)
    (newSess : CustomerSession) (hnone : ∀ s ∈ rows, s.RefreshTokenHash ≠ h)
    (hnew : newSess.RefreshTokenHash = h) :
    dbFirst CustomerSession.ID (fun s => s.RefreshTokenHash == h)
        (updateRevokedCustomer (fun s => s.ID == id) rows ++ [newSess]) = .ok newSess := by
  have hf : (updateRevokedCustomer (fun s => s.ID == id) rows).filter
      (fun s => s.RefreshTokenHash == h) = [] := by
    simp only [List.filter_eq_nil_iff, updateRevokedCustomer, List.mem_map]
    rintro a ⟨s, hs, rfl⟩
    have hne := hnone s hs
    split <;> simpa using hne
  unfold dbFirst
  simp [List.filter_append, hf, hnew, leastByKey]

theorem CustomerRefreshTokens_issues (L : Lib) (cfg : Config) (e : Env) (db db1 : DB) (r : String)
    (out : Tokens) (sess : CustomerSession) (owner : Customer)
    (hs : dbFirst CustomerSession.ID (fun s => s.RefreshTokenHash == HashOpaqueToken L r)
        db.customer_sessions = .ok sess)
    (ho : GetCustomerByID db sess.CustomerID = .ok owner)
    (h : CustomerRefreshTokens L cfg e db r = (.ok out, db1)) :
    GenerateAccessTokenWithLevel L cfg e.nowAccessExp e.nowAccessIat owner.ID "customer"
        defaultAccessTTL = .ok (out.accessToken, out.accessExp)
    ∧ (∃ rb, e.randRefresh = some rb ∧ out.refreshPlain = EncodeToString (List.ofFn rb))
    ∧ out.refreshExp = e.nowRefreshExp + defaultRefreshTTL
    ∧ db1 = { db with
        customer_sessions :=
          updateRevokedCustomer (fun s => s.ID == sess.ID) db.customer_sessions
            ++ [CustomerSession.mk out.sessionID owner.ID (HashOpaqueToken L out.refreshPlain)
                  "" "" e.nowCreatedAt (some out.refreshExp) false] } := by
  obtain ⟨sess1, admin, newSess, hs1, -, -, hadmin, hgen, hopq, hrexp, hnew, -, -, hdb⟩ :=
    CustomerRefreshTokens_ok L cfg e db db1 r out h
  rw [hs] at hs1
  simp only [Except.ok.injEq] at hs1
  subst hs1
  rw [ho] at hadmin
  simp only [Except.ok.injEq] at hadmin
  subst hadmin
  obtain ⟨-, rb, hrb, hplain⟩ := GenerateOpaqueRefreshToken_ok L _ _ _ hopq
  refine ⟨hgen, ⟨rb, hrb, hplain⟩, hrexp, ?_⟩
  rw [hdb, hnew]

theorem CustomerRefreshTokens_chain (L : Lib) (cfg : Config) (e e2 : Env) (db db1 : DB) (r : String)
    (out : Tokens) (sess : CustomerSession) (owner : Customer)
    (hs : dbFirst CustomerSession.ID (fun s => s.RefreshTokenHash == HashOpaqueToken L r)
        db.customer_sessions = .ok sess)
    (ho : GetCustomerByID db sess.CustomerID = .ok owner)
    (h : CustomerRefreshTokens L cfg e db r = (.ok out, db1))
    (hnone : ∀ s ∈ db.customer_sessions, s.RefreshTokenHash ≠ HashOpaqueToken L out.refreshPlain)
    (hexp2 : ¬ out.refreshExp < e2.nowExpiryCheck)
    (rb2 : Fin 48 → Byte) (hr2 : e2.randRefresh = some rb2) (id2 : String)
    (hu2 : uuid.New e2.nowUUID e2.randUUID = .ok id2)
    (hfresh2 : ∀ s ∈ db1.customer_sessions, s.ID ≠ id2) :
    ∃ out2 db2, CustomerRefreshTokens L cfg e2 db1 out.refreshPlain = (.ok out2, db2)
      ∧ GenerateAccessTokenWithLevel L cfg e2.nowAccessExp e2.nowAccessIat owner.ID "customer"
          defaultAccessTTL = .ok (out2.accessToken, out2.accessExp) := by
  obtain ⟨hgen, -, -, hdb⟩ := CustomerRefreshTokens_issues L cfg e db db1 r out sess owner hs ho h
  have hsec := (GenerateAccessTokenWithLevel_ok L cfg _ _ _ _ _ _ _ hgen).1
  have hoid : owner.ID = sess.CustomerID := GetCustomerByID_id db _ _ ho
  have hs2 : dbFirst CustomerSession.ID
      (fun s => s.RefreshTokenHash == HashOpaqueToken L out.refreshPlain) db1.customer_sessions
      = .ok (CustomerSession.mk out.sessionID owner.ID (HashOpaqueToken L out.refreshPlain)
          "" "" e.nowCreatedAt (some out.refreshExp) false) := by
    rw [hdb]
    exact dbFirst_new_session_customer _ _ _ _ hnone rfl
  have ho2 : GetCustomerByID db1 (CustomerSession.mk out.sessionID owner.ID
      (HashOpaqueToken L out.refreshPlain) "" "" e.nowCreatedAt (some out.refreshExp)
      false).CustomerID = .ok owner := by
    have hadm : db1.customers = db.customers := by rw [hdb]
    have hstep : GetCustomerByID db1 owner.ID = GetCustomerByID db owner.ID := by
      unfold GetCustomerByID
      rw [hadm]
    show GetCustomerByID db1 owner.ID = .ok owner
    rw [hstep, hoid]
    exact ho
  obtain ⟨out2, db2, h2⟩ := CustomerRefreshTokens_succeeds L cfg e2 db1 out.refreshPlain _ owner rb2 id2
    hs2 rfl (by intro t ht; cases ht; exact hexp2) ho2 hsec hr2 hu2 hfresh2
  exact ⟨out2, db2, h2,
    (CustomerRefreshTokens_issues L cfg e2 db1 db2 out.refreshPlain out2 _ owner hs2 ho2 h2).1⟩

theorem GetCustomerByID_setActive (fa : Admin → Bool) (fc : Customer → Bool) (db : DB)
    (id : String) :
    GetCustomerByID (db.setActive fa fc) id
      = (GetCustomerByID db id).map fun a => { a with IsActive := fc a } := by
  unfold GetCustomerByID DB.setActive
  simp only
  rw [dbFirst_map Customer.ID (fun a => a.ID == id) (fun a => { a with IsActive := fc a })
    (fun _ => rfl) (fun _ => rfl)]
  cases dbFirst Customer.ID (fun a => a.ID == id) db.customers <;> rfl

theorem CreateCustomerSession_setActive (fa : Admin → Bool) (fc : Customer → Bool) (e : Env) (db : DB)
    (s : CustomerSession) :
    CreateCustomerSession e (db.setActive fa fc) s
      = ((CreateCustomerSession e db s).1, (CreateCustomerSession e db s).2.setActive fa fc) := by
  unfold CreateCustomerSession
  cases CustomerSession.BeforeCreate e s with
  | error err => rfl
  | ok s1 =>
    have hses : (db.setActive fa fc).customer_sessions = db.customer_sessions := rfl
    simp only [hses]
    split <;> rfl

theorem CustomerRefreshTokens_setActive (fa : Admin → Bool) (fc : Customer → Bool) (L : Lib)
    (cfg : Config) (e : Env) (db : DB) (r : String) :
    CustomerRefreshTokens L cfg e (db.setActive fa fc) r
      = ((CustomerRefreshTokens L cfg e db r).1,
          (CustomerRefreshTokens L cfg e db r).2.setActive fa fc) := by
  unfold CustomerRefreshTokens
  have hses : (db.setActive fa fc).customer_sessions = db.customer_sessions := rfl
  simp only [hses]
  cases dbFirst CustomerSession.ID (fun s => s.RefreshTokenHash == HashOpaqueToken L r)
      db.customer_sessions with
  | error err => rfl
  | ok sess =>
    simp only
    cases sess.Revoked with
    | true => rfl
    | false =>
      simp only [Bool.false_eq_true, if_false]
      cases (match sess.ExpiresAt with
          | some t => decide (t < e.nowExpiryCheck)
          | none => false) with
      | true => rfl
      | false =>
        simp only [Bool.false_eq_true, if_false]
        rw [GetCustomerByID_setActive]
        cases GetCustomerByID db sess.CustomerID with
        | error err => rfl
        | ok a =>
          simp only [Except.map]
          cases GenerateAccessTokenWithLevel L cfg e.nowAccessExp e.nowAccessIat a.ID "customer"
              defaultAccessTTL with
          | error err => rfl
          | ok tk =>
            obtain ⟨at_, aexp⟩ := tk
            simp only
            cases GenerateOpaqueRefreshToken L e.randRefresh with
            | error err => rfl
            | ok ph =>
              obtain ⟨plain, hash⟩ := ph
              simp only
              have hcs : CreateCustomerSession e
                  (DB.mk (db.setActive fa fc).admins (db.setActive fa fc).admin_sessions
                    (db.setActive fa fc).customers
                    (updateRevokedCustomer (fun s => s.ID == sess.ID) db.customer_sessions))
                  (CustomerSession.mk "" a.ID hash "" "" zeroTime
                    (some (e.nowRefreshExp + defaultRefreshTTL)) false)
                = ((CreateCustomerSession e { db with
                      customer_sessions :=
                        updateRevokedCustomer (fun s => s.ID == sess.ID) db.customer_sessions }
                    (CustomerSession.mk "" a.ID hash "" "" zeroTime
                      (some (e.nowRefreshExp + defaultRefreshTTL)) false)).1,
                  (CreateCustomerSession e { db with
                      customer_sessions :=
                        updateRevokedCustomer (fun s => s.ID == sess.ID) db.customer_sessions }
                    (CustomerSession.mk "" a.ID hash "" "" zeroTime
                      (some (e.nowRefreshExp + defaultRefreshTTL)) false)).2.setActive fa fc) :=
                CreateCustomerSession_setActive fa fc e { db with
                    customer_sessions :=
                      updateRevokedCustomer (fun s => s.ID == sess.ID) db.customer_sessions }
                  (CustomerSession.mk "" a.ID hash "" "" zeroTime
                    (some (e.nowRefreshExp + defaultRefreshTTL)) false)
              rw [hcs]
              cases CreateCustomerSession e { db with
                  customer_sessions :=
                    updateRevokedCustomer (fun s => s.ID == sess.ID) db.customer_sessions }
                (CustomerSession.mk "" a.ID hash "" "" zeroTime
                  (some (e.nowRefreshExp + defaultRefreshTTL)) false) with
              | mk res db2 =>
                cases res with
                | error err => rfl
                | ok created => rfl

/-- C24: let the secret `r` lead to a session that is not revoked and not expired
and whose owner exists with its active flag false. Then `RefreshTokens` succeeds as
soon as the signing secret is set, the random source delivers and the drawn
session id is not yet a key of the table. Every successful call returns an access
token that decodes to the owner's id and level, a refresh secret newly drawn from
the random source, and leaves the store with the old session revoked and one new
live session of the same owner under the hash of that secret; the owner is still
there, still inactive. The chain goes on: when no older session carries the new
hash, a later refresh with the returned secret succeeds again for the same owner,
under the same three conditions on its environment, until the new session
expires. Lastly, whatever the active flags of the accounts are set to, a refresh
returns the same result and does the same to the sessions. All of this holds for
`CustomerRefreshTokens` as well. -/
theorem refresh_ignores_active_flag (L : Lib) (cfg : Config) (e : Env) (db : DB) (r : String) :
    (∀ (sess : AdminSession) (owner : Admin),
        dbFirst AdminSession.ID (fun s => s.RefreshTokenHash == HashOpaqueToken L r)
          db.admin_sessions = .ok sess →
        sess.Revoked = false → (∀ t, sess.ExpiresAt = some t → ¬ t < e.nowExpiryCheck) →
        GetAdminByID db sess.AdminID = .ok owner → owner.IsActive = false →
        (cfg.accessSecret ≠ "" → (∃ rb, e.randRefresh = some rb) →
          (∃ id, uuid.New e.nowUUID e.randUUID = .ok id ∧ ∀ s ∈ db.admin_sessions, s.ID ≠ id) →
          ∃ out db1, RefreshTokens L cfg e db r = (.ok out, db1))
        ∧ ∀ (out : Tokens) (db1 : DB), RefreshTokens L cfg e db r = (.ok out, db1) →
          GenerateAccessTokenWithLevel L cfg e.nowAccessExp e.nowAccessIat owner.ID owner.Level
              defaultAccessTTL = .ok (out.accessToken, out.accessExp)
          ∧ (∀ t : Time, t < NewNumericDate out.accessExp * 1000000000 →
              ∃ claims, ParseAccessTokenClaims L cfg t out.accessToken = .ok claims
                ∧ claims.AdminID = owner.ID ∧ claims.Level = owner.Level)
          ∧ (∃ rb, e.randRefresh = some rb ∧ out.refreshPlain = EncodeToString (List.ofFn rb))
          ∧ out.refreshExp = e.nowRefreshExp + defaultRefreshTTL
          ∧ db1 = { db with
              admin_sessions :=
                updateRevokedAdmin (fun s => s.ID == sess.ID) db.admin_sessions
                  ++ [AdminSession.mk out.sessionID owner.ID
                        (HashOpaqueToken L out.refreshPlain) none none e.nowCreatedAt
                        (some out.refreshExp) false] }
          ∧ GetAdminByID db1 sess.AdminID = .ok owner
          ∧ ((∀ s ∈ db.admin_sessions, s.RefreshTokenHash ≠ HashOpaqueToken L out.refreshPlain) →
              ∀ e2 : Env, ¬ out.refreshExp < e2.nowExpiryCheck →
                (∃ rb2, e2.randRefresh = some rb2) →
                (∃ id2, uuid.New e2.nowUUID e2.randUUID = .ok id2
                  ∧ ∀ s ∈ db1.admin_sessions, s.ID ≠ id2) →
                ∃ out2 db2, RefreshTokens L cfg e2 db1 out.refreshPlain = (.ok out2, db2)
                  ∧ GenerateAccessTokenWithLevel L cfg e2.nowAccessExp e2.nowAccessIat owner.ID
                      owner.Level defaultAccessTTL = .ok (out2.accessToken, out2.accessExp)))
    ∧ (∀ (sess : CustomerSession) (owner : Customer),
        dbFirst CustomerSession.ID (fun s => s.RefreshTokenHash == HashOpaqueToken L r)
          db.customer_sessions = .ok sess →
        sess.Revoked = false → (∀ t, sess.ExpiresAt = some t → ¬ t < e.nowExpiryCheck) →
        GetCustomerByID db sess.CustomerID = .ok owner → owner.IsActive = false →
        (cfg.accessSecret ≠ "" → (∃ rb, e.randRefresh = some rb) →
          (∃ id, uuid.New e.nowUUID e.randUUID = .ok id ∧ ∀ s ∈ db.customer_sessions, s.ID ≠ id) →
          ∃ out db1, CustomerRefreshTokens L cfg e db r = (.ok out, db1))
        ∧ ∀ (out : Tokens) (db1 : DB), CustomerRefreshTokens L cfg e db r = (.ok out, db1) →
          GenerateAccessTokenWithLevel L cfg e.nowAccessExp e.nowAccessIat owner.ID "customer"
              defaultAccessTTL = .ok (out.accessToken, out.accessExp)
          ∧ (∀ t : Time, t < NewNumericDate out.accessExp * 1000000000 →
              ∃ claims, ParseAccessTokenClaims L cfg t out.accessToken = .ok claims
                ∧ claims.AdminID = owner.ID ∧ claims.Level = "customer")
          ∧ (∃ rb, e.randRefresh = some rb ∧ out.refreshPlain = EncodeToString (List.ofFn rb))
          ∧ out.refreshExp = e.nowRefreshExp + defaultRefreshTTL
          ∧ db1 = { db with
              customer_sessions :=
                updateRevokedCustomer (fun s => s.ID == sess.ID) db.customer_sessions
                  ++ [CustomerSession.mk out.sessionID owner.ID
                        (HashOpaqueToken L out.refreshPlain) "" "" e.nowCreatedAt
                        (some out.refreshExp) false] }
          ∧ GetCustomerByID db1 sess.CustomerID = .ok owner
          ∧ ((∀ s ∈ db.customer_sessions, s.RefreshTokenHash ≠ HashOpaqueToken L out.refreshPlain) →
              ∀ e2 : Env, ¬ out.refreshExp < e2.nowExpiryCheck →
                (∃ rb2, e2.randRefresh = some rb2) →
                (∃ id2, uuid.New e2.nowUUID e2.randUUID = .ok id2
                  ∧ ∀ s ∈ db1.customer_sessions, s.ID ≠ id2) →
                ∃ out2 db2, CustomerRefreshTokens L cfg e2 db1 out.refreshPlain = (.ok out2, db2)
                  ∧ GenerateAccessTokenWithLevel L cfg e2.nowAccessExp e2.nowAccessIat owner.ID
                      "customer" defaultAccessTTL = .ok (out2.accessToken, out2.accessExp)))
    ∧ (∀ (fa : Admin → Bool) (fc : Customer → Bool),
        RefreshTokens L cfg e (db.setActive fa fc) r
            = ((RefreshTokens L cfg e db r).1, (RefreshTokens L cfg e db r).2.setActive fa fc)
        ∧ CustomerRefreshTokens L cfg e (db.setActive fa fc) r
            = ((CustomerRefreshTokens L cfg e db r).1,
                (CustomerRefreshTokens L cfg e db r).2.setActive fa fc)) := by
  refine ⟨?_, ?_, ?_⟩
  · intro sess owner hs hrev hexp ho _
    refine ⟨?_, ?_⟩
    · rintro hsec ⟨rb, hr⟩ ⟨id, hu, hfresh⟩
      exact RefreshTokens_succeeds L cfg e db r sess owner rb id hs hrev hexp ho hsec hr hu hfresh
    · intro out db1 h
      obtain ⟨hgen, hplain, hrexp, hdb⟩ := RefreshTokens_issues L cfg e db db1 r out sess owner hs ho h
      refine ⟨hgen, ?_, hplain, hrexp, hdb, ?_, ?_⟩
      · intro t ht
        exact ⟨_, ParseAccessTokenClaims_generated L cfg _ _ _ _ _ _ _ hgen t ht, rfl, rfl⟩
      · have hown : db1.admins = db.admins := by rw [hdb]
        unfold GetAdminByID
        rw [hown]
        exact ho
      · rintro hnone e2 hexp2 ⟨rb2, hr2⟩ ⟨id2, hu2, hfresh2⟩
        exact RefreshTokens_chain L cfg e e2 db db1 r out sess owner hs ho h hnone hexp2 rb2 hr2 id2 hu2
          hfresh2
  · intro sess owner hs hrev hexp ho _
    refine ⟨?_, ?_⟩
    · rintro hsec ⟨rb, hr⟩ ⟨id, hu, hfresh⟩
      exact CustomerRefreshTokens_succeeds L cfg e db r sess owner rb id hs hrev hexp ho hsec hr hu hfresh
    · intro out db1 h
      obtain ⟨hgen, hplain, hrexp, hdb⟩ := CustomerRefreshTokens_issues L cfg e db db1 r out sess owner hs ho h
      refine ⟨hgen, ?_, hplain, hrexp, hdb, ?_, ?_⟩
      · intro t ht
        exact ⟨_, ParseAccessTokenClaims_generated L cfg _ _ _ _ _ _ _ hgen t ht, rfl, rfl⟩
      · have hown : db1.customers = db.customers := by rw [hdb]
        unfold GetCustomerByID
        rw [hown]
        exact ho
      · rintro hnone e2 hexp2 ⟨rb2, hr2⟩ ⟨id2, hu2, hfresh2⟩
        exact CustomerRefreshTokens_chain L cfg e e2 db db1 r out sess owner hs ho h hnone hexp2 rb2 hr2 id2 hu2
          hfresh2
  · intro fa fc
    exact ⟨RefreshTokens_setActive fa fc L cfg e db r,
      CustomerRefreshTokens_setActive fa fc L cfg e db r⟩

/-- C24, concrete instances: the session of the deactivated sample administrator
is refreshed, the secret this refresh returns is refreshed again in a later
environment, and the session of the deactivated sample customer is refreshed. -/
theorem refresh_ignores_active_flag_witness :
    (sampleInactiveAdmin.IsActive = false
      ∧ GetAdminByID sampleDB3 sampleInactiveSession.AdminID = .ok sampleInactiveAdmin
      ∧ ∃ out db1, RefreshTokens sampleLib sampleCfg sampleEnv sampleDB3 "secret-5"
          = (.ok out, db1))
    ∧ (∃ out2 db2,
        RefreshTokens sampleLib sampleCfg sampleEnv2
            (RefreshTokens sampleLib sampleCfg sampleEnv sampleDB3 "secret-5").2
            (Tokens.ofResult
              (RefreshTokens sampleLib sampleCfg sampleEnv sampleDB3 "secret-5")).refreshPlain
          = (.ok out2, db2)
        ∧ GenerateAccessTokenWithLevel sampleLib sampleCfg sampleEnv2.nowAccessExp
            sampleEnv2.nowAccessIat sampleInactiveAdmin.ID sampleInactiveAdmin.Level
            defaultAccessTTL = .ok (out2.accessToken, out2.accessExp))
    ∧ (sampleInactiveCustomer.IsActive = false
      ∧ GetCustomerByID sampleDB3 sampleInactiveCustomerSession.CustomerID
          = .ok sampleInactiveCustomer
      ∧ ∃ out db1, CustomerRefreshTokens sampleLib sampleCfg sampleEnv sampleDB3 "secret-5"
          = (.ok out, db1)) :=
  ⟨⟨by rfl, by rfl,
      ((refresh_ignores_active_flag sampleLib sampleCfg sampleEnv sampleDB3 "secret-5").1
        sampleInactiveSession sampleInactiveAdmin (by rfl) (by rfl)
        (by intro t ht; cases ht; decide) (by rfl) (by rfl)).1 (by decide) ⟨_, rfl⟩
        ⟨_, rfl, by decide⟩⟩,
    (((refresh_ignores_active_flag sampleLib sampleCfg sampleEnv sampleDB3 "secret-5").1
        sampleInactiveSession sampleInactiveAdmin (by rfl) (by rfl)
        (by intro t ht; cases ht; decide) (by rfl) (by rfl)).2
        (Tokens.ofResult (RefreshTokens sampleLib sampleCfg sampleEnv sampleDB3 "secret-5"))
        (RefreshTokens sampleLib sampleCfg sampleEnv sampleDB3 "secret-5").2
        (by rfl)).2.2.2.2.2.2 (by decide) sampleEnv2 (by decide) ⟨_, rfl⟩ ⟨_, rfl, by decide⟩,
    ⟨by rfl, by rfl,
      ((refresh_ignores_active_flag sampleLib sampleCfg sampleEnv sampleDB3 "secret-5").2.1
        sampleInactiveCustomerSession sampleInactiveCustomer (by rfl) (by rfl)
        (by intro t ht; cases ht; decide) (by rfl) (by rfl)).1 (by decide) ⟨_, rfl⟩
        ⟨_, rfl, by decide⟩⟩⟩

/-! ## Refresh: failures before the rotation -/

/-- C25: `RefreshTokens` leaves the database exactly as it was whenever it fails
because no session carries the hash, because the session found is revoked,
because it is expired, or because its owner cannot be loaded; the error is then
"invalid refresh token", "refresh token revoked", "refresh token expired" or the
lookup error. The same holds for `CustomerRefreshTokens`. -/
theorem early_refresh_failure_keeps_store (L : Lib) (cfg : Config) (e : Env) (db : DB)
    (r : String) :
    ((∀ s ∈ db.admin_sessions, s.RefreshTokenHash ≠ HashOpaqueToken L r) →
        RefreshTokens L cfg e db r = (.error (.New "invalid refresh token"), db))
    ∧ (∀ sess : AdminSession,
        dbFirst AdminSession.ID (fun s => s.RefreshTokenHash == HashOpaqueToken L r)
          db.admin_sessions = .ok sess →
        (sess.Revoked = true →
          RefreshTokens L cfg e db r = (.error (.New "refresh token revoked"), db))
        ∧ (sess.Revoked = false → (∃ t, sess.ExpiresAt = some t ∧ t < e.nowExpiryCheck) →
          RefreshTokens L cfg e db r = (.error (.New "refresh token expired"), db))
        ∧ (sess.Revoked = false → (∀ t, sess.ExpiresAt = some t → ¬ t < e.nowExpiryCheck) →
          ∀ err, GetAdminByID db sess.AdminID = .error err →
          RefreshTokens L cfg e db r = (.error err, db)))
    ∧ ((∀ s ∈ db.customer_sessions, s.RefreshTokenHash ≠ HashOpaqueToken L r) →
        CustomerRefreshTokens L cfg e db r = (.error (.New "invalid refresh token"), db))
    ∧ (∀ sess : CustomerSession,
        dbFirst CustomerSession.ID (fun s => s.RefreshTokenHash == HashOpaqueToken L r)
          db.customer_sessions = .ok sess →
        (sess.Revoked = true →
          CustomerRefreshTokens L cfg e db r = (.error (.New "refresh token revoked"), db))
        ∧ (sess.Revoked = false → (∃ t, sess.ExpiresAt = some t ∧ t < e.nowExpiryCheck) →
          CustomerRefreshTokens L cfg e db r = (.error (.New "refresh token expired"), db))
        ∧ (sess.Revoked = false → (∀ t, sess.ExpiresAt = some t → ¬ t < e.nowExpiryCheck) →
          ∀ err, GetCustomerByID db sess.CustomerID = .error err →
          CustomerRefreshTokens L cfg e db r = (.error err, db))) := by
  refine ⟨?_, ?_, ?_, ?_⟩
  · intro h
    have hnone := dbFirst_none AdminSession.ID
      (fun s => s.RefreshTokenHash == HashOpaqueToken L r) db.admin_sessions
      (by intro s hs; simpa using h s hs)
    simp [RefreshTokens, hnone]
  · intro sess hs
    refine ⟨?_, ?_, ?_⟩
    · intro hrev
      simp [RefreshTokens, hs, hrev]
    · rintro hrev ⟨t, ht, hlt⟩
      simp [RefreshTokens, hs, hrev, ht, hlt]
    · intro hrev hexp err herr
      have hexp1 : (match sess.ExpiresAt with
          | some t => decide (t < e.nowExpiryCheck)
          | none => false) = false := by
        cases ht : sess.ExpiresAt with
        | none => rfl
        | some t => simpa using hexp t ht
      unfold RefreshTokens
      simp only [hs, hrev, hexp1, herr, Bool.false_eq_true, if_false]
  · intro h
    have hnone := dbFirst_none CustomerSession.ID
      (fun s => s.RefreshTokenHash == HashOpaqueToken L r) db.customer_sessions
      (by intro s hs; simpa using h s hs)
    simp [CustomerRefreshTokens, hnone]
  · intro sess hs
    refine ⟨?_, ?_, ?_⟩
    · intro hrev
      simp [CustomerRefreshTokens, hs, hrev]
    · rintro hrev ⟨t, ht, hlt⟩
      simp [CustomerRefreshTokens, hs, hrev, ht, hlt]
    · intro hrev hexp err herr
      have hexp1 : (match sess.ExpiresAt with
          | some t => decide (t < e.nowExpiryCheck)
          | none => false) = false := by
        cases ht : sess.ExpiresAt with
        | none => rfl
        | some t => simpa using hexp t ht
      unfold CustomerRefreshTokens
      simp only [hs, hrev, hexp1, herr, Bool.false_eq_true, if_false]

/-- C25, concrete instances on the sample data: an unknown secret, the revoked
session, the expired session and the session without owner. -/
theorem early_refresh_failure_keeps_store_witness :
    RefreshTokens sampleLib sampleCfg sampleEnv sampleDB3 "unknown"
      = (.error (.New "invalid refresh token"), sampleDB3)
    ∧ RefreshTokens sampleLib sampleCfg sampleEnv sampleDB3 "secret-3"
      = (.error (.New "refresh token revoked"), sampleDB3)
    ∧ RefreshTokens sampleLib sampleCfg sampleEnv sampleDB3 "secret-2"
      = (.error (.New "refresh token expired"), sampleDB3)
    ∧ GetAdminByID sampleDB3 sampleOrphanSession.AdminID = .error .ErrRecordNotFound
    ∧ RefreshTokens sampleLib sampleCfg sampleEnv sampleDB3 "secret-6"
      = (.error .ErrRecordNotFound, sampleDB3) :=
  ⟨(early_refresh_failure_keeps_store sampleLib sampleCfg sampleEnv sampleDB3 "unknown").1
      (by decide),
    ((early_refresh_failure_keeps_store sampleLib sampleCfg sampleEnv sampleDB3 "secret-3").2.1
      sampleRevokedExpiredSession (by rfl)).1 (by rfl),
    ((early_refresh_failure_keeps_store sampleLib sampleCfg sampleEnv sampleDB3 "secret-2").2.1
      sampleExpiredSession (by rfl)).2.1 (by rfl) ⟨_, rfl, by decide⟩,
    by rfl,
    ((early_refresh_failure_keeps_store sampleLib sampleCfg sampleEnv sampleDB3 "secret-6").2.1
      sampleOrphanSession (by rfl)).2.2 (by rfl) (by intro t ht; cases ht; decide) _ (by rfl)⟩

/-! ## The event bus -/

/-- C21, the code at the failing input: handlers 1, 2 and 3 subscribe to one
event and receive the indices 0, 1 and 2. After the first subscription is
cancelled, cancelling the second removes handler 3 and leaves handler 2
subscribed; and cancelling the first subscription a second time removes
handler 2. -/
theorem unsubscribe_removes_other_handler :
    (Subscribe (fun _ => []) "user.created" 1).2 = 0
    ∧ (Subscribe (Subscribe (fun _ => []) "user.created" 1).1 "user.created" 2).2 = 1
    ∧ (Subscribe (Subscribe (Subscribe (fun _ => []) "user.created" 1).1 "user.created" 2).1
        "user.created" 3).2 = 2
    ∧ sampleBus "user.created" = [1, 2, 3]
    ∧ unsubscribe "user.created" 0 sampleBus "user.created" = [2, 3]
    ∧ unsubscribe "user.created" 1 (unsubscribe "user.created" 0 sampleBus) "user.created"
        = [2]
    ∧ unsubscribe "user.created" 0 (unsubscribe "user.created" 0 sampleBus) "user.created"
        = [3] :=
  ⟨by decide, by decide, by decide, by decide, by decide, by decide, by decide⟩

/-! ## Package initialisation: the signing secrets -/

theorem getEnv_ne_empty (environ : Environ) (key default : String) (h : default ≠ "") :
    getEnv environ key default ≠ "" := by
  unfold getEnv
  split
  · assumption
  · exact h

theorem ParseWithClaimsHS256_error (L : Lib) (secret : String) (now : Time)
    (tokenStr : TokenString) (err : Err)
    (h : ParseWithClaimsHS256 L secret now tokenStr = .error err) :
    err = .ErrTokenMalformed ∨ err = .ErrTokenUnverifiable ∨ err = .ErrTokenSignatureInvalid
      ∨ err = .ErrTokenExpired := by
  unfold ParseWithClaimsHS256 at h
  split at h
  · cases h; simp
  · split at h
    · cases h; simp
    · split at h
      · cases h; simp
      · split at h
        · split at h
          · cases h
          · cases h; simp
        · cases h

/-- C28: in every process environment the access secret and the refresh secret
are non-empty after package initialisation. Both are `AUTH_JWT_SECRET` when that
variable is set; otherwise the access secret is `JWT_ACCESS_SECRET` when set and
"change-me-access-secret" when not, and the refresh secret is `JWT_REFRESH_SECRET`
when set and "change-me-refresh-secret" when not. Hence, under the initialised
configuration, `GenerateAccessTokenWithLevel` always returns a token and neither
it nor `ParseAccessTokenClaims` returns the error "jwt secret is empty". -/
theorem init_secrets_non_empty (environ : Environ) :
    (auth.init environ).accessSecret ≠ "" ∧ (auth.init environ).refreshSecret ≠ ""
    ∧ (environ "AUTH_JWT_SECRET" ≠ "" →
        (auth.init environ).accessSecret = environ "AUTH_JWT_SECRET"
        ∧ (auth.init environ).refreshSecret = environ "AUTH_JWT_SECRET")
    ∧ (environ "AUTH_JWT_SECRET" = "" →
        (auth.init environ).accessSecret
            = (if environ "JWT_ACCESS_SECRET" ≠ "" then environ "JWT_ACCESS_SECRET"
               else "change-me-access-secret")
        ∧ (auth.init environ).refreshSecret
            = (if environ "JWT_REFRESH_SECRET" ≠ "" then environ "JWT_REFRESH_SECRET"
               else "change-me-refresh-secret"))
    ∧ (∀ (L : Lib) (now nowIat : Time) (adminID level : String) (ttl : Duration),
        ∃ tok, GenerateAccessTokenWithLevel L (auth.init environ) now nowIat adminID level ttl
          = .ok (tok, now + ttl))
    ∧ (∀ (L : Lib) (now : Time) (tokenStr : TokenString),
        ParseAccessTokenClaims L (auth.init environ) now tokenStr
          ≠ .error (.New "jwt secret is empty")) := by
  have hsec : (auth.init environ).accessSecret ≠ "" ∧ (auth.init environ).refreshSecret ≠ "" := by
    unfold auth.init
    split
    · rename_i h
      exact ⟨h, h⟩
    · exact ⟨getEnv_ne_empty _ _ _ (by decide), getEnv_ne_empty _ _ _ (by decide)⟩
  refine ⟨hsec.1, hsec.2, ?_, ?_, ?_, ?_⟩
  · intro hset
    simp only [auth.init, hset, ne_eq, not_false_eq_true, if_true]
    exact ⟨trivial, trivial⟩
  · intro hunset
    simp only [auth.init, hunset, ne_eq, not_true_eq_false, if_false, getEnv]
    exact ⟨trivial, trivial⟩
  · intro L now nowIat adminID level ttl
    exact GenerateAccessTokenWithLevel_succeeds L _ now nowIat adminID level ttl hsec.1
  · intro L now tokenStr
    unfold ParseAccessTokenClaims
    split
    · simp
    · simp only [hsec.1, if_false]
      cases h : ParseWithClaimsHS256 L (auth.init environ).accessSecret now tokenStr with
      | ok claims => simp
      | error err =>
        rcases ParseWithClaimsHS256_error L _ now tokenStr err h with h1 | h1 | h1 | h1 <;>
          subst h1 <;> simp

/-- C28, concrete instances: with only `JWT_ACCESS_SECRET` set, the access secret
is its value and the refresh secret the built-in default; with `AUTH_JWT_SECRET`
set as well, both secrets are its value. -/
theorem init_secrets_non_empty_witness :
    ((auth.init sampleEnviron).accessSecret = "s3cret"
      ∧ (auth.init sampleEnviron).refreshSecret = "change-me-refresh-secret")
    ∧ ((auth.init sampleCanonicalEnviron).accessSecret = "one-secret"
      ∧ (auth.init sampleCanonicalEnviron).refreshSecret = "one-secret") :=
  ⟨(init_secrets_non_empty sampleEnviron).2.2.2.1 (by decide),
    (init_secrets_non_empty sampleCanonicalEnviron).2.2.1 (by decide)⟩

/-! ## The shared database handle -/

theorem GetGormDB_series_done (st : GormState) (h : st.onceDone = true)
    (later : List (Except Err DB)) :
    ∀ res ∈ GetGormDB.series st later, res = (st.gormDB, none) := by
  induction later with
  | nil => intro res hres; simp [GetGormDB.series] at hres
  | cons opened rest ih =>
    intro res hres
    have hstep : GetGormDB st opened = ((st.gormDB, none), st) := by simp [GetGormDB, h]
    simp only [GetGormDB.series, hstep, List.mem_cons] at hres
    rcases hres with hres | hres
    · exact hres
    · exact ih res hres

/-- C29: when `openGormDB()` fails at the first `GetGormDB` call, that call
returns a nil handle with the open error, and every later call returns a nil
handle with a nil error, whatever `openGormDB()` would return then: the open is
not tried again. -/
theorem gorm_open_failure_not_retried (err : Err) (later : List (Except Err DB)) :
    (GetGormDB GormState.initial (.error err)).1 = (none, some err)
    ∧ ∀ res ∈ GetGormDB.series (GetGormDB GormState.initial (.error err)).2 later,
        res = (none, none) := by
  refine ⟨rfl, ?_⟩
  exact GetGormDB_series_done _ rfl later

/-- C29, concrete instance: after a failed ping, a call at which `openGormDB()`
would succeed still returns a nil handle and a nil error. -/
theorem gorm_open_failure_not_retried_witness :
    (GetGormDB GormState.initial (.error (.New "database ping failed"))).1
      = (none, some (.New "database ping failed"))
    ∧ (GetGormDB (GetGormDB GormState.initial (.error (.New "database ping failed"))).2
        (.ok sampleDB)).1 = (none, none) :=
  ⟨(gorm_open_failure_not_retried (.New "database ping failed") [.ok sampleDB]).1,
    (gorm_open_failure_not_retried (.New "database ping failed") [.ok sampleDB]).2 _
      (List.mem_cons_self _ _)⟩

/-! ## Package names of generated plugins -/

/-- C30, the code at the failing input: for the plugin id `"func"`, and likewise
for `"type"`, `"go"` and `"_"`, `packageNameFromID` returns the id unchanged, which
is a Go keyword or the blank identifier and not a valid package name. -/
theorem package_name_keyword :
    packageNameFromID "func" = "func" ∧ "func" ∈ goKeywords
    ∧ validPackageName (packageNameFromID "func") = false
    ∧ packageNameFromID "type" = "type" ∧ validPackageName (packageNameFromID "type") = false
    ∧ packageNameFromID "go" = "go" ∧ validPackageName (packageNameFromID "go") = false
    ∧ packageNameFromID "_" = "_" ∧ validPackageName (packageNameFromID "_") = false
    ∧ packageNameFromID "My-Plugin 2" = "myplugin2"
    ∧ validPackageName (packageNameFromID "My-Plugin 2") = true
    ∧ packageNameFromID "9lives" = "plugin9lives" :=
  ⟨by decide, by decide, by decide, by decide, by decide, by decide, by decide, by decide,
    by decide, by decide, by decide, by decide⟩

/-! ## Access tokens and the two kinds of principal -/

theorem Context_Set_same (c : Context) (key value : String) :
    Context.Set c key value key = some value := by
  simp [Context.Set]

theorem Context_Set_other (c : Context) (key value k : String) (h : k ≠ key) :
    Context.Set c key value k = c k := by
  simp [Context.Set, h]

theorem AdminClaimsMiddleware_ok (L : Lib) (cfg : Config) (now : Time) (token : TokenString)
    (claims : AccessClaims) (c : Context)
    (h : ParseAccessTokenClaims L cfg now token = .ok claims) :
    AdminClaimsMiddleware L cfg now (.bearer token) c "admin_id" = some claims.AdminID
    ∧ AdminClaimsMiddleware L cfg now (.bearer token) c "admin_level" = some claims.Level
    ∧ AdminClaimsMiddleware L cfg now (.bearer token) c "user_id" = some claims.AdminID := by
  simp only [AdminClaimsMiddleware, h]
  refine ⟨?_, ?_, ?_⟩
  · rw [Context_Set_other _ _ _ _ (by decide), Context_Set_other _ _ _ _ (by decide),
      Context_Set_same]
  · rw [Context_Set_other _ _ _ _ (by decide), Context_Set_same]
  · rw [Context_Set_same]

theorem MemberClaimsMiddleware_ok (L : Lib) (cfg : Config) (now : Time) (token : TokenString)
    (claims : AccessClaims) (c : Context)
    (h : ParseAccessTokenClaims L cfg now token = .ok claims) :
    MemberClaimsMiddleware L cfg now (.bearer token) c "customer_id" = some claims.AdminID
    ∧ MemberClaimsMiddleware L cfg now (.bearer token) c "user_id" = some claims.AdminID
    ∧ MemberClaimsMiddleware L cfg now (.bearer token) c "user_role" = some claims.Level := by
  simp only [MemberClaimsMiddleware, h]
  refine ⟨?_, ?_, ?_⟩
  · rw [Context_Set_other _ _ _ _ (by decide), Context_Set_other _ _ _ _ (by decide),
      Context_Set_same]
  · rw [Context_Set_other _ _ _ _ (by decide), Context_Set_same]
  · rw [Context_Set_same]

theorem CustomerAuthenticateAndCreateSession_ok (L : Lib) (cfg : Config) (e : Env) (db db1 : DB)
    (email password : String) (out : Tokens)
    (h : CustomerAuthenticateAndCreateSession L cfg e db email password = (.ok out, db1)) :
    ∃ cust, GetCustomerByEmail db email = .ok cust
      ∧ GenerateAccessTokenWithLevel L cfg e.nowAccessExp e.nowAccessIat cust.ID "customer"
          defaultAccessTTL = .ok (out.accessToken, out.accessExp) := by
  have hm := AuthenticateAndCreateSession_mirror L cfg e db email password
  rw [h] at hm
  obtain ⟨admin, _, hget, _, _, hgen, _⟩ :=
    AuthenticateAndCreateSession_ok L cfg e _ _ email password out hm
  rw [GetAdminByEmail_mirror] at hget
  cases hc : GetCustomerByEmail db email with
  | error err => rw [hc] at hget; cases hget
  | ok cust =>
    rw [hc] at hget
    have hadm : admin = cust.asAdmin := by
      simp only [Except.map] at hget
      cases hget
      rfl
    subst hadm
    exact ⟨cust, rfl, hgen⟩

/-- C26: every token that `ParseAccessTokenClaims` accepts is accepted by both
`AdminClaimsMiddleware` and `MemberClaimsMiddleware`, which store its principal id
and level under the administrator keys and under the customer keys. Hence, while
it is not expired, the access token of an administrator login makes the member
middleware set `customer_id` and `user_id` to the administrator's id, and the
access token of a customer login makes the administrator middleware set `admin_id`
to the customer's id and `admin_level` to "customer". -/
theorem middlewares_share_access_tokens (L : Lib) (cfg : Config) :
    (∀ (now : Time) (token : TokenString) (claims : AccessClaims) (c : Context),
        ParseAccessTokenClaims L cfg now token = .ok claims →
        (AdminClaimsMiddleware L cfg now (.bearer token) c "admin_id" = some claims.AdminID
          ∧ AdminClaimsMiddleware L cfg now (.bearer token) c "admin_level" = some claims.Level
          ∧ AdminClaimsMiddleware L cfg now (.bearer token) c "user_id" = some claims.AdminID)
        ∧ (MemberClaimsMiddleware L cfg now (.bearer token) c "customer_id"
              = some claims.AdminID
          ∧ MemberClaimsMiddleware L cfg now (.bearer token) c "user_id" = some claims.AdminID
          ∧ MemberClaimsMiddleware L cfg now (.bearer token) c "user_role"
              = some claims.Level))
    ∧ (∀ (e : Env) (db db1 : DB) (email password : String) (out : Tokens),
        AuthenticateAndCreateSession L cfg e db email password = (.ok out, db1) →
        ∃ a, GetAdminByEmail db email = .ok a
          ∧ ∀ (now : Time) (c : Context), now < NewNumericDate out.accessExp * 1000000000 →
            MemberClaimsMiddleware L cfg now (.bearer out.accessToken) c "customer_id"
                = some a.ID
            ∧ MemberClaimsMiddleware L cfg now (.bearer out.accessToken) c "user_id"
                = some a.ID)
    ∧ (∀ (e : Env) (db db1 : DB) (email password : String) (out : Tokens),
        CustomerAuthenticateAndCreateSession L cfg e db email password = (.ok out, db1) →
        ∃ cu, GetCustomerByEmail db email = .ok cu
          ∧ ∀ (now : Time) (c : Context), now < NewNumericDate out.accessExp * 1000000000 →
            AdminClaimsMiddleware L cfg now (.bearer out.accessToken) c "admin_id"
                = some cu.ID
            ∧ AdminClaimsMiddleware L cfg now (.bearer out.accessToken) c "admin_level"
                = some "customer") := by
  refine ⟨?_, ?_, ?_⟩
  · intro now token claims c h
    exact ⟨AdminClaimsMiddleware_ok L cfg now token claims c h,
      MemberClaimsMiddleware_ok L cfg now token claims c h⟩
  · intro e db db1 email password out h
    obtain ⟨a, _, hget, _, _, hgen, _⟩ :=
      AuthenticateAndCreateSession_ok L cfg e db db1 email password out h
    refine ⟨a, hget, ?_⟩
    intro now c hnow
    have hp := ParseAccessTokenClaims_generated L cfg _ _ _ _ _ _ _ hgen now hnow
    have hm := MemberClaimsMiddleware_ok L cfg now out.accessToken _ c hp
    exact ⟨hm.1, hm.2.1⟩
  · intro e db db1 email password out h
    obtain ⟨cu, hget, hgen⟩ :=
      CustomerAuthenticateAndCreateSession_ok L cfg e db db1 email password out h
    refine ⟨cu, hget, ?_⟩
    intro now c hnow
    have hp := ParseAccessTokenClaims_generated L cfg _ _ _ _ _ _ _ hgen now hnow
    have hm := AdminClaimsMiddleware_ok L cfg now out.accessToken _ c hp
    exact ⟨hm.1, hm.2.1⟩

/-- C26, concrete instance: the access token of the sample customer login makes
the administrator middleware set `admin_id` to the customer's id and `admin_level`
to "customer". -/
theorem middlewares_share_access_tokens_witness :
    CustomerAuthenticateAndCreateSession sampleLib sampleCfg sampleEnv sampleDB
        "c@example.com" "correct"
      = (.ok (Tokens.ofResult sampleCustomerLogin), sampleCustomerLogin.2)
    ∧ ∃ cu, GetCustomerByEmail sampleDB "c@example.com" = .ok cu
      ∧ ∀ (now : Time) (c : Context),
        now < NewNumericDate (Tokens.ofResult sampleCustomerLogin).accessExp * 1000000000 →
        AdminClaimsMiddleware sampleLib sampleCfg now
            (.bearer (Tokens.ofResult sampleCustomerLogin).accessToken) c "admin_id"
          = some cu.ID
        ∧ AdminClaimsMiddleware sampleLib sampleCfg now
            (.bearer (Tokens.ofResult sampleCustomerLogin).accessToken) c "admin_level"
          = some "customer" :=
  ⟨by rfl,
    (middlewares_share_access_tokens sampleLib sampleCfg).2.2 sampleEnv sampleDB
      sampleCustomerLogin.2 "c@example.com" "correct" (Tokens.ofResult sampleCustomerLogin)
      (by rfl)⟩

/-! ## The subject codec and tokens of the claims codec -/

theorem ParseAccessToken_generated (L : Lib) (H : LibHMAC) (cfg : Config) (now nowIat : Time)
    (adminID level : String) (ttl : Duration) (tok : TokenString) (exp : Time)
    (h : GenerateAccessTokenWithLevel L cfg now nowIat adminID level ttl = .ok (tok, exp))
    (t : Time) :
    ParseAccessToken L H cfg t tok
      = if NewNumericDate exp = 0 ∨ t < NewNumericDate exp * 1000000000
        then .error (.New "invalid token type")
        else .error .ErrTokenExpired := by
  obtain ⟨hsec, hexp, htok⟩ := GenerateAccessTokenWithLevel_ok L cfg now nowIat adminID level
    ttl tok exp h
  subst hexp htok
  by_cases h0 : NewNumericDate (now + ttl) = 0
  · simp [ParseAccessToken, parseTokenWithSecret, SigningMethodHMAC, h0]
  · by_cases ht : t < NewNumericDate (now + ttl) * 1000000000
    · simp [ParseAccessToken, parseTokenWithSecret, SigningMethodHMAC, h0, ht]
    · simp [ParseAccessToken, parseTokenWithSecret, SigningMethodHMAC, h0, ht]

theorem ParseAccessToken_generated_error (L : Lib) (H : LibHMAC) (cfg : Config)
    (now nowIat : Time) (adminID level : String) (ttl : Duration) (tok : TokenString)
    (exp : Time)
    (h : GenerateAccessTokenWithLevel L cfg now nowIat adminID level ttl = .ok (tok, exp))
    (t : Time) :
    ∃ err, ParseAccessToken L H cfg t tok = .error err
      ∧ (err = .New "invalid token type" ∨ err = .ErrTokenExpired)
      ∧ (NewNumericDate exp = 0 ∨ t < NewNumericDate exp * 1000000000 →
          err = .New "invalid token type")
      ∧ (¬ (NewNumericDate exp = 0 ∨ t < NewNumericDate exp * 1000000000) →
          err = .ErrTokenExpired) := by
  rw [ParseAccessToken_generated L H cfg now nowIat adminID level ttl tok exp h t]
  split
  · rename_i hc
    exact ⟨_, rfl, Or.inl rfl, fun _ => rfl, fun hn => absurd hc hn⟩
  · rename_i hc
    exact ⟨_, rfl, Or.inr rfl, fun hp => absurd hp hc, fun _ => rfl⟩

theorem Me_of_error {α : Type} (L : Lib) (H : LibHMAC) (cfg : Config) (t : Time)
    (first : String → Except Err α) (tok : TokenString) (err : Err)
    (h : ParseAccessToken L H cfg t tok = .error err) :
    AuthService.Me L H cfg t first tok = .error err := by
  simp [AuthService.Me, h]

theorem AuthMiddleware_of_error (L : Lib) (H : LibHMAC) (cfg : Config) (t : Time)
    (tok : TokenString) (err : Err) (c : Context)
    (h : ParseAccessToken L H cfg t tok = .error err) :
    AuthMiddleware L H cfg t (.bearer tok) c = c := by
  simp [AuthMiddleware, h]

theorem generated_rejected_by_subject_codec (L : Lib) (H : LibHMAC) (cfg : Config)
    (now nowIat : Time) (adminID level : String) (ttl : Duration) (tok : TokenString)
    (exp : Time)
    (h : GenerateAccessTokenWithLevel L cfg now nowIat adminID level ttl = .ok (tok, exp))
    (t : Time) :
    ∃ err, ParseAccessToken L H cfg t tok = .error err
      ∧ (err = .New "invalid token type" ∨ err = .ErrTokenExpired)
      ∧ (NewNumericDate exp = 0 ∨ t < NewNumericDate exp * 1000000000 →
          err = .New "invalid token type")
      ∧ (¬ (NewNumericDate exp = 0 ∨ t < NewNumericDate exp * 1000000000) →
          err = .ErrTokenExpired)
      ∧ (∀ (α : Type) (first : String → Except Err α),
          AuthService.Me L H cfg t first tok = .error err)
      ∧ (∀ c : Context, AuthMiddleware L H cfg t (.bearer tok) c = c) := by
  obtain ⟨err, herr, hkind, hearly, hlate⟩ :=
    ParseAccessToken_generated_error L H cfg now nowIat adminID level ttl tok exp h t
  exact ⟨err, herr, hkind, hearly, hlate,
    fun α first => Me_of_error L H cfg t first tok err herr,
    fun c => AuthMiddleware_of_error L H cfg t tok err c herr⟩

/-- C27: a token issued by `GenerateAccessTokenWithLevel` is an HS256 token whose
payload has neither a `typ` nor a `sub` claim, and at every time `ParseAccessToken`
refuses it: with "invalid token type" before its expiry second, and also later
when its `exp` claim is 0, which the subject codec reads as absent; with the
expiry error otherwise. `AuthService.Me` then fails with the same error whatever
the database holds, and `AuthMiddleware` leaves the request context unchanged. This
applies to the access token of every successful login and refresh, of
administrators and customers. -/
theorem subject_codec_rejects_issued_tokens (L : Lib) (H : LibHMAC) (cfg : Config) :
    (∀ (now nowIat : Time) (adminID level : String) (ttl : Duration) (tok : TokenString)
        (exp : Time),
        GenerateAccessTokenWithLevel L cfg now nowIat adminID level ttl = .ok (tok, exp) →
        (∃ payload sig, tok = .compact "HS256" payload sig ∧ payload.typ = none
          ∧ payload.sub = none)
        ∧ ∀ t : Time, ∃ err, ParseAccessToken L H cfg t tok = .error err
            ∧ (err = .New "invalid token type" ∨ err = .ErrTokenExpired)
            ∧ (NewNumericDate exp = 0 ∨ t < NewNumericDate exp * 1000000000 →
                err = .New "invalid token type")
            ∧ (¬ (NewNumericDate exp = 0 ∨ t < NewNumericDate exp * 1000000000) →
                err = .ErrTokenExpired)
            ∧ (∀ (α : Type) (first : String → Except Err α),
                AuthService.Me L H cfg t first tok = .error err)
            ∧ (∀ c : Context, AuthMiddleware L H cfg t (.bearer tok) c = c))
    ∧ (∀ (e : Env) (db db1 : DB) (out : Tokens),
        ((∃ email password,
            AuthenticateAndCreateSession L cfg e db email password = (.ok out, db1))
          ∨ (∃ r, RefreshTokens L cfg e db r = (.ok out, db1))
          ∨ (∃ email password,
            CustomerAuthenticateAndCreateSession L cfg e db email password = (.ok out, db1))
          ∨ (∃ r, CustomerRefreshTokens L cfg e db r = (.ok out, db1))) →
        ∀ t : Time, ∃ err, ParseAccessToken L H cfg t out.accessToken = .error err
            ∧ (∀ (α : Type) (first : String → Except Err α),
                AuthService.Me L H cfg t first out.accessToken = .error err)
            ∧ (∀ c : Context,
                AuthMiddleware L H cfg t (.bearer out.accessToken) c = c)) := by
  constructor
  · intro now nowIat adminID level ttl tok exp h
    refine ⟨?_, fun t => generated_rejected_by_subject_codec L H cfg now nowIat adminID level
      ttl tok exp h t⟩
    obtain ⟨_, _, htok⟩ := GenerateAccessTokenWithLevel_ok L cfg now nowIat adminID level
      ttl tok exp h
    exact ⟨_, _, htok, rfl, rfl⟩
  · intro e db db1 out hout t
    have key : ∃ adminID level,
        GenerateAccessTokenWithLevel L cfg e.nowAccessExp e.nowAccessIat adminID level
          defaultAccessTTL = .ok (out.accessToken, out.accessExp) := by
      rcases hout with ⟨email, password, h⟩ | ⟨r, h⟩ | ⟨email, password, h⟩ | ⟨r, h⟩
      · obtain ⟨a, _, _, _, _, hgen, _⟩ :=
          AuthenticateAndCreateSession_ok L cfg e db db1 email password out h
        exact ⟨_, _, hgen⟩
      · obtain ⟨_, a, _, _, _, _, _, hgen, _⟩ := RefreshTokens_ok L cfg e db db1 r out h
        exact ⟨_, _, hgen⟩
      · obtain ⟨cu, _, hgen⟩ :=
          CustomerAuthenticateAndCreateSession_ok L cfg e db db1 email password out h
        exact ⟨_, _, hgen⟩
      · obtain ⟨_, cu, _, _, _, _, _, hgen, _⟩ :=
          CustomerRefreshTokens_ok L cfg e db db1 r out h
        exact ⟨_, _, hgen⟩
    obtain ⟨adminID, level, hgen⟩ := key
    obtain ⟨err, herr, _, _, _, hme, hmw⟩ := generated_rejected_by_subject_codec L H cfg _ _
      adminID level _ _ _ hgen t
    exact ⟨err, herr, hme, hmw⟩

/-- C27, concrete instances: the access token of the sample administrator login
is refused by `ParseAccessToken`; a token issued with expiry second 0 is refused
with "invalid token type" long after that second, where the claims codec reports
it expired; and a token with `typ` "access" and a subject is accepted. -/
theorem subject_codec_rejects_issued_tokens_witness :
    (∀ t : Time, ∃ err, ParseAccessToken sampleLib sampleLibHMAC sampleCfg t
          (Tokens.ofResult sampleAdminLogin).accessToken = .error err
        ∧ (∀ (α : Type) (first : String → Except Err α),
            AuthService.Me sampleLib sampleLibHMAC sampleCfg t first
              (Tokens.ofResult sampleAdminLogin).accessToken = .error err)
        ∧ (∀ c : Context, AuthMiddleware sampleLib sampleLibHMAC sampleCfg t
            (.bearer (Tokens.ofResult sampleAdminLogin).accessToken) c = c))
    ∧ ParseAccessToken sampleLib sampleLibHMAC sampleCfg 1700000000000000000
        (Tokens.ofResult sampleAdminLogin).accessToken = .error (.New "invalid token type")
    ∧ GenerateAccessTokenWithLevel sampleLib sampleCfg 0 0 sampleAdmin.ID "SUPERADMIN" 500000000
        = .ok (sampleEpochToken, 500000000)
    ∧ ParseAccessToken sampleLib sampleLibHMAC sampleCfg 1700000000000000000 sampleEpochToken
        = .error (.New "invalid token type")
    ∧ ParseAccessTokenClaims sampleLib sampleCfg 1700000000000000000 sampleEpochToken
        = .error .ErrTokenExpired
    ∧ ParseAccessToken sampleLib sampleLibHMAC sampleCfg 1700000000000000000
        sampleSubjectToken = .ok "42" :=
  ⟨(subject_codec_rejects_issued_tokens sampleLib sampleLibHMAC sampleCfg).2 sampleEnv sampleDB
      sampleAdminLogin.2 (Tokens.ofResult sampleAdminLogin)
      (Or.inl ⟨"a@example.com", "correct", by rfl⟩),
    by rfl, by rfl, by rfl, by rfl, by rfl⟩

/-! ## The identifiers of `internal/uuid` -/

theorem shiftRight_four (n : Nat) : n >>> 4 = n / 16 := by
  simp only [Nat.shiftRight_eq_div_pow]

theorem land_fifteen (n : Nat) : n &&& 0x0f = n % 16 := by
  have h := Nat.and_pow_two_sub_one_eq_mod n 4
  simpa using h

theorem byte_shift_hi (n k : Nat) : (byte (n >>> k)).val >>> 4 = n / 2 ^ k / 16 % 16 := by
  simp only [byte, Nat.shiftRight_eq_div_pow]
  omega

theorem byte_shift_lo (n k : Nat) : (byte (n >>> k)).val &&& 0x0f = n / 2 ^ k % 16 := by
  rw [land_fifteen]
  simp only [byte, Nat.shiftRight_eq_div_pow]
  omega

theorem byte_hi (n : Nat) : (byte n).val >>> 4 = n / 16 % 16 := by
  simp only [byte, Nat.shiftRight_eq_div_pow]
  omega

theorem byte_lo (n : Nat) : (byte n).val &&& 0x0f = n % 16 := by
  rw [land_fifteen]
  simp only [byte]
  omega

theorem version_byte (x : Byte) :
    (byte ((x.val &&& 0x0F) ||| 0x70)).val = 112 + x.val % 16 := by
  have hland : x.val &&& 0x0F = x.val % 16 := land_fifteen x.val
  have hlt : x.val % 16 < 2 ^ 4 := by omega
  have key := Nat.mul_add_lt_is_or hlt 7
  have hor : x.val % 16 ||| 0x70 = 112 + x.val % 16 := by
    rw [Nat.lor_comm]
    have h112 : (2 ^ 4 * 7 : Nat) = 112 := by norm_num
    rw [h112] at key
    exact key.symm
  rw [hland, hor]
  simp only [byte]
  omega

theorem variant_byte (x : Byte) :
    (byte ((x.val &&& 0x3F) ||| 0x80)).val = 128 + x.val % 64 := by
  have hland : x.val &&& 0x3F = x.val % 64 := by
    have h := Nat.and_pow_two_sub_one_eq_mod x.val 6
    simpa using h
  have hlt : x.val % 64 < 2 ^ 6 := by omega
  have key := Nat.mul_add_lt_is_or hlt 2
  have hor : x.val % 64 ||| 0x80 = 128 + x.val % 64 := by
    rw [Nat.lor_comm]
    have h128 : (2 ^ 6 * 2 : Nat) = 128 := by norm_num
    rw [h128] at key
    exact key.symm
  rw [hland, hor]
  simp only [byte]
  omega

theorem UnixNano_range (t : Time) :
    -9223372036854775808 ≤ UnixNano t ∧ UnixNano t < 9223372036854775808 := by
  unfold UnixNano
  omega

theorem UnixNano_of_int64 (t : Int) (h1 : -9223372036854775808 ≤ t)
    (h2 : t < 9223372036854775808) : UnixNano t = t := by
  unfold UnixNano
  omega

theorem uuid_ts_eq (now : Time) :
    ((uuid.ts now : Nat) : Int) = Int.tdiv (UnixNano now) 1000000 % 281474976710656 := by
  unfold uuid.ts
  have h48 : (0xFFFFFFFFFFFF : Nat) = 2 ^ 48 - 1 := by norm_num
  rw [h48, Nat.and_pow_two_sub_one_eq_mod]
  omega

theorem uuid_ts_lt (now : Time) : uuid.ts now < 281474976710656 := by
  have := uuid_ts_eq now
  omega

theorem uuid_New_chars (now : Time) (r : Fin 10 → Byte) :
    uuid.New now (some r) = .ok (String.mk
      [ hextable.getD (uuid.ts now / 17592186044416 % 16) '0',
        hextable.getD (uuid.ts now / 1099511627776 % 16) '0',
        hextable.getD (uuid.ts now / 68719476736 % 16) '0',
        hextable.getD (uuid.ts now / 4294967296 % 16) '0',
        hextable.getD (uuid.ts now / 268435456 % 16) '0',
        hextable.getD (uuid.ts now / 16777216 % 16) '0',
        hextable.getD (uuid.ts now / 1048576 % 16) '0',
        hextable.getD (uuid.ts now / 65536 % 16) '0', '-',
        hextable.getD (uuid.ts now / 4096 % 16) '0', hextable.getD (uuid.ts now / 256 % 16) '0',
        hextable.getD (uuid.ts now / 16 % 16) '0', hextable.getD (uuid.ts now % 16) '0', '-',
        '7', hextable.getD ((r 0).val % 16) '0', hextable.getD ((r 1).val / 16) '0',
        hextable.getD ((r 1).val % 16) '0', '-', hextable.getD (8 + (r 2).val / 16 % 4) '0',
        hextable.getD ((r 2).val % 16) '0', hextable.getD ((r 3).val / 16) '0',
        hextable.getD ((r 3).val % 16) '0', '-', hextable.getD ((r 4).val / 16) '0',
        hextable.getD ((r 4).val % 16) '0', hextable.getD ((r 5).val / 16) '0',
        hextable.getD ((r 5).val % 16) '0', hextable.getD ((r 6).val / 16) '0',
        hextable.getD ((r 6).val % 16) '0', hextable.getD ((r 7).val / 16) '0',
        hextable.getD ((r 7).val % 16) '0', hextable.getD ((r 8).val / 16) '0',
        hextable.getD ((r 8).val % 16) '0', hextable.getD ((r 9).val / 16) '0',
        hextable.getD ((r 9).val % 16) '0' ]) := by
  have h0 : uuid.New now (some r) = .ok (String.mk
      [ hextable.getD ((byte (uuid.ts now >>> 40)).val >>> 4) '0',
        hextable.getD ((byte (uuid.ts now >>> 40)).val &&& 0x0f) '0',
        hextable.getD ((byte (uuid.ts now >>> 32)).val >>> 4) '0',
        hextable.getD ((byte (uuid.ts now >>> 32)).val &&& 0x0f) '0',
        hextable.getD ((byte (uuid.ts now >>> 24)).val >>> 4) '0',
        hextable.getD ((byte (uuid.ts now >>> 24)).val &&& 0x0f) '0',
        hextable.getD ((byte (uuid.ts now >>> 16)).val >>> 4) '0',
        hextable.getD ((byte (uuid.ts now >>> 16)).val &&& 0x0f) '0',
        '-',
        hextable.getD ((byte (uuid.ts now >>> 8)).val >>> 4) '0',
        hextable.getD ((byte (uuid.ts now >>> 8)).val &&& 0x0f) '0',
        hextable.getD ((byte (uuid.ts now)).val >>> 4) '0',
        hextable.getD ((byte (uuid.ts now)).val &&& 0x0f) '0',
        '-',
        hextable.getD ((byte (((r 0).val &&& 0x0F) ||| 0x70)).val >>> 4) '0',
        hextable.getD ((byte (((r 0).val &&& 0x0F) ||| 0x70)).val &&& 0x0f) '0',
        hextable.getD ((r 1).val >>> 4) '0', hextable.getD ((r 1).val &&& 0x0f) '0',
        '-',
        hextable.getD ((byte (((r 2).val &&& 0x3F) ||| 0x80)).val >>> 4) '0',
        hextable.getD ((byte (((r 2).val &&& 0x3F) ||| 0x80)).val &&& 0x0f) '0',
        hextable.getD ((r 3).val >>> 4) '0', hextable.getD ((r 3).val &&& 0x0f) '0',
        '-',
        hextable.getD ((r 4).val >>> 4) '0', hextable.getD ((r 4).val &&& 0x0f) '0',
        hextable.getD ((r 5).val >>> 4) '0', hextable.getD ((r 5).val &&& 0x0f) '0',
        hextable.getD ((r 6).val >>> 4) '0', hextable.getD ((r 6).val &&& 0x0f) '0',
        hextable.getD ((r 7).val >>> 4) '0', hextable.getD ((r 7).val &&& 0x0f) '0',
        hextable.getD ((r 8).val >>> 4) '0', hextable.getD ((r 8).val &&& 0x0f) '0',
        hextable.getD ((r 9).val >>> 4) '0', hextable.getD ((r 9).val &&& 0x0f) '0' ]) := rfl
  rw [h0]
  have a0 : (byte (uuid.ts now >>> 40)).val >>> 4 = uuid.ts now / 17592186044416 % 16 := by
    rw [byte_shift_hi]; norm_num [Nat.div_div_eq_div_mul]
  have b0 : (byte (uuid.ts now >>> 40)).val &&& 0x0f = uuid.ts now / 1099511627776 % 16 := by
    rw [byte_shift_lo]; norm_num
  have a1 : (byte (uuid.ts now >>> 32)).val >>> 4 = uuid.ts now / 68719476736 % 16 := by
    rw [byte_shift_hi]; norm_num [Nat.div_div_eq_div_mul]
  have b1 : (byte (uuid.ts now >>> 32)).val &&& 0x0f = uuid.ts now / 4294967296 % 16 := by
    rw [byte_shift_lo]; norm_num
  have a2 : (byte (uuid.ts now >>> 24)).val >>> 4 = uuid.ts now / 268435456 % 16 := by
    rw [byte_shift_hi]; norm_num [Nat.div_div_eq_div_mul]
  have b2 : (byte (uuid.ts now >>> 24)).val &&& 0x0f = uuid.ts now / 16777216 % 16 := by
    rw [byte_shift_lo]; norm_num
  have a3 : (byte (uuid.ts now >>> 16)).val >>> 4 = uuid.ts now / 1048576 % 16 := by
    rw [byte_shift_hi]; norm_num [Nat.div_div_eq_div_mul]
  have b3 : (byte (uuid.ts now >>> 16)).val &&& 0x0f = uuid.ts now / 65536 % 16 := by
    rw [byte_shift_lo]; norm_num
  have a4 : (byte (uuid.ts now >>> 8)).val >>> 4 = uuid.ts now / 4096 % 16 := by
    rw [byte_shift_hi]; norm_num [Nat.div_div_eq_div_mul]
  have b4 : (byte (uuid.ts now >>> 8)).val &&& 0x0f = uuid.ts now / 256 % 16 := by
    rw [byte_shift_lo]; norm_num
  have a5 : (byte (uuid.ts now)).val >>> 4 = uuid.ts now / 16 % 16 := byte_hi _
  have b5 : (byte (uuid.ts now)).val &&& 0x0f = uuid.ts now % 16 := byte_lo _
  have c0 : hextable.getD ((byte (((r 0).val &&& 0x0F) ||| 0x70)).val >>> 4) '0' = '7' := by
    rw [version_byte, shiftRight_four]
    have h7 : (112 + (r 0).val % 16) / 16 = 7 := by omega
    rw [h7]
    rfl
  have c1 : (byte (((r 0).val &&& 0x0F) ||| 0x70)).val &&& 0x0f = (r 0).val % 16 := by
    rw [version_byte, land_fifteen]; omega
  have c2 : (byte (((r 2).val &&& 0x3F) ||| 0x80)).val >>> 4 = 8 + (r 2).val / 16 % 4 := by
    rw [variant_byte, shiftRight_four]; omega
  have c3 : (byte (((r 2).val &&& 0x3F) ||| 0x80)).val &&& 0x0f = (r 2).val % 16 := by
    rw [variant_byte, land_fifteen]; omega
  rw [a0, b0, a1, b1, a2, b2, a3, b3, a4, b4, a5, b5, c0, c1, c2, c3, shiftRight_four (r 1).val,
    land_fifteen (r 1).val, shiftRight_four (r 3).val, land_fifteen (r 3).val,
    shiftRight_four (r 4).val, land_fifteen (r 4).val, shiftRight_four (r 5).val,
    land_fifteen (r 5).val, shiftRight_four (r 6).val, land_fifteen (r 6).val,
    shiftRight_four (r 7).val, land_fifteen (r 7).val, shiftRight_four (r 8).val,
    land_fifteen (r 8).val, shiftRight_four (r 9).val, land_fifteen (r 9).val]

theorem indexOf_hextable (n : Nat) (h : n < 16) : hextable.indexOf (hextable.getD n '0') = n := by
  interval_cases n <;> rfl

theorem hextable_getD_lt (a b : Nat) (h : a < b) (hb : b < 16) :
    hextable.getD a '0' < hextable.getD b '0' := by
  interval_cases b <;> interval_cases a <;> decide

theorem uuid_ts_chars_lt (N M : Nat) (h : N < M) (hM : M < 281474976710656)
    (t1 t2 : List Char) :
    List.Lex (fun a b : Char => a < b)
      (hextable.getD (N / 17592186044416 % 16) '0' ::
        hextable.getD (N / 1099511627776 % 16) '0' :: hextable.getD (N / 68719476736 % 16) '0' ::
        hextable.getD (N / 4294967296 % 16) '0' :: hextable.getD (N / 268435456 % 16) '0' ::
        hextable.getD (N / 16777216 % 16) '0' :: hextable.getD (N / 1048576 % 16) '0' ::
        hextable.getD (N / 65536 % 16) '0' :: '-' :: hextable.getD (N / 4096 % 16) '0' ::
        hextable.getD (N / 256 % 16) '0' :: hextable.getD (N / 16 % 16) '0' ::
        hextable.getD (N % 16) '0' :: t1)
      (hextable.getD (M / 17592186044416 % 16) '0' ::
        hextable.getD (M / 1099511627776 % 16) '0' :: hextable.getD (M / 68719476736 % 16) '0' ::
        hextable.getD (M / 4294967296 % 16) '0' :: hextable.getD (M / 268435456 % 16) '0' ::
        hextable.getD (M / 16777216 % 16) '0' :: hextable.getD (M / 1048576 % 16) '0' ::
        hextable.getD (M / 65536 % 16) '0' :: '-' :: hextable.getD (M / 4096 % 16) '0' ::
        hextable.getD (M / 256 % 16) '0' :: hextable.getD (M / 16 % 16) '0' ::
        hextable.getD (M % 16) '0' :: t2) := by
  rcases Nat.lt_trichotomy (N / 17592186044416 % 16) (M / 17592186044416 % 16) with h11 | h11 | h11
  · exact List.Lex.rel (hextable_getD_lt _ _ h11 (by omega))
  swap
  · exfalso; omega
  rw [h11]
  apply List.Lex.cons
  have e11 : N / 17592186044416 = M / 17592186044416 := by omega
  clear h11
  rcases Nat.lt_trichotomy (N / 1099511627776 % 16) (M / 1099511627776 % 16) with h10 | h10 | h10
  · exact List.Lex.rel (hextable_getD_lt _ _ h10 (by omega))
  swap
  · exfalso; omega
  rw [h10]
  apply List.Lex.cons
  have e10 : N / 1099511627776 = M / 1099511627776 := by omega
  clear e11
  clear h10
  rcases Nat.lt_trichotomy (N / 68719476736 % 16) (M / 68719476736 % 16) with h9 | h9 | h9
  · exact List.Lex.rel (hextable_getD_lt _ _ h9 (by omega))
  swap
  · exfalso; omega
  rw [h9]
  apply List.Lex.cons
  have e9 : N / 68719476736 = M / 68719476736 := by omega
  clear e10
  clear h9
  rcases Nat.lt_trichotomy (N / 4294967296 % 16) (M / 4294967296 % 16) with h8 | h8 | h8
  · exact List.Lex.rel (hextable_getD_lt _ _ h8 (by omega))
  swap
  · exfalso; omega
  rw [h8]
  apply List.Lex.cons
  have e8 : N / 4294967296 = M / 4294967296 := by omega
  clear e9
  clear h8
  rcases Nat.lt_trichotomy (N / 268435456 % 16) (M / 268435456 % 16) with h7 | h7 | h7
  · exact List.Lex.rel (hextable_getD_lt _ _ h7 (by omega))
  swap
  · exfalso; omega
  rw [h7]
  apply List.Lex.cons
  have e7 : N / 268435456 = M / 268435456 := by omega
  clear e8
  clear h7
  rcases Nat.lt_trichotomy (N / 16777216 % 16) (M / 16777216 % 16) with h6 | h6 | h6
  · exact List.Lex.rel (hextable_getD_lt _ _ h6 (by omega))
  swap
  · exfalso; omega
  rw [h6]
  apply List.Lex.cons
  have e6 : N / 16777216 = M / 16777216 := by omega
  clear e7
  clear h6
  rcases Nat.lt_trichotomy (N / 1048576 % 16) (M / 1048576 % 16) with h5 | h5 | h5
  · exact List.Lex.rel (hextable_getD_lt _ _ h5 (by omega))
  swap
  · exfalso; omega
  rw [h5]
  apply List.Lex.cons
  have e5 : N / 1048576 = M / 1048576 := by omega
  clear e6
  clear h5
  rcases Nat.lt_trichotomy (N / 65536 % 16) (M / 65536 % 16) with h4 | h4 | h4
  · exact List.Lex.rel (hextable_getD_lt _ _ h4 (by omega))
  swap
  · exfalso; omega
  rw [h4]
  apply List.Lex.cons
  have e4 : N / 65536 = M / 65536 := by omega
  clear e5
  clear h4
  apply List.Lex.cons
  rcases Nat.lt_trichotomy (N / 4096 % 16) (M / 4096 % 16) with h3 | h3 | h3
  · exact List.Lex.rel (hextable_getD_lt _ _ h3 (by omega))
  swap
  · exfalso; omega
  rw [h3]
  apply List.Lex.cons
  have e3 : N / 4096 = M / 4096 := by omega
  clear e4
  clear h3
  rcases Nat.lt_trichotomy (N / 256 % 16) (M / 256 % 16) with h2 | h2 | h2
  · exact List.Lex.rel (hextable_getD_lt _ _ h2 (by omega))
  swap
  · exfalso; omega
  rw [h2]
  apply List.Lex.cons
  have e2 : N / 256 = M / 256 := by omega
  clear e3
  clear h2
  rcases Nat.lt_trichotomy (N / 16 % 16) (M / 16 % 16) with h1 | h1 | h1
  · exact List.Lex.rel (hextable_getD_lt _ _ h1 (by omega))
  swap
  · exfalso; omega
  rw [h1]
  apply List.Lex.cons
  have e1 : N / 16 = M / 16 := by omega
  clear e2
  clear h1
  rcases Nat.lt_trichotomy (N % 16) (M % 16) with h0 | h0 | h0
  · exact List.Lex.rel (hextable_getD_lt _ _ h0 (by omega))
  swap
  · exfalso; omega
  exfalso; omega

theorem uuid_chars_format (N : Nat) (r : Fin 10 → Byte) :
    (String.mk
      [ hextable.getD (N / 17592186044416 % 16) '0', hextable.getD (N / 1099511627776 % 16) '0',
        hextable.getD (N / 68719476736 % 16) '0', hextable.getD (N / 4294967296 % 16) '0',
        hextable.getD (N / 268435456 % 16) '0', hextable.getD (N / 16777216 % 16) '0',
        hextable.getD (N / 1048576 % 16) '0', hextable.getD (N / 65536 % 16) '0', '-',
        hextable.getD (N / 4096 % 16) '0', hextable.getD (N / 256 % 16) '0',
        hextable.getD (N / 16 % 16) '0', hextable.getD (N % 16) '0', '-', '7',
        hextable.getD ((r 0).val % 16) '0', hextable.getD ((r 1).val / 16) '0',
        hextable.getD ((r 1).val % 16) '0', '-', hextable.getD (8 + (r 2).val / 16 % 4) '0',
        hextable.getD ((r 2).val % 16) '0', hextable.getD ((r 3).val / 16) '0',
        hextable.getD ((r 3).val % 16) '0', '-', hextable.getD ((r 4).val / 16) '0',
        hextable.getD ((r 4).val % 16) '0', hextable.getD ((r 5).val / 16) '0',
        hextable.getD ((r 5).val % 16) '0', hextable.getD ((r 6).val / 16) '0',
        hextable.getD ((r 6).val % 16) '0', hextable.getD ((r 7).val / 16) '0',
        hextable.getD ((r 7).val % 16) '0', hextable.getD ((r 8).val / 16) '0',
        hextable.getD ((r 8).val % 16) '0', hextable.getD ((r 9).val / 16) '0',
        hextable.getD ((r 9).val % 16) '0' ]).length = 36
    ∧ (∀ i ∈ [8, 13, 18, 23], (String.mk
      [ hextable.getD (N / 17592186044416 % 16) '0', hextable.getD (N / 1099511627776 % 16) '0',
        hextable.getD (N / 68719476736 % 16) '0', hextable.getD (N / 4294967296 % 16) '0',
        hextable.getD (N / 268435456 % 16) '0', hextable.getD (N / 16777216 % 16) '0',
        hextable.getD (N / 1048576 % 16) '0', hextable.getD (N / 65536 % 16) '0', '-',
        hextable.getD (N / 4096 % 16) '0', hextable.getD (N / 256 % 16) '0',
        hextable.getD (N / 16 % 16) '0', hextable.getD (N % 16) '0', '-', '7',
        hextable.getD ((r 0).val % 16) '0', hextable.getD ((r 1).val / 16) '0',
        hextable.getD ((r 1).val % 16) '0', '-', hextable.getD (8 + (r 2).val / 16 % 4) '0',
        hextable.getD ((r 2).val % 16) '0', hextable.getD ((r 3).val / 16) '0',
        hextable.getD ((r 3).val % 16) '0', '-', hextable.getD ((r 4).val / 16) '0',
        hextable.getD ((r 4).val % 16) '0', hextable.getD ((r 5).val / 16) '0',
        hextable.getD ((r 5).val % 16) '0', hextable.getD ((r 6).val / 16) '0',
        hextable.getD ((r 6).val % 16) '0', hextable.getD ((r 7).val / 16) '0',
        hextable.getD ((r 7).val % 16) '0', hextable.getD ((r 8).val / 16) '0',
        hextable.getD ((r 8).val % 16) '0', hextable.getD ((r 9).val / 16) '0',
        hextable.getD ((r 9).val % 16) '0' ]).toList.getD i ' ' = '-')
    ∧ (∀ i, i < 36 → i ∉ [8, 13, 18, 23] → (String.mk
      [ hextable.getD (N / 17592186044416 % 16) '0', hextable.getD (N / 1099511627776 % 16) '0',
        hextable.getD (N / 68719476736 % 16) '0', hextable.getD (N / 4294967296 % 16) '0',
        hextable.getD (N / 268435456 % 16) '0', hextable.getD (N / 16777216 % 16) '0',
        hextable.getD (N / 1048576 % 16) '0', hextable.getD (N / 65536 % 16) '0', '-',
        hextable.getD (N / 4096 % 16) '0', hextable.getD (N / 256 % 16) '0',
        hextable.getD (N / 16 % 16) '0', hextable.getD (N % 16) '0', '-', '7',
        hextable.getD ((r 0).val % 16) '0', hextable.getD ((r 1).val / 16) '0',
        hextable.getD ((r 1).val % 16) '0', '-', hextable.getD (8 + (r 2).val / 16 % 4) '0',
        hextable.getD ((r 2).val % 16) '0', hextable.getD ((r 3).val / 16) '0',
        hextable.getD ((r 3).val % 16) '0', '-', hextable.getD ((r 4).val / 16) '0',
        hextable.getD ((r 4).val % 16) '0', hextable.getD ((r 5).val / 16) '0',
        hextable.getD ((r 5).val % 16) '0', hextable.getD ((r 6).val / 16) '0',
        hextable.getD ((r 6).val % 16) '0', hextable.getD ((r 7).val / 16) '0',
        hextable.getD ((r 7).val % 16) '0', hextable.getD ((r 8).val / 16) '0',
        hextable.getD ((r 8).val % 16) '0', hextable.getD ((r 9).val / 16) '0',
        hextable.getD ((r 9).val % 16) '0' ]).toList.getD i ' ' ∈ hextable)
    ∧ (String.mk
      [ hextable.getD (N / 17592186044416 % 16) '0', hextable.getD (N / 1099511627776 % 16) '0',
        hextable.getD (N / 68719476736 % 16) '0', hextable.getD (N / 4294967296 % 16) '0',
        hextable.getD (N / 268435456 % 16) '0', hextable.getD (N / 16777216 % 16) '0',
        hextable.getD (N / 1048576 % 16) '0', hextable.getD (N / 65536 % 16) '0', '-',
        hextable.getD (N / 4096 % 16) '0', hextable.getD (N / 256 % 16) '0',
        hextable.getD (N / 16 % 16) '0', hextable.getD (N % 16) '0', '-', '7',
        hextable.getD ((r 0).val % 16) '0', hextable.getD ((r 1).val / 16) '0',
        hextable.getD ((r 1).val % 16) '0', '-', hextable.getD (8 + (r 2).val / 16 % 4) '0',
        hextable.getD ((r 2).val % 16) '0', hextable.getD ((r 3).val / 16) '0',
        hextable.getD ((r 3).val % 16) '0', '-', hextable.getD ((r 4).val / 16) '0',
        hextable.getD ((r 4).val % 16) '0', hextable.getD ((r 5).val / 16) '0',
        hextable.getD ((r 5).val % 16) '0', hextable.getD ((r 6).val / 16) '0',
        hextable.getD ((r 6).val % 16) '0', hextable.getD ((r 7).val / 16) '0',
        hextable.getD ((r 7).val % 16) '0', hextable.getD ((r 8).val / 16) '0',
        hextable.getD ((r 8).val % 16) '0', hextable.getD ((r 9).val / 16) '0',
        hextable.getD ((r 9).val % 16) '0' ]).toList.getD 14 ' ' = '7' := by
  refine ⟨rfl, ?_, ?_, rfl⟩
  · intro i hi
    simp only [List.mem_cons, List.mem_singleton, List.not_mem_nil, or_false] at hi
    rcases hi with rfl | rfl | rfl | rfl <;> rfl
  · intro i hi hn
    interval_cases i
    all_goals first
      | exact absurd (by decide) hn
      | exact hextable_getD_mem _ (by omega)
      | exact (show '7' ∈ hextable by decide)

theorem hexValue_ts_chars (N : Nat) (h : N < 281474976710656) :
    hexValue
      [ hextable.getD (N / 17592186044416 % 16) '0', hextable.getD (N / 1099511627776 % 16) '0',
        hextable.getD (N / 68719476736 % 16) '0', hextable.getD (N / 4294967296 % 16) '0',
        hextable.getD (N / 268435456 % 16) '0', hextable.getD (N / 16777216 % 16) '0',
        hextable.getD (N / 1048576 % 16) '0', hextable.getD (N / 65536 % 16) '0',
        hextable.getD (N / 4096 % 16) '0', hextable.getD (N / 256 % 16) '0',
        hextable.getD (N / 16 % 16) '0', hextable.getD (N % 16) '0' ] = N := by
  simp only [hexValue, List.foldl]
  rw [indexOf_hextable (N / 17592186044416 % 16) (by omega),
    indexOf_hextable (N / 1099511627776 % 16) (by omega),
    indexOf_hextable (N / 68719476736 % 16) (by omega),
    indexOf_hextable (N / 4294967296 % 16) (by omega),
    indexOf_hextable (N / 268435456 % 16) (by omega),
    indexOf_hextable (N / 16777216 % 16) (by omega),
    indexOf_hextable (N / 1048576 % 16) (by omega), indexOf_hextable (N / 65536 % 16) (by omega),
    indexOf_hextable (N / 4096 % 16) (by omega), indexOf_hextable (N / 256 % 16) (by omega),
    indexOf_hextable (N / 16 % 16) (by omega), indexOf_hextable (N % 16) (by omega)]
  have s11 : 0 * 16 + N / 17592186044416 % 16 = N / 17592186044416 := by omega
  have s10 : N / 17592186044416 * 16 + N / 1099511627776 % 16 = N / 1099511627776 := by omega
  have s9 : N / 1099511627776 * 16 + N / 68719476736 % 16 = N / 68719476736 := by omega
  have s8 : N / 68719476736 * 16 + N / 4294967296 % 16 = N / 4294967296 := by omega
  have s7 : N / 4294967296 * 16 + N / 268435456 % 16 = N / 268435456 := by omega
  have s6 : N / 268435456 * 16 + N / 16777216 % 16 = N / 16777216 := by omega
  have s5 : N / 16777216 * 16 + N / 1048576 % 16 = N / 1048576 := by omega
  have s4 : N / 1048576 * 16 + N / 65536 % 16 = N / 65536 := by omega
  have s3 : N / 65536 * 16 + N / 4096 % 16 = N / 4096 := by omega
  have s2 : N / 4096 * 16 + N / 256 % 16 = N / 256 := by omega
  have s1 : N / 256 * 16 + N / 16 % 16 = N / 16 := by omega
  have s0 : N / 16 * 16 + N % 16 = N := by omega
  rw [s11, s10, s9, s8, s7, s6, s5, s4, s3, s2, s1, s0]

theorem uuid_chars_value (N : Nat) (r : Fin 10 → Byte) (h : N < 281474976710656) :
    hexValue ((String.mk
      [ hextable.getD (N / 17592186044416 % 16) '0', hextable.getD (N / 1099511627776 % 16) '0',
        hextable.getD (N / 68719476736 % 16) '0', hextable.getD (N / 4294967296 % 16) '0',
        hextable.getD (N / 268435456 % 16) '0', hextable.getD (N / 16777216 % 16) '0',
        hextable.getD (N / 1048576 % 16) '0', hextable.getD (N / 65536 % 16) '0', '-',
        hextable.getD (N / 4096 % 16) '0', hextable.getD (N / 256 % 16) '0',
        hextable.getD (N / 16 % 16) '0', hextable.getD (N % 16) '0', '-', '7',
        hextable.getD ((r 0).val % 16) '0', hextable.getD ((r 1).val / 16) '0',
        hextable.getD ((r 1).val % 16) '0', '-', hextable.getD (8 + (r 2).val / 16 % 4) '0',
        hextable.getD ((r 2).val % 16) '0', hextable.getD ((r 3).val / 16) '0',
        hextable.getD ((r 3).val % 16) '0', '-', hextable.getD ((r 4).val / 16) '0',
        hextable.getD ((r 4).val % 16) '0', hextable.getD ((r 5).val / 16) '0',
        hextable.getD ((r 5).val % 16) '0', hextable.getD ((r 6).val / 16) '0',
        hextable.getD ((r 6).val % 16) '0', hextable.getD ((r 7).val / 16) '0',
        hextable.getD ((r 7).val % 16) '0', hextable.getD ((r 8).val / 16) '0',
        hextable.getD ((r 8).val % 16) '0', hextable.getD ((r 9).val / 16) '0',
        hextable.getD ((r 9).val % 16) '0' ]).toList.take 8
      ++ ((String.mk
      [ hextable.getD (N / 17592186044416 % 16) '0', hextable.getD (N / 1099511627776 % 16) '0',
        hextable.getD (N / 68719476736 % 16) '0', hextable.getD (N / 4294967296 % 16) '0',
        hextable.getD (N / 268435456 % 16) '0', hextable.getD (N / 16777216 % 16) '0',
        hextable.getD (N / 1048576 % 16) '0', hextable.getD (N / 65536 % 16) '0', '-',
        hextable.getD (N / 4096 % 16) '0', hextable.getD (N / 256 % 16) '0',
        hextable.getD (N / 16 % 16) '0', hextable.getD (N % 16) '0', '-', '7',
        hextable.getD ((r 0).val % 16) '0', hextable.getD ((r 1).val / 16) '0',
        hextable.getD ((r 1).val % 16) '0', '-', hextable.getD (8 + (r 2).val / 16 % 4) '0',
        hextable.getD ((r 2).val % 16) '0', hextable.getD ((r 3).val / 16) '0',
        hextable.getD ((r 3).val % 16) '0', '-', hextable.getD ((r 4).val / 16) '0',
        hextable.getD ((r 4).val % 16) '0', hextable.getD ((r 5).val / 16) '0',
        hextable.getD ((r 5).val % 16) '0', hextable.getD ((r 6).val / 16) '0',
        hextable.getD ((r 6).val % 16) '0', hextable.getD ((r 7).val / 16) '0',
        hextable.getD ((r 7).val % 16) '0', hextable.getD ((r 8).val / 16) '0',
        hextable.getD ((r 8).val % 16) '0', hextable.getD ((r 9).val / 16) '0',
        hextable.getD ((r 9).val % 16) '0' ]).toList.drop 9).take 4) = N :=
  hexValue_ts_chars N h

theorem uuid_chars_variant (N : Nat) (r : Fin 10 → Byte) :
    hexValue [(String.mk
      [ hextable.getD (N / 17592186044416 % 16) '0', hextable.getD (N / 1099511627776 % 16) '0',
        hextable.getD (N / 68719476736 % 16) '0', hextable.getD (N / 4294967296 % 16) '0',
        hextable.getD (N / 268435456 % 16) '0', hextable.getD (N / 16777216 % 16) '0',
        hextable.getD (N / 1048576 % 16) '0', hextable.getD (N / 65536 % 16) '0', '-',
        hextable.getD (N / 4096 % 16) '0', hextable.getD (N / 256 % 16) '0',
        hextable.getD (N / 16 % 16) '0', hextable.getD (N % 16) '0', '-', '7',
        hextable.getD ((r 0).val % 16) '0', hextable.getD ((r 1).val / 16) '0',
        hextable.getD ((r 1).val % 16) '0', '-', hextable.getD (8 + (r 2).val / 16 % 4) '0',
        hextable.getD ((r 2).val % 16) '0', hextable.getD ((r 3).val / 16) '0',
        hextable.getD ((r 3).val % 16) '0', '-', hextable.getD ((r 4).val / 16) '0',
        hextable.getD ((r 4).val % 16) '0', hextable.getD ((r 5).val / 16) '0',
        hextable.getD ((r 5).val % 16) '0', hextable.getD ((r 6).val / 16) '0',
        hextable.getD ((r 6).val % 16) '0', hextable.getD ((r 7).val / 16) '0',
        hextable.getD ((r 7).val % 16) '0', hextable.getD ((r 8).val / 16) '0',
        hextable.getD ((r 8).val % 16) '0', hextable.getD ((r 9).val / 16) '0',
        hextable.getD ((r 9).val % 16) '0' ]).toList.getD 19 ' '] / 4 = 2 := by
  have h : hexValue [hextable.getD (8 + (r 2).val / 16 % 4) '0'] / 4 = 2 := by
    simp only [hexValue, List.foldl]
    rw [indexOf_hextable _ (by omega)]
    omega
  exact h

theorem uuid_chars_lt (N M : Nat) (r r2 : Fin 10 → Byte) (h : N < M)
    (hM : M < 281474976710656) :
    (String.mk
      [ hextable.getD (N / 17592186044416 % 16) '0', hextable.getD (N / 1099511627776 % 16) '0',
        hextable.getD (N / 68719476736 % 16) '0', hextable.getD (N / 4294967296 % 16) '0',
        hextable.getD (N / 268435456 % 16) '0', hextable.getD (N / 16777216 % 16) '0',
        hextable.getD (N / 1048576 % 16) '0', hextable.getD (N / 65536 % 16) '0', '-',
        hextable.getD (N / 4096 % 16) '0', hextable.getD (N / 256 % 16) '0',
        hextable.getD (N / 16 % 16) '0', hextable.getD (N % 16) '0', '-', '7',
        hextable.getD ((r 0).val % 16) '0', hextable.getD ((r 1).val / 16) '0',
        hextable.getD ((r 1).val % 16) '0', '-', hextable.getD (8 + (r 2).val / 16 % 4) '0',
        hextable.getD ((r 2).val % 16) '0', hextable.getD ((r 3).val / 16) '0',
        hextable.getD ((r 3).val % 16) '0', '-', hextable.getD ((r 4).val / 16) '0',
        hextable.getD ((r 4).val % 16) '0', hextable.getD ((r 5).val / 16) '0',
        hextable.getD ((r 5).val % 16) '0', hextable.getD ((r 6).val / 16) '0',
        hextable.getD ((r 6).val % 16) '0', hextable.getD ((r 7).val / 16) '0',
        hextable.getD ((r 7).val % 16) '0', hextable.getD ((r 8).val / 16) '0',
        hextable.getD ((r 8).val % 16) '0', hextable.getD ((r 9).val / 16) '0',
        hextable.getD ((r 9).val % 16) '0' ]).toList
    < (String.mk
      [ hextable.getD (M / 17592186044416 % 16) '0', hextable.getD (M / 1099511627776 % 16) '0',
        hextable.getD (M / 68719476736 % 16) '0', hextable.getD (M / 4294967296 % 16) '0',
        hextable.getD (M / 268435456 % 16) '0', hextable.getD (M / 16777216 % 16) '0',
        hextable.getD (M / 1048576 % 16) '0', hextable.getD (M / 65536 % 16) '0', '-',
        hextable.getD (M / 4096 % 16) '0', hextable.getD (M / 256 % 16) '0',
        hextable.getD (M / 16 % 16) '0', hextable.getD (M % 16) '0', '-', '7',
        hextable.getD ((r2 0).val % 16) '0', hextable.getD ((r2 1).val / 16) '0',
        hextable.getD ((r2 1).val % 16) '0', '-', hextable.getD (8 + (r2 2).val / 16 % 4) '0',
        hextable.getD ((r2 2).val % 16) '0', hextable.getD ((r2 3).val / 16) '0',
        hextable.getD ((r2 3).val % 16) '0', '-', hextable.getD ((r2 4).val / 16) '0',
        hextable.getD ((r2 4).val % 16) '0', hextable.getD ((r2 5).val / 16) '0',
        hextable.getD ((r2 5).val % 16) '0', hextable.getD ((r2 6).val / 16) '0',
        hextable.getD ((r2 6).val % 16) '0', hextable.getD ((r2 7).val / 16) '0',
        hextable.getD ((r2 7).val % 16) '0', hextable.getD ((r2 8).val / 16) '0',
        hextable.getD ((r2 8).val % 16) '0', hextable.getD ((r2 9).val / 16) '0',
        hextable.getD ((r2 9).val % 16) '0' ]).toList :=
  uuid_ts_chars_lt N M h hM
    ('-' :: [ '7', hextable.getD ((r 0).val % 16) '0', hextable.getD ((r 1).val / 16) '0',
      hextable.getD ((r 1).val % 16) '0', '-', hextable.getD (8 + (r 2).val / 16 % 4) '0',
      hextable.getD ((r 2).val % 16) '0', hextable.getD ((r 3).val / 16) '0',
      hextable.getD ((r 3).val % 16) '0', '-', hextable.getD ((r 4).val / 16) '0',
      hextable.getD ((r 4).val % 16) '0', hextable.getD ((r 5).val / 16) '0',
      hextable.getD ((r 5).val % 16) '0', hextable.getD ((r 6).val / 16) '0',
      hextable.getD ((r 6).val % 16) '0', hextable.getD ((r 7).val / 16) '0',
      hextable.getD ((r 7).val % 16) '0', hextable.getD ((r 8).val / 16) '0',
      hextable.getD ((r 8).val % 16) '0', hextable.getD ((r 9).val / 16) '0',
      hextable.getD ((r 9).val % 16) '0' ])
    ('-' :: [ '7', hextable.getD ((r2 0).val % 16) '0', hextable.getD ((r2 1).val / 16) '0',
      hextable.getD ((r2 1).val % 16) '0', '-', hextable.getD (8 + (r2 2).val / 16 % 4) '0',
      hextable.getD ((r2 2).val % 16) '0', hextable.getD ((r2 3).val / 16) '0',
      hextable.getD ((r2 3).val % 16) '0', '-', hextable.getD ((r2 4).val / 16) '0',
      hextable.getD ((r2 4).val % 16) '0', hextable.getD ((r2 5).val / 16) '0',
      hextable.getD ((r2 5).val % 16) '0', hextable.getD ((r2 6).val / 16) '0',
      hextable.getD ((r2 6).val % 16) '0', hextable.getD ((r2 7).val / 16) '0',
      hextable.getD ((r2 7).val % 16) '0', hextable.getD ((r2 8).val / 16) '0',
      hextable.getD ((r2 8).val % 16) '0', hextable.getD ((r2 9).val / 16) '0',
      hextable.getD ((r2 9).val % 16) '0' ])

/-- C22: for every clock reading and every ten random bytes `uuid.New` returns a
string of 36 characters with `-` at the positions 8, 13, 18 and 23 and lowercase
hexadecimal digits elsewhere; its first twelve digits write the low 48 bits of the
millisecond timestamp (the `int64` reading `UnixNano()` divided by 10^6), most
significant first, the digit at position 14 is `7` and the digit at position 19
has the two top bits `10`. With the timestamps taken as the code converts them,
to `uint64`, an identifier compares below every identifier drawn at a greater
timestamp under 2^48, whatever the random bytes are. While the clock is in the
range of `int64` nanoseconds, `UnixNano()` is the clock reading itself. -/
theorem uuid_New_v7_time_ordered (now : Time) (r : Fin 10 → Byte) :
    ∃ id, uuid.New now (some r) = .ok id
      ∧ id.length = 36
      ∧ (∀ i ∈ [8, 13, 18, 23], id.toList.getD i ' ' = '-')
      ∧ (∀ i, i < 36 → i ∉ [8, 13, 18, 23] → id.toList.getD i ' ' ∈ hextable)
      ∧ ((hexValue (id.toList.take 8 ++ (id.toList.drop 9).take 4) : Nat) : Int)
          = Int.tdiv (UnixNano now) 1000000 % 281474976710656
      ∧ id.toList.getD 14 ' ' = '7'
      ∧ hexValue [id.toList.getD 19 ' '] / 4 = 2
      ∧ (∀ (now2 : Time) (r2 : Fin 10 → Byte) (id2 : String),
          uuid.New now2 (some r2) = .ok id2 →
          Int.tdiv (UnixNano now) 1000000 % 18446744073709551616
            < Int.tdiv (UnixNano now2) 1000000 % 18446744073709551616 →
          Int.tdiv (UnixNano now2) 1000000 % 18446744073709551616 < 281474976710656 →
          id.toList < id2.toList ∧ id < id2)
      ∧ (-9223372036854775808 ≤ now → now < 9223372036854775808 → UnixNano now = now) := by
  obtain ⟨hlen, hdash, hhex, hver⟩ := uuid_chars_format (uuid.ts now) r
  refine ⟨_, uuid_New_chars now r, hlen, hdash, hhex, ?_, hver,
    uuid_chars_variant (uuid.ts now) r, ?_, UnixNano_of_int64 now⟩
  · rw [uuid_chars_value (uuid.ts now) r (uuid_ts_lt now)]
    exact uuid_ts_eq now
  · intro now2 r2 id2 h2 hlt hup
    rw [uuid_New_chars now2 r2] at h2
    have hid := Except.ok.inj h2
    subst hid
    have e1 := uuid_ts_eq now
    have e2 := uuid_ts_eq now2
    have hts : uuid.ts now < uuid.ts now2 := by omega
    have key := uuid_chars_lt (uuid.ts now) (uuid.ts now2) r r2 hts (uuid_ts_lt now2)
    exact ⟨key, String.lt_iff_toList_lt.mpr key⟩

/-- C22, concrete instance: two identifiers drawn one millisecond apart. -/
theorem uuid_New_v7_time_ordered_witness :
    uuid.New 1700000000000000004 (some fun i => byte (17 * i.val))
      = .ok "018bcfe5-6800-7011-a233-445566778899"
    ∧ uuid.New 1700000000001000000 (some fun _ => byte 0)
      = .ok "018bcfe5-6801-7000-8000-000000000000"
    ∧ "018bcfe5-6800-7011-a233-445566778899".toList
        < "018bcfe5-6801-7000-8000-000000000000".toList
    ∧ "018bcfe5-6800-7011-a233-445566778899" < "018bcfe5-6801-7000-8000-000000000000" := by
  have h1 : uuid.New 1700000000000000004 (some fun i => byte (17 * i.val))
      = .ok "018bcfe5-6800-7011-a233-445566778899" := by rfl
  have h2 : uuid.New 1700000000001000000 (some fun _ => byte 0)
      = .ok "018bcfe5-6801-7000-8000-000000000000" := by rfl
  obtain ⟨id, hid, -, -, -, -, -, -, hmono, -⟩ :=
    uuid_New_v7_time_ordered 1700000000000000004 (fun i => byte (17 * i.val))
  rw [h1] at hid
  have hid1 := Except.ok.inj hid
  subst hid1
  exact ⟨h1, h2, hmono 1700000000001000000 (fun _ => byte 0) _ h2 (by decide) (by decide)⟩

end AppNode
